import Mathlib

/-!
# SHA-256 / SHA-256d reference implementation and the leading-zero counter

A shallow embedding of `sha256_ref.cpp` (namespace `dhcc`) and of the
`count_leading_zeros` helper of the mining harnesses.

Conventions of the embedding:

* a `uint8_t` or `uint32_t` value is a `Nat`; every operation that can leave the
  32-bit range in C is followed by an explicit `% 4294967296`, every `(uint8_t)`
  cast is `% 256`;
* a C array (`uint32_t w[64]`, `uint8_t block[64]`, the `data` buffer) is a
  `List Nat`; a read `p[i]` is `p.getD i 0`, a write `p[i] = v` is `p.set i v`,
  pointer arithmetic `data + off` is `data.drop off`;
* a `for` loop over a fixed range is a `List.foldl` over that range, the
  `while` loop of `sha256` is a structurally recursive function on a fuel
  argument (the fuel handed to it is shown to be sufficient).
-/

namespace dhcc

/-! ## `sha256_ref.cpp` -/

/-- Round constants, `static const uint32_t K[64]` (the same 64 values, digits in upper case). -/
def K : List Nat := [
  0x428A2F98,0x71374491,0xB5C0FBCF,0xE9B5DBA5,0x3956C25B,0x59F111F1,0x923F82A4,0xAB1C5ED5,
  0xD807AA98,0x12835B01,0x243185BE,0x550C7DC3,0x72BE5D74,0x80DEB1FE,0x9BDC06A7,0xC19BF174,
  0xE49B69C1,0xEFBE4786,0x0FC19DC6,0x240CA1CC,0x2DE92C6F,0x4A7484AA,0x5CB0A9DC,0x76F988DA,
  0x983E5152,0xA831C66D,0xB00327C8,0xBF597FC7,0xC6E00BF3,0xD5A79147,0x06CA6351,0x14292967,
  0x27B70A85,0x2E1B2138,0x4D2C6DFC,0x53380D13,0x650A7354,0x766A0ABB,0x81C2C92E,0x92722C85,
  0xA2BFE8A1,0xA81A664B,0xC24B8B70,0xC76C51A3,0xD192E819,0xD6990624,0xF40E3585,0x106AA070,
  0x19A4C116,0x1E376C08,0x2748774C,0x34B0BCB5,0x391C0CB3,0x4ED8AA4A,0x5B9CCA4F,0x682E6FF3,
  0x748F82EE,0x78A5636F,0x84C87814,0x8CC70208,0x90BEFFFA,0xA4506CEB,0xBEF9A3F7,0xC67178F2]

/-- The function `rotr(x, r) = (x>>r) | (x<<(32-r))` on `uint32_t`. -/
def rotr (x r : Nat) : Nat := (x >>> r) ||| ((x <<< (32 - r)) % 4294967296)

/-- The function `Ch(x,y,z) = (x & y) ^ (~x & z)`; `~x` on `uint32_t` is `x ^ 0xffffffff`. -/
def Ch (x y z : Nat) : Nat := (x &&& y) ^^^ ((x ^^^ 0xffffffff) &&& z)

/-- The function `Maj(x,y,z) = (x & y) ^ (x & z) ^ (y & z)`. -/
def Maj (x y z : Nat) : Nat := (x &&& y) ^^^ (x &&& z) ^^^ (y &&& z)

/-- The function `S0(x) = rotr(x,2) ^ rotr(x,13) ^ rotr(x,22)`. -/
def S0 (x : Nat) : Nat := rotr x 2 ^^^ rotr x 13 ^^^ rotr x 22

/-- The function `S1(x) = rotr(x,6) ^ rotr(x,11) ^ rotr(x,25)`. -/
def S1 (x : Nat) : Nat := rotr x 6 ^^^ rotr x 11 ^^^ rotr x 25

/-- The function `s0(x) = rotr(x,7) ^ rotr(x,18) ^ (x>>3)`. -/
def s0 (x : Nat) : Nat := rotr x 7 ^^^ rotr x 18 ^^^ (x >>> 3)

/-- The function `s1(x) = rotr(x,17) ^ rotr(x,19) ^ (x>>10)`. -/
def s1 (x : Nat) : Nat := rotr x 17 ^^^ rotr x 19 ^^^ (x >>> 10)

/-- The eight working variables `a..h` of `sha256_block`. -/
structure Vars where
  a : Nat
  b : Nat
  c : Nat
  d : Nat
  e : Nat
  f : Nat
  g : Nat
  h : Nat
deriving DecidableEq, Repr

/-- Body of the first loop of `sha256_block`:
`w[i] = block[4i]<<24 | block[4i+1]<<16 | block[4i+2]<<8 | block[4i+3]`. -/
def load_word (block : List Nat) (w : List Nat) (i : Nat) : List Nat :=
  w.set i (((block.getD (4*i) 0) <<< 24) ||| ((block.getD (4*i+1) 0) <<< 16)
    ||| ((block.getD (4*i+2) 0) <<< 8) ||| (block.getD (4*i+3) 0))

/-- Body of the second loop of `sha256_block`:
`w[i] = s1(w[i-2]) + w[i-7] + s0(w[i-15]) + w[i-16]`. -/
def expand_word (w : List Nat) (i : Nat) : List Nat :=
  w.set i ((s1 (w.getD (i-2) 0) + w.getD (i-7) 0 + s0 (w.getD (i-15) 0) + w.getD (i-16) 0)
    % 4294967296)

/-- The message schedule `w[0..63]` built by the first two loops of `sha256_block`. -/
def schedule (block : List Nat) : List Nat :=
  (List.range' 16 48).foldl expand_word
    ((List.range 16).foldl (load_word block) (List.replicate 64 0))

/-- Body of the round loop of `sha256_block`. -/
def round (w : List Nat) (v : Vars) (i : Nat) : Vars :=
  let t1 := (v.h + S1 v.e + Ch v.e v.f v.g + K.getD i 0 + w.getD i 0) % 4294967296
  let t2 := (S0 v.a + Maj v.a v.b v.c) % 4294967296
  { a := (t1 + t2) % 4294967296, b := v.a, c := v.b, d := v.c,
    e := (v.d + t1) % 4294967296, f := v.e, g := v.f, h := v.g }

/-- The function `sha256_block(state, block)`: the updated `state[0..7]`. -/
def sha256_block (state : List Nat) (block : List Nat) : List Nat :=
  let w := schedule block
  let v := (List.range 64).foldl (round w)
    { a := state.getD 0 0, b := state.getD 1 0, c := state.getD 2 0, d := state.getD 3 0,
      e := state.getD 4 0, f := state.getD 5 0, g := state.getD 6 0, h := state.getD 7 0 }
  [(state.getD 0 0 + v.a) % 4294967296, (state.getD 1 0 + v.b) % 4294967296,
   (state.getD 2 0 + v.c) % 4294967296, (state.getD 3 0 + v.d) % 4294967296,
   (state.getD 4 0 + v.e) % 4294967296, (state.getD 5 0 + v.f) % 4294967296,
   (state.getD 6 0 + v.g) % 4294967296, (state.getD 7 0 + v.h) % 4294967296]

/-- Initial state `st[8]` of `sha256`. -/
def H0 : List Nat :=
  [0x6a09e667,0xbb67ae85,0x3c6ef372,0xa54ff53a,0x510e527f,0x9b05688c,0x1f83d9ab,0x5be0cd19]

/-- The loop `while (len - off >= 64){ sha256_block(st, data+off); off+=64; }`
on the pair `(st, off)`, run for at most `fuel` iterations. -/
def sha256_loop (data : List Nat) (len : Nat) : Nat → List Nat × Nat → List Nat × Nat
  | 0, s => s
  | fuel + 1, s =>
    if len - s.2 ≥ 64 then sha256_loop data len fuel (sha256_block s.1 (data.drop s.2), s.2 + 64)
    else s

/-- The call `std::memcpy(dst, src, n)`: the first `n` bytes of `dst` replaced by those of `src`. -/
def memcpy (dst src : List Nat) (n : Nat) : List Nat := src.take n ++ dst.drop n

/-- The eight stores `block[56..63] = (uint8_t)(bitlen >> 56), ..., (uint8_t)bitlen`. -/
def store_bitlen (block : List Nat) (bitlen : Nat) : List Nat :=
  (((((((block.set 56 ((bitlen >>> 56) % 256)).set 57 ((bitlen >>> 48) % 256)).set 58
    ((bitlen >>> 40) % 256)).set 59 ((bitlen >>> 32) % 256)).set 60
    ((bitlen >>> 24) % 256)).set 61 ((bitlen >>> 16) % 256)).set 62
    ((bitlen >>> 8) % 256)).set 63 (bitlen % 256)

/-- Body of the output loop of `sha256`: the four bytes written for the word `x = st[i]`. -/
def store_word (x : Nat) : List Nat :=
  [(x >>> 24) % 256, (x >>> 16) % 256, (x >>> 8) % 256, x % 256]

/-- The output loop of `sha256`: `out32[0..31]` from `st[0..7]`. -/
def serialise (st : List Nat) : List Nat :=
  (List.range 8).foldl (fun out i => out ++ store_word (st.getD i 0)) []

/-- The state `st` and the final `block` at the last call of `sha256_block` in `sha256`,
after the tail copy, the `0x80` marker, the optional spill block and the length stores;
`s = (st, off)` is the state on leaving the main loop, `bitlen = uint64_t(len) * 8ull`. -/
def sha256_tail (data : List Nat) (len : Nat) (s : List Nat × Nat) : List Nat × List Nat :=
  let rem := len - s.2
  let block := List.replicate 64 0
  let block := if rem ≠ 0 then memcpy block (data.drop s.2) rem else block
  let block := block.set rem 0x80
  let sb := if rem ≥ 56 then (sha256_block s.1 block, List.replicate 64 0) else (s.1, block)
  let bitlen := (len * 8) % 18446744073709551616
  (sb.1, store_bitlen sb.2 bitlen)

/-- The function `sha256(data, len, out32)`: the contents of `out32` on return.
The main loop gets `len` units of fuel (it needs `len / 64`). -/
def sha256 (data : List Nat) (len : Nat) : List Nat :=
  let s := sha256_loop data len len (H0, 0)
  let t := sha256_tail data len s
  serialise (sha256_block t.1 t.2)

/-- The function `sha256d(data, len, out32)`:
`uint8_t tmp[32]; sha256(data, len, tmp); sha256(tmp, 32, out32);`. -/
def sha256d (data : List Nat) (len : Nat) : List Nat :=
  let tmp := sha256 data len
  sha256 tmp 32

/-! ## Reference computation of the specification -/

/-- Eight-byte big-endian encoding of `n`. -/
def be64 (n : Nat) : List Nat :=
  [n / 2^56 % 256, n / 2^48 % 256, n / 2^40 % 256, n / 2^32 % 256,
   n / 2^24 % 256, n / 2^16 % 256, n / 2^8 % 256, n % 256]

/-- The padded message: `x`, the byte `0x80`, `k` zero bytes, the bit length of `x`. -/
def padded (x : List Nat) (k : Nat) : List Nat :=
  x ++ [0x80] ++ List.replicate k 0 ++ be64 (8 * x.length)

/-- The first `n` consecutive 64-byte blocks of `m`. -/
def blocks_aux : Nat → List Nat → List (List Nat)
  | 0, _ => []
  | n + 1, m => m.take 64 :: blocks_aux n (m.drop 64)

/-- The message `m` split into consecutive 64-byte blocks. -/
def blocks (m : List Nat) : List (List Nat) := blocks_aux (m.length / 64) m

/-- The four bytes of a 32-bit word in big-endian order, most significant byte first. -/
def be32_bytes (w : Nat) : List Nat :=
  [w / 2 ^ 24 % 256, w / 2 ^ 16 % 256, w / 2 ^ 8 % 256, w % 256]

/-- Big-endian serialisation of the specification: each state word in order, as its four
bytes, most significant byte first. -/
def serialise_be (st : List Nat) : List Nat :=
  (st.map be32_bytes).flatten

/-- Reference digest: compression folded over the blocks of the padded message, from `H0`,
and the final state words serialised big-endian by `serialise_be`. -/
def sha256_reference (x : List Nat) (k : Nat) : List Nat :=
  serialise_be ((blocks (padded x k)).foldl sha256_block H0)

/-! ## Evaluation forms

The same compression function written so that it computes quickly on numerals: rotations
by one multiplication, the four reductions modulo `2^32` of a round merged into two, the
constant `K[i] + w[i]` of each round taken from a list. They are proved equal to
`sha256_block` below and serve to compute the digest of a long message. -/

/-- Evaluates the number `x` before handing it to `k`. -/
def force {α : Type} (x : Nat) (k : Nat → α) : α :=
  match x with
  | 0 => k 0
  | n + 1 => k (Nat.succ n)

/-- The function `S0` on a 32-bit word: the three rotations read off the doubled word `x * (2^32 + 1)`. -/
def S0_fast (x : Nat) : Nat :=
  Nat.mod (Nat.xor (Nat.xor (Nat.shiftRight (Nat.mul x 4294967297) 2)
    (Nat.shiftRight (Nat.mul x 4294967297) 13)) (Nat.shiftRight (Nat.mul x 4294967297) 22))
    4294967296

/-- The function `S1` on a 32-bit word: the three rotations read off the doubled word `x * (2^32 + 1)`. -/
def S1_fast (x : Nat) : Nat :=
  Nat.mod (Nat.xor (Nat.xor (Nat.shiftRight (Nat.mul x 4294967297) 6)
    (Nat.shiftRight (Nat.mul x 4294967297) 11)) (Nat.shiftRight (Nat.mul x 4294967297) 25))
    4294967296

/-- The function `Ch` written without operator classes. -/
def Ch_fast (x y z : Nat) : Nat := Nat.xor (Nat.land x y) (Nat.land (Nat.xor x 4294967295) z)

/-- The function `Maj` written without operator classes. -/
def Maj_fast (x y z : Nat) : Nat :=
  Nat.xor (Nat.xor (Nat.land x y) (Nat.land x z)) (Nat.land y z)

/-- The round loop over the list of the constants `K[i] + w[i]`. -/
def rounds_fast : List Nat → Nat → Nat → Nat → Nat → Nat → Nat → Nat → Nat → Vars
  | [], a, b, c, d, e, f, g, h => Vars.mk a b c d e f g h
  | kw :: ks, a, b, c, d, e, f, g, h =>
    rounds_fast ks
      (Nat.mod (Nat.add (Nat.add (Nat.add (Nat.add h (S1_fast e)) (Ch_fast e f g)) kw)
        (Nat.add (S0_fast a) (Maj_fast a b c))) 4294967296)
      a b c
      (Nat.mod (Nat.add d (Nat.add (Nat.add (Nat.add h (S1_fast e)) (Ch_fast e f g)) kw))
        4294967296)
      e f g

/-- One compression on the working variables, each new state word evaluated at once. -/
def block_fast (kws : List Nat) (v : Vars) : Vars :=
  match rounds_fast kws v.a v.b v.c v.d v.e v.f v.g v.h with
  | Vars.mk a b c d e f g h =>
    force (Nat.mod (Nat.add v.a a) 4294967296) fun a1 =>
    force (Nat.mod (Nat.add v.b b) 4294967296) fun b1 =>
    force (Nat.mod (Nat.add v.c c) 4294967296) fun c1 =>
    force (Nat.mod (Nat.add v.d d) 4294967296) fun d1 =>
    force (Nat.mod (Nat.add v.e e) 4294967296) fun e1 =>
    force (Nat.mod (Nat.add v.f f) 4294967296) fun f1 =>
    force (Nat.mod (Nat.add v.g g) 4294967296) fun g1 =>
    force (Nat.mod (Nat.add v.h h) 4294967296) fun h1 =>
    Vars.mk a1 b1 c1 d1 e1 f1 g1 h1

/-- The compression `block_fast kws` applied `n` times. -/
def iter_fast (kws : List Nat) : Nat → Vars → Vars
  | 0, v => v
  | n + 1, v =>
    match block_fast kws v with
    | Vars.mk a b c d e f g h => iter_fast kws n (Vars.mk a b c d e f g h)

/-- The state array holding the eight words of `v`. -/
def of_vars (v : Vars) : List Nat := [v.a, v.b, v.c, v.d, v.e, v.f, v.g, v.h]

/-- All eight words are below `2^32`. -/
def Vars.wf (v : Vars) : Prop :=
  v.a < 4294967296 ∧ v.b < 4294967296 ∧ v.c < 4294967296 ∧ v.d < 4294967296 ∧
  v.e < 4294967296 ∧ v.f < 4294967296 ∧ v.g < 4294967296 ∧ v.h < 4294967296

/-- The constants `K[i] + w[i]` of a block with schedule `w`. -/
def round_constants (w : List Nat) : List Nat :=
  (List.range 64).map (fun i => K.getD i 0 + w.getD i 0)

/-- The constants `K[i] + w[i]` of the block of 64 bytes `0x61`. -/
def KW_a : List Nat := [
  0x0a3eb90f9, 0x0d298a5f2, 0x117225d30, 0x14b173d06, 0x09ab823bc, 0x0bb527352,
  0x0f3a0e405, 0x10c7dc036, 0x139690bf9, 0x073e4bc62, 0x08592e71f, 0x0b66ddf24,
  0x0d41fbed5, 0x0e240135f, 0x0fd3d6808, 0x122fd52d5, 0x1da99a7fd, 0x1e5bc85c2,
  0x0421fb30d, 0x0566ab713, 0x04f6a8ec8, 0x06bf5e703, 0x15399f7fc, 0x1027fb3d5,
  0x1153e879f, 0x1a2a84904, 0x0f869a653, 0x16a1a9a0c, 0x0d1005b03, 0x172e9c7fc,
  0x0b8d132aa, 0x03910f55d, 0x0bf72410c, 0x0968b7f31, 0x135812784, 0x0a3f55d7a,
  0x0de82ef5f, 0x158d6706c, 0x13c079cbb, 0x10cd33e4e, 0x10bea3c0f, 0x0b5e77dd7,
  0x197ccd952, 0x1476f2801, 0x142d792e8, 0x176d75a0e, 0x0fac0de17, 0x05296c0b3,
  0x0a928af66, 0x1131a5e95, 0x0ab10c27f, 0x124bc5563, 0x0e6974d1d, 0x13055dab6,
  0x0f9ebda63, 0x0f543a86a, 0x0990d53c0, 0x0d1b4d6db, 0x0b567a7d0, 0x0cc8cbda7,
  0x0ab63b3a1, 0x0dc910c4c, 0x1a93458ed, 0x0d4e96f0c]

/-- The array `st` of `sha256` after its last call of `sha256_block`, which the output loop
serialises into `out32`. -/
def sha256_state (data : List Nat) (len : Nat) : List Nat :=
  let s := sha256_loop data len len (H0, 0)
  let t := sha256_tail data len s
  sha256_block t.1 t.2

/-! ## Definitions of the specification: words, rotations, compression, schedule -/

/-- Addition modulo `2^32`, the boxed plus of the specification. -/
def add32 (a b : Nat) : Nat := (a + b) % 4294967296

/-- Bitwise right rotation of a 32-bit value by `r` places: the low `r` bits move to the
top, the other bits move down. -/
def ROTR (x r : Nat) : Nat := x / 2 ^ r + (x % 2 ^ r) * 2 ^ (32 - r)

/-- The function `Σ₀(x) = ROTR(x,2) ⊕ ROTR(x,13) ⊕ ROTR(x,22)` of the specification. -/
def Sigma0 (x : Nat) : Nat := ROTR x 2 ^^^ ROTR x 13 ^^^ ROTR x 22

/-- The function `Σ₁(x) = ROTR(x,6) ⊕ ROTR(x,11) ⊕ ROTR(x,25)` of the specification. -/
def Sigma1 (x : Nat) : Nat := ROTR x 6 ^^^ ROTR x 11 ^^^ ROTR x 25

/-- The function `σ₀(x) = ROTR(x,7) ⊕ ROTR(x,18) ⊕ (x ≫ 3)` of the specification. -/
def sigma0 (x : Nat) : Nat := ROTR x 7 ^^^ ROTR x 18 ^^^ (x / 2 ^ 3)

/-- The function `σ₁(x) = ROTR(x,17) ⊕ ROTR(x,19) ⊕ (x ≫ 10)` of the specification. -/
def sigma1 (x : Nat) : Nat := ROTR x 17 ^^^ ROTR x 19 ^^^ (x / 2 ^ 10)

/-- One round of the specification with round constant `k` and schedule word `w`:
`T₁ = h ⊞ Σ₁(e) ⊞ Ch(e,f,g) ⊞ k ⊞ w`, `T₂ = Σ₀(a) ⊞ Maj(a,b,c)`, then
`h ← g; g ← f; f ← e; e ← d ⊞ T₁; d ← c; c ← b; b ← a; a ← T₁ ⊞ T₂`. -/
def spec_round (k w : Nat) (v : Vars) : Vars :=
  let T1 := add32 (add32 (add32 (add32 v.h (Sigma1 v.e)) (Ch v.e v.f v.g)) k) w
  let T2 := add32 (Sigma0 v.a) (Maj v.a v.b v.c)
  { h := v.g, g := v.f, f := v.e, e := add32 v.d T1, d := v.c, c := v.b, b := v.a,
    a := add32 T1 T2 }

/-- The rounds `i = 0, ..., n - 1` of the specification, in increasing order of `i`, with
the schedule `W`. -/
def spec_rounds (W : List Nat) : Nat → Vars → Vars
  | 0, v => v
  | n + 1, v => spec_round (K.getD n 0) (W.getD n 0) (spec_rounds W n v)

/-- The compression of the specification: 64 rounds from `(a..h) = state`, then the working
variables added into the state word by word modulo `2^32`. -/
def spec_compress (state W : List Nat) : List Nat :=
  let v := spec_rounds W 64
    { a := state.getD 0 0, b := state.getD 1 0, c := state.getD 2 0, d := state.getD 3 0,
      e := state.getD 4 0, f := state.getD 5 0, g := state.getD 6 0, h := state.getD 7 0 }
  [add32 (state.getD 0 0) v.a, add32 (state.getD 1 0) v.b, add32 (state.getD 2 0) v.c,
   add32 (state.getD 3 0) v.d, add32 (state.getD 4 0) v.e, add32 (state.getD 5 0) v.f,
   add32 (state.getD 6 0) v.g, add32 (state.getD 7 0) v.h]

/-- The big-endian 32-bit word with bytes `b0` (most significant), `b1`, `b2`, `b3`. -/
def be32 (b0 b1 b2 b3 : Nat) : Nat := b0 * 2 ^ 24 + b1 * 2 ^ 16 + b2 * 2 ^ 8 + b3

/-- The `i`-th big-endian 32-bit word of a byte string. -/
def parse_be32 (bytes : List Nat) (i : Nat) : Nat :=
  be32 (bytes.getD (4 * i) 0) (bytes.getD (4 * i + 1) 0) (bytes.getD (4 * i + 2) 0)
    (bytes.getD (4 * i + 3) 0)

/-! ## Primes, for the constants `K` and `H0` -/

/-- Primality by trial division by `2, ..., 17`: it decides primality of every number
below `18 * 18 = 324`. -/
def small_prime (p : Nat) : Bool :=
  decide (2 ≤ p) &&
    (List.range 18).all (fun m => !(decide (2 ≤ m) && decide (m * m ≤ p) && decide (p % m = 0)))

/-- The first 64 primes, in increasing order. -/
def prime_table : List Nat :=
  [2, 3, 5, 7, 11, 13, 17, 19, 23, 29, 31, 37, 41, 43, 47, 53, 59, 61, 67, 71, 73, 79, 83, 89,
   97, 101, 103, 107, 109, 113, 127, 131, 137, 139, 149, 151, 157, 163, 167, 173, 179, 181,
   191, 193, 197, 199, 211, 223, 227, 229, 233, 239, 241, 251, 257, 263, 269, 271, 277, 281,
   283, 293, 307, 311]

/-! ## Checked execution

The same code with every array access, the subtraction `len - off` and the builtin checked:
the result is `none` as soon as an index leaves its array, `len - off` would wrap, or the
main loop does not end within its fuel. The run also records the blocks passed to
`sha256_block`. -/

/-- A read `p[i]` with a C `int` index `i`: `none` when `i` is negative or past the end. -/
def read_at (p : List Nat) (i : Int) : Option Nat :=
  if 0 ≤ i then p[i.toNat]? else none

/-- A write `p[i] = v`: `none` when `i` is past the end. -/
def write_at (p : List Nat) (i : Nat) (v : Nat) : Option (List Nat) :=
  if i < p.length then some (p.set i v) else none

/-- Checked body of the first loop of `sha256_block`. -/
def load_word_checked (block : List Nat) (w : List Nat) (i : Nat) : Option (List Nat) := do
  let b0 ← block[4 * i]?
  let b1 ← block[4 * i + 1]?
  let b2 ← block[4 * i + 2]?
  let b3 ← block[4 * i + 3]?
  write_at w i ((b0 <<< 24) ||| (b1 <<< 16) ||| (b2 <<< 8) ||| b3)

/-- Checked body of the second loop of `sha256_block`; the indices `i-2`, `i-7`, `i-15`,
`i-16` are computed in `int`. -/
def expand_word_checked (w : List Nat) (i : Nat) : Option (List Nat) := do
  let w2 ← read_at w ((i : Int) - 2)
  let w7 ← read_at w ((i : Int) - 7)
  let w15 ← read_at w ((i : Int) - 15)
  let w16 ← read_at w ((i : Int) - 16)
  write_at w i ((s1 w2 + w7 + s0 w15 + w16) % 4294967296)

/-- Checked construction of the schedule: `uint32_t w[64]` and the first two loops. -/
def schedule_checked (block : List Nat) : Option (List Nat) := do
  let w ← (List.range 16).foldlM (load_word_checked block) (List.replicate 64 0)
  (List.range' 16 48).foldlM expand_word_checked w

/-- Checked body of the round loop: the reads `K[i]` and `w[i]`. -/
def round_checked (w : List Nat) (v : Vars) (i : Nat) : Option Vars := do
  let k ← K[i]?
  let wi ← w[i]?
  let t1 := (v.h + S1 v.e + Ch v.e v.f v.g + k + wi) % 4294967296
  let t2 := (S0 v.a + Maj v.a v.b v.c) % 4294967296
  some { a := (t1 + t2) % 4294967296, b := v.a, c := v.b, d := v.c,
         e := (v.d + t1) % 4294967296, f := v.e, g := v.f, h := v.g }

/-- Checked `sha256_block(state, block)`: reads of `block[0..63]`, `w`, `K`, `state[0..7]`
and writes of `w` and `state` all within bounds. -/
def sha256_block_checked (state : List Nat) (block : List Nat) : Option (List Nat) := do
  let w ← schedule_checked block
  let a ← state[0]?
  let b ← state[1]?
  let c ← state[2]?
  let d ← state[3]?
  let e ← state[4]?
  let f ← state[5]?
  let g ← state[6]?
  let h ← state[7]?
  let v ← (List.range 64).foldlM (round_checked w) (Vars.mk a b c d e f g h)
  some [(a + v.a) % 4294967296, (b + v.b) % 4294967296, (c + v.c) % 4294967296,
        (d + v.d) % 4294967296, (e + v.e) % 4294967296, (f + v.f) % 4294967296,
        (g + v.g) % 4294967296, (h + v.h) % 4294967296]

/-- Checked `std::memcpy(dst, src, n)`: `n` bytes readable at `src` and writable at `dst`. -/
def memcpy_checked (dst src : List Nat) (n : Nat) : Option (List Nat) :=
  if n ≤ src.length ∧ n ≤ dst.length then some (memcpy dst src n) else none

/-- Checked stores `block[56..63]` of the bit length. -/
def store_bitlen_checked (block : List Nat) (bitlen : Nat) : Option (List Nat) := do
  let b ← write_at block 56 ((bitlen >>> 56) % 256)
  let b ← write_at b 57 ((bitlen >>> 48) % 256)
  let b ← write_at b 58 ((bitlen >>> 40) % 256)
  let b ← write_at b 59 ((bitlen >>> 32) % 256)
  let b ← write_at b 60 ((bitlen >>> 24) % 256)
  let b ← write_at b 61 ((bitlen >>> 16) % 256)
  let b ← write_at b 62 ((bitlen >>> 8) % 256)
  write_at b 63 (bitlen % 256)

/-- Checked body of the output loop: the read `st[i]` and the four writes
`out32[4i], ..., out32[4i+3]` into the caller's buffer of 32 bytes. -/
def store_word_checked (st : List Nat) (out : List Nat) (i : Nat) : Option (List Nat) := do
  let x ← st[i]?
  if 4 * i + 3 < 32 then some (out ++ store_word x) else none

/-- Checked output loop of `sha256`. -/
def serialise_checked (st : List Nat) : Option (List Nat) :=
  (List.range 8).foldlM (store_word_checked st) []

/-- Checked main loop of `sha256` on `(st, off, calls)`, where `calls` collects the 64 bytes
at the block pointer of each call of `sha256_block`. The block is read through
`data + off` inside the first `len` bytes of `data`. The result is `none` when `len - off`
would wrap, when a call fails, or when the fuel runs out before the loop ends. -/
def sha256_loop_checked (data : List Nat) (len : Nat) :
    Nat → List Nat × Nat × List (List Nat) → Option (List Nat × Nat × List (List Nat))
  | 0, _ => none
  | fuel + 1, s =>
    if s.2.1 ≤ len then
      if len - s.2.1 ≥ 64 then do
        let st ← sha256_block_checked s.1 ((data.take len).drop s.2.1)
        sha256_loop_checked data len fuel
          (st, s.2.1 + 64, s.2.2 ++ [((data.take len).drop s.2.1).take 64])
      else some s
    else none

/-- Checked tail copy `memset(block, 0, 64); if (rem) memcpy(block, data+off, rem);`, the
source read inside the first `len` bytes of `data`. -/
def tail_copy_checked (data : List Nat) (len off : Nat) : Option (List Nat) :=
  if len - off ≠ 0
    then memcpy_checked (List.replicate 64 0) ((data.take len).drop off) (len - off)
    else some (List.replicate 64 0)

/-- Checked spill `if (rem >= 56){ sha256_block(st, block); memset(block, 0, 64); }` on the
state, the block and the calls so far. -/
def spill_checked (st block : List Nat) (calls : List (List Nat)) (rem : Nat) :
    Option (List Nat × List Nat × List (List Nat)) :=
  if rem ≥ 56 then do
    let st1 ← sha256_block_checked st block
    some (st1, List.replicate 64 0, calls ++ [block])
  else some (st, block, calls)

/-- Checked tail of `sha256` from the state `(st, off, calls)` on leaving the main loop: the
state, the final block and the calls before the last call of `sha256_block`. The result is
`none` when `rem = len - off` would wrap or an access leaves its array. -/
def sha256_tail_checked (data : List Nat) (len : Nat) (s : List Nat × Nat × List (List Nat)) :
    Option (List Nat × List Nat × List (List Nat)) :=
  if s.2.1 ≤ len then do
    let block0 ← tail_copy_checked data len s.2.1
    let block ← write_at block0 (len - s.2.1) 0x80
    let sb ← spill_checked s.1 block s.2.2 (len - s.2.1)
    let last ← store_bitlen_checked sb.2.1 ((len * 8) % 18446744073709551616)
    some (sb.1, last, sb.2.2)
  else none

/-- What a checked run of `sha256` reports. -/
structure Run where
  /-- The 32 bytes written to `out32`. -/
  out32 : List Nat
  /-- The 64 bytes at the block pointer of every call of `sha256_block`, in call order. -/
  calls : List (List Nat)
  /-- The number of iterations of the main loop. -/
  iterations : Nat
  /-- The value of `rem`. -/
  rem : Nat
deriving DecidableEq, Repr

/-- Checked `sha256(data, len, out32)`: main loop (with fuel `len + 1`), tail, last
compression, output loop. -/
def sha256_checked (data : List Nat) (len : Nat) : Option Run := do
  let s ← sha256_loop_checked data len (len + 1) (H0, 0, [])
  let t ← sha256_tail_checked data len s
  let st ← sha256_block_checked t.1 t.2.1
  let out ← serialise_checked st
  some { out32 := out, calls := t.2.2 ++ [t.2.1], iterations := s.2.2.length,
         rem := len - s.2.1 }

/-! ## Shifts of `rotr` with the C rule on shift amounts -/

/-- Checked `x >> n` on `uint32_t`: `none` when `n ≥ 32`, where the shift is undefined. -/
def shr_checked (x n : Nat) : Option Nat :=
  if n < 32 then some (x >>> n) else none

/-- Checked `x << n` on `uint32_t`: `none` when `n ≥ 32`, where the shift is undefined. -/
def shl_checked (x n : Nat) : Option Nat :=
  if n < 32 then some ((x <<< n) % 4294967296) else none

/-- Checked `rotr(x, r) = (x>>r) | (x<<(32-r))`; `32 - r` is computed in `uint32_t`. -/
def rotr_checked (x r : Nat) : Option Nat :=
  match shr_checked x r, shl_checked x ((4294967296 + 32 - r % 4294967296) % 4294967296) with
  | some hi, some lo => some (hi ||| lo)
  | _, _ => none

/-- Checked `S0(x)`. -/
def S0_checked (x : Nat) : Option Nat :=
  match rotr_checked x 2, rotr_checked x 13, rotr_checked x 22 with
  | some p, some q, some r => some (p ^^^ q ^^^ r)
  | _, _, _ => none

/-- Checked `S1(x)`. -/
def S1_checked (x : Nat) : Option Nat :=
  match rotr_checked x 6, rotr_checked x 11, rotr_checked x 25 with
  | some p, some q, some r => some (p ^^^ q ^^^ r)
  | _, _, _ => none

/-- Checked `s0(x)`. -/
def s0_checked (x : Nat) : Option Nat :=
  match rotr_checked x 7, rotr_checked x 18, shr_checked x 3 with
  | some p, some q, some r => some (p ^^^ q ^^^ r)
  | _, _, _ => none

/-- Checked `s1(x)`. -/
def s1_checked (x : Nat) : Option Nat :=
  match rotr_checked x 17, rotr_checked x 19, shr_checked x 10 with
  | some p, some q, some r => some (p ^^^ q ^^^ r)
  | _, _, _ => none

/-! ## One round and its inverse -/

/-- Body of the round loop of `sha256_block` with `K[i] = k` and `w[i] = w`. -/
def round_step (k w : Nat) (v : Vars) : Vars :=
  let t1 := (v.h + S1 v.e + Ch v.e v.f v.g + k + w) % 4294967296
  let t2 := (S0 v.a + Maj v.a v.b v.c) % 4294967296
  { a := (t1 + t2) % 4294967296, b := v.a, c := v.b, d := v.c,
    e := (v.d + t1) % 4294967296, f := v.e, g := v.f, h := v.g }

/-- The working variables before a round, from those after it: `a, b, c, e, f, g` are read
off, then `T2`, `T1 = a' - T2`, `d = e' - T1` and `h = T1 - S1(e) - Ch(e,f,g) - k - w`,
modulo `2^32`. -/
def round_step_inv (k w : Nat) (v : Vars) : Vars :=
  let t2 := (S0 v.b + Maj v.b v.c v.d) % 4294967296
  let t1 := (v.a + 4294967296 - t2) % 4294967296
  { a := v.b, b := v.c, c := v.d, d := (v.e + 4294967296 - t1) % 4294967296,
    e := v.f, f := v.g, g := v.h,
    h := (t1 + 4294967296 - (S1 v.f + Ch v.f v.g v.h + k + w) % 4294967296) % 4294967296 }

/-! ## Padding suffix and blocks of a run -/

/-- The padding suffix for a message of `L` bytes: `0x80`, then `55 - L % 64` zero bytes
when `L % 64 < 56` and `119 - L % 64` otherwise, then the eight bytes of the bit length. -/
def pad_suffix (L : Nat) : List Nat :=
  0x80 :: List.replicate (if L % 64 < 56 then 55 - L % 64 else 119 - L % 64) 0
    ++ be64 (8 * L)

/-- The eight big-endian 32-bit words of a digest of 32 bytes. -/
def digest_words (d : List Nat) : List Nat :=
  (List.range 8).map (parse_be32 d)

/-- The sequence of 64-byte blocks passed to `sha256_block` by `sha256(data, len, out32)`,
in call order, as recorded by the checked run. -/
def sha256_blocks (data : List Nat) (len : Nat) : List (List Nat) :=
  match sha256_checked data len with
  | some r => r.calls
  | none => []

/-- What a caller of `void sha256(const uint8_t* data, size_t len, uint8_t out32[32])` can
observe. The function returns `void`, throws nothing and reserves no sentinel value, so the
only outcome the code produces is `digest`; `input_too_large` is the error outcome of the
specification. -/
inductive Outcome where
  | digest (out32 : List Nat)
  | input_too_large
deriving DecidableEq, Repr

/-- Outcome of a call of `sha256`: the body has no failing path, it always falls through to
the output loop. -/
def sha256_outcome (data : List Nat) (len : Nat) : Outcome :=
  Outcome.digest (sha256 data len)

end dhcc

/-! ## `count_leading_zeros` (`HILBERT_SPACE_72_CORRECT.cpp`, `PASS2_INVERSION_RIGOROUS.cpp`)

The member functions `HilbertSpace640::count_leading_zeros` and
`Pass2InversionRigorous::count_leading_zeros` have the same text; one embedding serves both. -/

namespace HilbertSpace640

/-- Leading zero bits among the low `n` bits of `x`, from bit `n - 1` downwards. -/
def clz_bits : Nat → Nat → Nat
  | 0, _ => 0
  | n + 1, x => if x.testBit n then 0 else clz_bits n x + 1

/-- The GCC builtin `__builtin_clz(x)` on a 32-bit `unsigned int`: the number of leading
0-bits of `x`, starting at the most significant bit position. The builtin is undefined for
`x = 0`; this function returns 32 there. -/
def builtin_clz (x : Nat) : Nat := clz_bits 32 x

/-- The loop `for(int i = 31; i >= 0; i--)` of `count_leading_zeros`, with `n = i + 1`
bytes still to visit and the running value of `zeros`:
`if(hash[i] == 0) zeros += 8; else { zeros += __builtin_clz(hash[i]) - 24; break; }`. -/
def clz_walk (hash : List Nat) : Nat → Int → Int
  | 0, zeros => zeros
  | i + 1, zeros =>
    if hash.getD i 0 = 0 then clz_walk hash i (zeros + 8)
    else zeros + ((builtin_clz (hash.getD i 0) : Int) - 24)

/-- The function `int count_leading_zeros(const uint8_t* hash)`. -/
def count_leading_zeros (hash : List Nat) : Int := clz_walk hash 32 0

/-! ### The specification's `leading_zero_bits` -/

/-- The eight bits of a byte, bit 7 first. -/
def byte_bits (b : Nat) : List Bool :=
  [b.testBit 7, b.testBit 6, b.testBit 5, b.testBit 4,
   b.testBit 3, b.testBit 2, b.testBit 1, b.testBit 0]

/-- The bits of a byte string read as a big-endian integer: byte index 0 first, and bit 7 of
each byte first. -/
def digest_bits : List Nat → List Bool
  | [] => []
  | b :: bs => byte_bits b ++ digest_bits bs

/-- Number of contiguous zero bits at the head of a bit sequence. -/
def leading_zeros : List Bool → Nat
  | [] => 0
  | true :: _ => 0
  | false :: bs => leading_zeros bs + 1

/-- The specification's `leading_zero_bits`: contiguous zero bits from the most significant
bit of the digest, byte index 0 and bit 7 first. -/
def leading_zero_bits (d : List Nat) : Nat := leading_zeros (digest_bits d)

/-! ### Checked execution of `count_leading_zeros` -/

/-- Checked `__builtin_clz(x)`: `none` for `x = 0`, where the builtin is undefined. -/
def builtin_clz_checked (x : Nat) : Option Nat :=
  if x = 0 then none else some (builtin_clz x)

/-- Checked loop of `count_leading_zeros` on the running value of `zeros` and the list of
indices read so far: `none` when `hash[i]` is outside the array or `__builtin_clz` is
applied to zero. -/
def clz_walk_checked (hash : List Nat) : Nat → Int × List Nat → Option (Int × List Nat)
  | 0, s => some s
  | i + 1, s =>
    match hash[i]? with
    | none => none
    | some b =>
      if b = 0 then clz_walk_checked hash i (s.1 + 8, s.2 ++ [i])
      else
        match builtin_clz_checked b with
        | none => none
        | some c => some (s.1 + ((c : Int) - 24), s.2 ++ [i])

/-- Checked `count_leading_zeros(hash)`: the returned value and the indices read. -/
def count_leading_zeros_checked (hash : List Nat) : Option (Int × List Nat) :=
  clz_walk_checked hash 32 (0, [])

/-! ### The digest as a 256-bit integer -/

/-- The integer with least significant byte `d[0]`: the sum of `d[i] * 256^i`. -/
def le_value : List Nat → Nat
  | [] => 0
  | b :: bs => b + 256 * le_value bs

end HilbertSpace640

namespace dhcc

/-! ## Auxiliary facts -/

theorem getD_take_of_lt (l : List Nat) {i n : Nat} (h : i < n) :
    (l.take n).getD i 0 = l.getD i 0 := by
  simp [List.getD_eq_getElem?_getD, List.getElem?_take, h]

theorem load_word_take (l w : List Nat) {i : Nat} (h : i < 16) :
    load_word (l.take 64) w i = load_word l w i := by
  unfold load_word
  rw [getD_take_of_lt l (by omega : 4 * i < 64), getD_take_of_lt l (by omega : 4 * i + 1 < 64),
    getD_take_of_lt l (by omega : 4 * i + 2 < 64), getD_take_of_lt l (by omega : 4 * i + 3 < 64)]

theorem schedule_take (l : List Nat) : schedule (l.take 64) = schedule l := by
  have h : (List.range 16).foldl (load_word (l.take 64)) (List.replicate 64 0)
      = (List.range 16).foldl (load_word l) (List.replicate 64 0) :=
    List.foldl_ext _ _ _ (fun w i hi => load_word_take l w (List.mem_range.mp hi))
  simp only [schedule, h]

/-- The compression function reads only the first 64 bytes behind its block pointer. -/
theorem sha256_block_take (st l : List Nat) : sha256_block st (l.take 64) = sha256_block st l := by
  simp only [sha256_block, schedule_take]

theorem serialise_length (st : List Nat) : (serialise st).length = 32 := rfl

theorem sha256_length (data : List Nat) (len : Nat) : (sha256 data len).length = 32 :=
  serialise_length _

theorem blocks_aux_append_left (n : Nat) (a b : List Nat) (h : 64 * n ≤ a.length) :
    blocks_aux n (a ++ b) = blocks_aux n a := by
  induction n generalizing a with
  | zero => rfl
  | succ n ih =>
    have h64 : 64 ≤ a.length := by omega
    simp only [blocks_aux]
    rw [List.take_append_of_le_length h64, List.drop_append_of_le_length h64,
      ih (a.drop 64) (by rw [List.length_drop]; omega)]

theorem blocks_aux_append (n m : Nat) (a b : List Nat) (h : a.length = 64 * n) :
    blocks_aux (n + m) (a ++ b) = blocks_aux n a ++ blocks_aux m b := by
  induction n generalizing a with
  | zero =>
    have ha : a = [] := List.length_eq_zero.mp (by omega)
    subst ha
    simp [blocks_aux]
  | succ n ih =>
    have h64 : 64 ≤ a.length := by omega
    have e : n + 1 + m = (n + m) + 1 := by omega
    rw [e]
    simp only [blocks_aux]
    rw [List.take_append_of_le_length h64, List.drop_append_of_le_length h64,
      ih (a.drop 64) (by rw [List.length_drop]; omega)]
    rfl

/-- The main loop of `sha256` with enough fuel: it compresses the `(len - off) / 64` full
blocks that follow `off`, in order, and leaves `off` advanced past them. -/
theorem sha256_loop_eq (data : List Nat) (fuel : Nat) (st : List Nat) (off : Nat)
    (hfuel : (data.length - off) / 64 ≤ fuel) :
    sha256_loop data data.length fuel (st, off) =
      ((blocks_aux ((data.length - off) / 64) (data.drop off)).foldl sha256_block st,
        off + 64 * ((data.length - off) / 64)) := by
  induction fuel generalizing st off with
  | zero =>
    have h0 : (data.length - off) / 64 = 0 := by omega
    rw [h0]
    rfl
  | succ fuel ih =>
    by_cases h : data.length - off ≥ 64
    · have e : (data.length - off) / 64 = (data.length - (off + 64)) / 64 + 1 := by omega
      have step : sha256_loop data data.length (fuel + 1) (st, off)
          = sha256_loop data data.length fuel (sha256_block st (data.drop off), off + 64) := by
        simp only [sha256_loop, if_pos h]
      rw [step, ih _ _ (by omega), e]
      simp only [blocks_aux, List.foldl_cons, sha256_block_take, List.drop_drop]
      refine Prod.ext ?_ ?_
      · simp only [Nat.add_comm 64 off]
      · simp only []
        omega
    · have h0 : (data.length - off) / 64 = 0 := by omega
      have step : sha256_loop data data.length (fuel + 1) (st, off) = (st, off) := by
        simp only [sha256_loop, if_neg h]
      rw [step, h0]
      rfl

/-- The length stores overwrite the last eight bytes of a 64-byte block. -/
theorem store_bitlen_append (p q : List Nat) (n : Nat) (hp : p.length = 56) (hq : q.length = 8) :
    store_bitlen (p ++ q) n =
      p ++ [(n >>> 56) % 256, (n >>> 48) % 256, (n >>> 40) % 256, (n >>> 32) % 256,
        (n >>> 24) % 256, (n >>> 16) % 256, (n >>> 8) % 256, n % 256] := by
  match q, hq with
  | [q0, q1, q2, q3, q4, q5, q6, q7], _ =>
    simp [store_bitlen, List.set_append, hp]

/-- For a length below `2^61` the stored bytes are the big-endian encoding of the bit length. -/
theorem bitlen_bytes (L : Nat) (hL : L < 2 ^ 61) :
    [((L * 8 % 18446744073709551616) >>> 56) % 256, ((L * 8 % 18446744073709551616) >>> 48) % 256,
     ((L * 8 % 18446744073709551616) >>> 40) % 256, ((L * 8 % 18446744073709551616) >>> 32) % 256,
     ((L * 8 % 18446744073709551616) >>> 24) % 256, ((L * 8 % 18446744073709551616) >>> 16) % 256,
     ((L * 8 % 18446744073709551616) >>> 8) % 256, (L * 8 % 18446744073709551616) % 256]
      = be64 (8 * L) := by
  have h : L * 8 % 18446744073709551616 = 8 * L := by
    rw [Nat.mod_eq_of_lt (by omega), Nat.mul_comm]
  simp only [h, be64, Nat.shiftRight_eq_div_pow]

/-- The block built by the tail copy and the marker store: the `rem` remaining bytes,
`0x80`, zeros up to 64. -/
theorem tail_block_eq (tl : List Nat) (r : Nat) (hr : tl.length = r) (h64 : r < 64) :
    (if r ≠ 0 then memcpy (List.replicate 64 0) tl r else List.replicate 64 0).set r 0x80
      = tl ++ 0x80 :: List.replicate (63 - r) 0 := by
  have hb : (if r ≠ 0 then memcpy (List.replicate 64 0) tl r else List.replicate 64 0)
      = tl ++ List.replicate (64 - r) 0 := by
    by_cases h0 : r = 0
    · subst h0
      have : tl = [] := List.length_eq_zero.mp hr
      rw [if_neg (by omega), this]
      rfl
    · rw [if_pos h0, memcpy, List.take_of_length_le (by omega), List.drop_replicate]
  rw [hb, List.set_append_right _ _ (by omega), hr, Nat.sub_self]
  have e : 64 - r = (63 - r) + 1 := by omega
  rw [e, List.replicate_succ, List.set_cons_zero]

/-- The tail of `sha256` when the remainder leaves room for the length field
(`len % 64 < 56`): no extra compression, one final block. -/
theorem sha256_tail_fits (x st : List Nat) (hL : x.length < 2 ^ 61) (hr : x.length % 64 < 56) :
    sha256_tail x x.length (st, 64 * (x.length / 64)) =
      (st, (x.drop (64 * (x.length / 64)) ++ 0x80 :: List.replicate (55 - x.length % 64) 0)
            ++ be64 (8 * x.length)) := by
  have hrem : x.length - 64 * (x.length / 64) = x.length % 64 := by omega
  have htl : (x.drop (64 * (x.length / 64))).length = x.length % 64 := by
    rw [List.length_drop]; exact hrem
  have e : 63 - x.length % 64 = (55 - x.length % 64) + 8 := by omega
  simp only [sha256_tail, hrem]
  rw [tail_block_eq _ _ htl (by omega), if_neg (by omega), e, List.replicate_add,
    ← List.cons_append, ← List.append_assoc]
  rw [store_bitlen_append _ _ _ (by simp [htl]; omega) (by simp), bitlen_bytes _ hL]

/-- The tail of `sha256` when the remainder is in `[56, 63]`: the marker block is
compressed, and the final block holds 56 zero bytes and the length field. -/
theorem sha256_tail_spills (x st : List Nat) (hL : x.length < 2 ^ 61)
    (hr : 56 ≤ x.length % 64) :
    sha256_tail x x.length (st, 64 * (x.length / 64)) =
      (sha256_block st
          (x.drop (64 * (x.length / 64)) ++ 0x80 :: List.replicate (63 - x.length % 64) 0),
        List.replicate 56 0 ++ be64 (8 * x.length)) := by
  have hrem : x.length - 64 * (x.length / 64) = x.length % 64 := by omega
  have htl : (x.drop (64 * (x.length / 64))).length = x.length % 64 := by
    rw [List.length_drop]; exact hrem
  have e : List.replicate 64 0 = List.replicate 56 0 ++ List.replicate 8 0 := by
    rw [← List.replicate_add]
  simp only [sha256_tail, hrem]
  rw [tail_block_eq _ _ htl (by omega), if_pos (by omega), e,
    store_bitlen_append _ _ _ (by simp) (by simp), bitlen_bytes _ hL]

/-- Splitting loses nothing: the first `n` blocks of a message of `64 * n` bytes have 64
bytes each and concatenate to the message. -/
theorem blocks_aux_join (n : Nat) (m : List Nat) (h : m.length = 64 * n) :
    (blocks_aux n m).flatten = m ∧ ∀ b ∈ blocks_aux n m, b.length = 64 := by
  induction n generalizing m with
  | zero =>
    have hm : m = [] := List.length_eq_zero.mp (by omega)
    subst hm
    exact ⟨rfl, fun b hb => by simp [blocks_aux] at hb⟩
  | succ n ih =>
    obtain ⟨h1, h2⟩ := ih (m.drop 64) (by rw [List.length_drop]; omega)
    constructor
    · rw [blocks_aux, List.flatten_cons, h1, List.take_append_drop]
    · intro b hb
      rw [blocks_aux, List.mem_cons] at hb
      rcases hb with rfl | hb
      · rw [List.length_take]; omega
      · exact h2 b hb

/-- Blocks of a message `x ++ S` whose length is a multiple of 64: the full blocks of `x`,
then the blocks of the rest of `x` followed by `S`. -/
theorem blocks_append_suffix (x S : List Nat) (m : Nat)
    (h : x.length + S.length = 64 * (x.length / 64 + m)) :
    blocks (x ++ S) =
      blocks_aux (x.length / 64) x ++ blocks_aux m (x.drop (64 * (x.length / 64)) ++ S) := by
  have hq : 64 * (x.length / 64) ≤ x.length := by omega
  have hlen : (x ++ S).length / 64 = x.length / 64 + m := by
    rw [List.length_append, h]; omega
  have htake : (x.take (64 * (x.length / 64))).length = 64 * (x.length / 64) := by
    rw [List.length_take]; omega
  have hx : blocks_aux (x.length / 64) (x.take (64 * (x.length / 64)))
      = blocks_aux (x.length / 64) x := by
    have := blocks_aux_append_left (x.length / 64) (x.take (64 * (x.length / 64)))
      (x.drop (64 * (x.length / 64))) (by omega)
    rw [List.take_append_drop] at this
    exact this.symm
  have hsplit : x ++ S = x.take (64 * (x.length / 64)) ++ (x.drop (64 * (x.length / 64)) ++ S) := by
    rw [← List.append_assoc, List.take_append_drop]
  unfold blocks
  rw [hlen, hsplit, blocks_aux_append _ _ _ _ htake, hx]

/-- The output loop of `sha256` runs on the state reached by folding `sha256_block` from
`H0` over the blocks of the padded message. -/
theorem sha256_eq_fold_padded (x : List Nat) (k : Nat) (hL : x.length < 2 ^ 61)
    (hk : (x.length + 1 + k) % 64 = 56)
    (hmin : ∀ j, j < k → (x.length + 1 + j) % 64 ≠ 56) :
    sha256 x x.length = serialise ((blocks (padded x k)).foldl sha256_block H0) := by
  have hloop : sha256_loop x x.length x.length (H0, 0)
      = ((blocks_aux (x.length / 64) x).foldl sha256_block H0, 64 * (x.length / 64)) := by
    have := sha256_loop_eq x x.length H0 0 (by omega)
    simpa using this
  have hpad : padded x k = x ++ (0x80 :: List.replicate k 0 ++ be64 (8 * x.length)) := by
    simp [padded]
  have hbe : (be64 (8 * x.length)).length = 8 := rfl
  have htl : (x.drop (64 * (x.length / 64))).length = x.length % 64 := by
    rw [List.length_drop]; omega
  simp only [sha256, hloop, hpad]
  by_cases hr : x.length % 64 < 56
  · have hk55 : k = 55 - x.length % 64 := by
      have := hmin (55 - x.length % 64)
      omega
    subst hk55
    rw [sha256_tail_fits x _ hL hr, blocks_append_suffix x _ 1 (by simp [hbe]; omega)]
    simp only [blocks_aux, List.foldl_append, List.foldl_cons, List.foldl_nil,
      sha256_block_take, List.append_assoc, List.cons_append]
  · have hk119 : k = 119 - x.length % 64 := by
      have := hmin (119 - x.length % 64)
      omega
    subst hk119
    have e : 119 - x.length % 64 = (63 - x.length % 64) + 56 := by omega
    have h1 : (x.drop (64 * (x.length / 64)) ++ 0x80 :: List.replicate (63 - x.length % 64) 0).length
        = 64 := by
      simp [htl]; omega
    rw [sha256_tail_spills x _ hL (by omega), blocks_append_suffix x _ 2 (by simp [hbe]; omega)]
    have hT : x.drop (64 * (x.length / 64))
          ++ (0x80 :: List.replicate (119 - x.length % 64) 0 ++ be64 (8 * x.length))
        = (x.drop (64 * (x.length / 64)) ++ 0x80 :: List.replicate (63 - x.length % 64) 0)
          ++ (List.replicate 56 0 ++ be64 (8 * x.length)) := by
      rw [e, List.replicate_add]
      simp only [List.append_assoc, List.cons_append]
    rw [hT]
    simp only [blocks_aux, List.foldl_append, List.foldl_cons, List.foldl_nil, sha256_block_take]
    rw [List.drop_left' h1]
    have h2 : ((x.drop (64 * (x.length / 64)) ++ 0x80 :: List.replicate (63 - x.length % 64) 0)
          ++ (List.replicate 56 0 ++ be64 (8 * x.length))).take 64
        = x.drop (64 * (x.length / 64)) ++ 0x80 :: List.replicate (63 - x.length % 64) 0 :=
      List.take_left' h1
    rw [← sha256_block_take _ (_ ++ (List.replicate 56 0 ++ be64 (8 * x.length))), h2]

end dhcc

namespace HilbertSpace640

/-! ## Facts about `count_leading_zeros` -/

set_option maxRecDepth 100000 in
/-- On a non-zero byte `__builtin_clz(b) - 24` is the number of leading zero bits of the
byte, and it is between 0 and 7. -/
theorem clz_byte : ∀ b, b < 256 → b ≠ 0 →
    true ∈ byte_bits b ∧ leading_zeros (byte_bits b) + 24 = builtin_clz b
      ∧ leading_zeros (byte_bits b) ≤ 7 := by
  decide

theorem leading_zeros_append_of_mem (l rest : List Bool) (h : true ∈ l) :
    leading_zeros (l ++ rest) = leading_zeros l := by
  induction l with
  | nil => simp at h
  | cons b l ih =>
    cases b with
    | true => rfl
    | false =>
      have h1 : true ∈ l := by simpa using h
      show leading_zeros (l ++ rest) + 1 = leading_zeros l + 1
      rw [ih h1]

theorem leading_zero_bits_cons_zero (bs : List Nat) :
    leading_zero_bits (0 :: bs) = leading_zero_bits bs + 8 := rfl

theorem leading_zero_bits_cons_pos (b : Nat) (bs : List Nat) (hb : b < 256) (h0 : b ≠ 0) :
    (leading_zero_bits (b :: bs) : Int) = (builtin_clz b : Int) - 24 := by
  obtain ⟨hmem, hclz, _⟩ := clz_byte b hb h0
  have e : leading_zero_bits (b :: bs) = leading_zeros (byte_bits b) :=
    leading_zeros_append_of_mem _ _ hmem
  rw [e, ← hclz]
  push_cast
  ring

/-- One iteration of the walk on a zero byte: eight more zero bits, and the walk goes on. -/
theorem clz_walk_zero_step (hash : List Nat) (i : Nat) (z : Int) (h : hash.getD i 0 = 0) :
    clz_walk hash (i + 1) z = clz_walk hash i (z + 8) := by
  simp only [clz_walk, h, if_true]

/-- One iteration of the walk on a non-zero byte: its leading zero bits are added and the
walk stops. -/
theorem clz_walk_stop_step (hash : List Nat) (i : Nat) (z : Int) (h : hash.getD i 0 ≠ 0) :
    clz_walk hash (i + 1) z = z + ((builtin_clz (hash.getD i 0) : Int) - 24) := by
  simp only [clz_walk, h, if_false]

/-- The walk from index `n - 1` down to 0 counts the leading zero bits of the first `n`
bytes taken in reverse order. -/
theorem clz_walk_eq (hash : List Nat) (hb : ∀ b ∈ hash, b < 256) (n : Nat) (z : Int)
    (hn : n ≤ hash.length) :
    clz_walk hash n z = z + (leading_zero_bits (hash.take n).reverse : Int) := by
  induction n generalizing z with
  | zero => simp [clz_walk, leading_zero_bits, digest_bits, leading_zeros]
  | succ n ih =>
    have hlt : n < hash.length := by omega
    have hget : hash.getD n 0 = hash[n] := by
      simp [List.getD_eq_getElem?_getD, List.getElem?_eq_getElem hlt]
    have hrev : (hash.take (n + 1)).reverse = hash[n] :: (hash.take n).reverse := by
      rw [List.take_succ, List.getElem?_eq_getElem hlt]
      simp
    rw [hrev]
    by_cases h0 : hash[n] = 0
    · have step : clz_walk hash (n + 1) z = clz_walk hash n (z + 8) := by
        simp only [clz_walk, hget, h0, if_true]
      rw [step, ih (z + 8) (by omega), h0, leading_zero_bits_cons_zero]
      push_cast
      ring
    · have step : clz_walk hash (n + 1) z = z + ((builtin_clz hash[n] : Int) - 24) := by
        simp only [clz_walk, hget, h0, if_false]
      rw [step, leading_zero_bits_cons_pos _ _ (hb _ (List.getElem_mem hlt)) h0]

/-- Range of the walk, and when it reaches the maximum. -/
theorem clz_walk_bounds (hash : List Nat) (n : Nat) (z : Int)
    (hb : ∀ i, i < n → hash.getD i 0 < 256) :
    z ≤ clz_walk hash n z ∧ clz_walk hash n z ≤ z + 8 * n
      ∧ (clz_walk hash n z = z + 8 * n ↔ ∀ i, i < n → hash.getD i 0 = 0) := by
  induction n generalizing z with
  | zero => simp [clz_walk]
  | succ n ih =>
    obtain ⟨h1, h2, h3⟩ := ih (z + 8) (fun i hi => hb i (by omega))
    by_cases h0 : hash.getD n 0 = 0
    · have step : clz_walk hash (n + 1) z = clz_walk hash n (z + 8) := by
        simp only [clz_walk, h0, if_true]
      rw [step]
      refine ⟨by omega, by push_cast; omega, ?_⟩
      constructor
      · intro h i hi
        by_cases hin : i = n
        · rw [hin]; exact h0
        · exact h3.mp (by push_cast at h; omega) i (by omega)
      · intro h
        have := h3.mpr (fun i hi => h i (by omega))
        push_cast
        omega
    · have step : clz_walk hash (n + 1) z = z + ((builtin_clz (hash.getD n 0) : Int) - 24) := by
        simp only [clz_walk, h0, if_false]
      obtain ⟨_, hclz, h7⟩ := clz_byte _ (hb n (by omega)) h0
      rw [step, ← hclz]
      refine ⟨by push_cast; omega, by push_cast; omega, ?_⟩
      constructor
      · intro h
        push_cast at h
        omega
      · intro h
        exact absurd (h n (by omega)) h0

end HilbertSpace640

/-! ## The claims -/

namespace dhcc

theorem serialise_bytes (st : List Nat) : ∀ b ∈ serialise st, b < 256 := by
  intro b hb
  have e : serialise st = store_word (st.getD 0 0) ++ store_word (st.getD 1 0)
      ++ store_word (st.getD 2 0) ++ store_word (st.getD 3 0) ++ store_word (st.getD 4 0)
      ++ store_word (st.getD 5 0) ++ store_word (st.getD 6 0) ++ store_word (st.getD 7 0) := rfl
  rw [e] at hb
  simp only [store_word, List.mem_append, List.mem_cons, List.mem_singleton,
    List.not_mem_nil, or_false] at hb
  omega

/-- Claim C1. For every byte sequence `x`, the intermediate digest `sha256(x)` has 32 bytes
and `sha256d(x)` is `sha256` applied to that digest as a message of its own length, with
nothing added: `sha256d(x) = sha256(sha256(x))`. -/
theorem sha256d_eq_sha256_sha256 (x : List Nat) :
    (sha256 x x.length).length = 32 ∧
      sha256d x x.length = sha256 (sha256 x x.length) (sha256 x x.length).length := by
  refine ⟨sha256_length _ _, ?_⟩
  rw [sha256_length]
  rfl

set_option maxRecDepth 100000 in
/-- Claim C3. On the empty input `sha256` returns `e3b0c442...7852b855` and `sha256d`
returns `5df6e0e2...5d4c9456`. -/
theorem sha256_empty :
    sha256 [] 0 =
      [0xe3, 0xb0, 0xc4, 0x42, 0x98, 0xfc, 0x1c, 0x14, 0x9a, 0xfb, 0xf4, 0xc8, 0x99, 0x6f, 0xb9,
     0x24, 0x27, 0xae, 0x41, 0xe4, 0x64, 0x9b, 0x93, 0x4c, 0xa4, 0x95, 0x99, 0x1b, 0x78, 0x52,
     0xb8, 0x55]
    ∧ sha256d [] 0 =
      [0x5d, 0xf6, 0xe0, 0xe2, 0x76, 0x13, 0x59, 0xd3, 0x0a, 0x82, 0x75, 0x05, 0x8e, 0x29, 0x9f,
     0xcc, 0x03, 0x81, 0x53, 0x45, 0x45, 0xf5, 0x5c, 0xf4, 0x3e, 0x41, 0x98, 0x3f, 0x5d, 0x4c,
     0x94, 0x56] := by
  decide

set_option maxRecDepth 100000 in
/-- Claim C4. On the three bytes `abc` `sha256` returns `ba7816bf...f20015ad` and `sha256d`
returns `4f8b42c2...3e6c6358`. -/
theorem sha256_abc :
    sha256 [0x61, 0x62, 0x63] 3 =
      [0xba, 0x78, 0x16, 0xbf, 0x8f, 0x01, 0xcf, 0xea, 0x41, 0x41, 0x40, 0xde, 0x5d, 0xae, 0x22,
     0x23, 0xb0, 0x03, 0x61, 0xa3, 0x96, 0x17, 0x7a, 0x9c, 0xb4, 0x10, 0xff, 0x61, 0xf2, 0x00,
     0x15, 0xad]
    ∧ sha256d [0x61, 0x62, 0x63] 3 =
      [0x4f, 0x8b, 0x42, 0xc2, 0x2d, 0xd3, 0x72, 0x9b, 0x51, 0x9b, 0xa6, 0xf6, 0x8d, 0x2d, 0xa7,
     0xcc, 0x5b, 0x2d, 0x60, 0x6d, 0x05, 0xda, 0xed, 0x5a, 0xd5, 0x12, 0x8c, 0xc0, 0x3e, 0x6c,
     0x63, 0x58] := by
  decide

set_option maxRecDepth 100000 in
/-- Claim C5. On the 56-byte message `abcdbcdecdefdefgefghfghighijhijkijkljklmklmnlmnomnopnopq`,
whose padding spills into a second block, `sha256` returns `248d6a61...19db06c1`. -/
theorem sha256_two_block_message :
    sha256
      [0x61, 0x62, 0x63, 0x64, 0x62, 0x63, 0x64, 0x65, 0x63, 0x64, 0x65, 0x66, 0x64, 0x65, 0x66,
     0x67, 0x65, 0x66, 0x67, 0x68, 0x66, 0x67, 0x68, 0x69, 0x67, 0x68, 0x69, 0x6a, 0x68, 0x69,
     0x6a, 0x6b, 0x69, 0x6a, 0x6b, 0x6c, 0x6a, 0x6b, 0x6c, 0x6d, 0x6b, 0x6c, 0x6d, 0x6e, 0x6c,
     0x6d, 0x6e, 0x6f, 0x6d, 0x6e, 0x6f, 0x70, 0x6e, 0x6f, 0x70, 0x71] 56 =
      [0x24, 0x8d, 0x6a, 0x61, 0xd2, 0x06, 0x38, 0xb8, 0xe5, 0xc0, 0x26, 0x93, 0x0c, 0x3e, 0x60,
     0x39, 0xa3, 0x3c, 0xe4, 0x59, 0x64, 0xff, 0x21, 0x67, 0xf6, 0xec, 0xed, 0xd4, 0x19, 0xdb,
     0x06, 0xc1] := by
  decide

end dhcc

namespace HilbertSpace640

/-- Claim C6, counterexample. For the digest whose byte 0 is `0x80` and whose other bytes
are zero, the big-endian count of the specification is 0, and `count_leading_zeros`
returns 248. -/
theorem count_leading_zeros_not_from_byte_0 :
    leading_zero_bits (0x80 :: List.replicate 31 0) = 0
      ∧ count_leading_zeros (0x80 :: List.replicate 31 0) = 248 := by
  decide

/-- Claim C6, amended. For every 32-byte digest `d`, `count_leading_zeros` returns the number
of contiguous zero bits counted from bit 7 of byte index 31 downwards to byte index 0: the
big-endian leading-zero count of the byte-reversed digest. -/
theorem count_leading_zeros_eq_reversed (d : List Nat) (hlen : d.length = 32)
    (hb : ∀ b ∈ d, b < 256) :
    count_leading_zeros d = (leading_zero_bits d.reverse : Int) := by
  have h := clz_walk_eq d hb 32 0 (by omega)
  rw [List.take_of_length_le (by omega)] at h
  rw [count_leading_zeros, h, Int.zero_add]

/-- Witness of the amended claim C6, on a digest ending in `0x0f 0x00 0x00`. -/
theorem count_leading_zeros_eq_reversed_witness :
    count_leading_zeros (List.replicate 29 0xff ++ [0x0f, 0x00, 0x00])
      = (leading_zero_bits (List.replicate 29 0xff ++ [0x0f, 0x00, 0x00]).reverse : Int) :=
  count_leading_zeros_eq_reversed (List.replicate 29 0xff ++ [0x0f, 0x00, 0x00])
    (by decide) (by decide)

/-- Claim C7, counterexample. A digest that starts `0x00 0x00 0x0f` and continues with
`0xff` bytes gets 0, not 20; a digest that starts with `0x80` and continues with zero bytes
gets 248, not 0. -/
theorem count_leading_zeros_first_bytes :
    count_leading_zeros ([0x00, 0x00, 0x0f] ++ List.replicate 29 0xff) = 0
      ∧ count_leading_zeros ([0x80] ++ List.replicate 31 0x00) = 248 := by
  decide

set_option linter.unusedVariables false in
/-- Claim C7, amended. For every 32-byte digest whose last three bytes (indices 31, 30, 29)
are `0x00, 0x00, 0x0f`, `count_leading_zeros` returns 20; and for every 32-byte digest whose
last byte (index 31) is `0x80`, it returns 0. -/
theorem count_leading_zeros_last_bytes (d : List Nat) (hlen : d.length = 32) :
    (d.getD 31 0 = 0x00 → d.getD 30 0 = 0x00 → d.getD 29 0 = 0x0f →
        count_leading_zeros d = 20)
      ∧ (d.getD 31 0 = 0x80 → count_leading_zeros d = 0) := by
  have c15 : builtin_clz 15 = 28 := by decide
  have c128 : builtin_clz 128 = 24 := by decide
  constructor
  · intro h31 h30 h29
    have h29' : d.getD 29 0 ≠ 0 := by rw [h29]; decide
    show clz_walk d (31 + 1) 0 = 20
    rw [clz_walk_zero_step _ _ _ h31]
    show clz_walk d (30 + 1) (0 + 8) = 20
    rw [clz_walk_zero_step _ _ _ h30]
    show clz_walk d (29 + 1) (0 + 8 + 8) = 20
    rw [clz_walk_stop_step _ _ _ h29', h29, c15]
    norm_num
  · intro h31
    have h31' : d.getD 31 0 ≠ 0 := by rw [h31]; decide
    show clz_walk d (31 + 1) 0 = 0
    rw [clz_walk_stop_step _ _ _ h31', h31, c128]
    norm_num

/-- Witness of the amended claim C7. -/
theorem count_leading_zeros_last_bytes_witness :
    count_leading_zeros (List.replicate 29 0xff ++ [0x0f, 0x00, 0x00]) = 20
      ∧ count_leading_zeros (List.replicate 31 0xff ++ [0x80]) = 0 :=
  ⟨(count_leading_zeros_last_bytes (List.replicate 29 0xff ++ [0x0f, 0x00, 0x00])
      (by decide)).1 (by decide) (by decide) (by decide),
   (count_leading_zeros_last_bytes (List.replicate 31 0xff ++ [0x80])
      (by decide)).2 (by decide)⟩

/-- Claim C8. For every 32-byte digest `d`, `count_leading_zeros d` lies in `[0, 256]`, and
it equals 256 if and only if all 32 bytes of `d` are zero. -/
theorem count_leading_zeros_range (d : List Nat) (hlen : d.length = 32)
    (hb : ∀ b ∈ d, b < 256) :
    0 ≤ count_leading_zeros d ∧ count_leading_zeros d ≤ 256
      ∧ (count_leading_zeros d = 256 ↔ ∀ b ∈ d, b = 0) := by
  have hidx : ∀ i, i < 32 → d.getD i 0 ∈ d := by
    intro i hi
    have hlt : i < d.length := by omega
    have : d.getD i 0 = d[i] := by
      simp [List.getD_eq_getElem?_getD, List.getElem?_eq_getElem hlt]
    rw [this]
    exact List.getElem_mem hlt
  obtain ⟨h1, h2, h3⟩ := clz_walk_bounds d 32 0 (fun i hi => hb _ (hidx i hi))
  refine ⟨by simpa [count_leading_zeros] using h1, by simpa [count_leading_zeros] using h2, ?_⟩
  have h3' : count_leading_zeros d = 256 ↔ ∀ i, i < 32 → d.getD i 0 = 0 := by
    simpa [count_leading_zeros] using h3
  rw [h3']
  constructor
  · intro h b hbm
    obtain ⟨i, hi, rfl⟩ := List.getElem_of_mem hbm
    have := h i (by omega)
    simpa [List.getD_eq_getElem?_getD, List.getElem?_eq_getElem hi] using this
  · intro h i hi
    exact h _ (hidx i hi)

/-- Witness of claim C8, on the all-zero digest. -/
theorem count_leading_zeros_range_witness :
    0 ≤ count_leading_zeros (List.replicate 32 0)
      ∧ count_leading_zeros (List.replicate 32 0) ≤ 256
      ∧ (count_leading_zeros (List.replicate 32 0) = 256 ↔ ∀ b ∈ List.replicate 32 0, b = 0) :=
  count_leading_zeros_range (List.replicate 32 0) (by decide) (by decide)

end HilbertSpace640

namespace dhcc

/-- Claim C9, counterexample. A buffer of `2^61` zero bytes has a bit length that does not
fit in 64 bits, and the outcome of `sha256` on it is a digest, not the error. -/
theorem sha256_oversized_is_digest :
    ¬ (8 * (List.replicate (2 ^ 61) 0).length < 2 ^ 64)
      ∧ sha256_outcome (List.replicate (2 ^ 61) 0) (2 ^ 61) ≠ Outcome.input_too_large := by
  constructor
  · rw [List.length_replicate]
    decide
  · intro h
    unfold sha256_outcome at h
    exact Outcome.noConfusion h

/-- Claim C9, amended. The function `sha256` has no error outcome: for every input, also
when the bit length `8 * L` does not fit in 64 bits, it returns a well-formed digest of 32
bytes, each below 256. -/
theorem sha256_always_digest (data : List Nat) (len : Nat) :
    sha256_outcome data len ≠ Outcome.input_too_large
      ∧ ∃ out32, sha256_outcome data len = Outcome.digest out32
          ∧ out32.length = 32 ∧ ∀ b ∈ out32, b < 256 :=
  ⟨fun h => Outcome.noConfusion h, sha256 data len, rfl, sha256_length _ _, serialise_bytes _⟩

end dhcc

namespace dhcc

/-! ## The evaluation forms agree with `sha256_block` -/

theorem force_eq {α : Type} (x : Nat) (k : Nat → α) : force x k = k x := by
  cases x <;> rfl

theorem testBit_word_high {x j : Nat} (hx : x < 4294967296) (hj : 32 ≤ j) :
    x.testBit j = false :=
  Nat.testBit_lt_two_pow
    (Nat.lt_of_lt_of_le hx (Nat.pow_le_pow_right (by decide) hj : 2 ^ 32 ≤ 2 ^ j))

/-- Bits of the doubled word `x * (2^32 + 1)`. -/
theorem testBit_doubled (x j : Nat) (hx : x < 4294967296) :
    (x * 4294967297).testBit j = (decide (32 ≤ j) && x.testBit (j - 32) || x.testBit j) := by
  have e : x * 4294967297 = 2 ^ 32 * x + x := by ring
  rw [e, Nat.testBit_mul_pow_two_add x (by simpa using hx) j]
  by_cases h : j < 32
  · simp [h, Nat.not_le.mpr h]
  · have h' : 32 ≤ j := Nat.le_of_not_lt h
    simp [h, h', testBit_word_high hx h']

/-- A rotation of a 32-bit word is a window of the doubled word. -/
theorem rotr_eq_doubled (x r : Nat) (hx : x < 4294967296) (hr : r ≤ 32) :
    rotr x r = ((x * 4294967297) >>> r) % 4294967296 := by
  apply Nat.eq_of_testBit_eq
  intro i
  have e32 : (4294967296 : Nat) = 2 ^ 32 := by norm_num
  rw [rotr, e32, Nat.testBit_or, Nat.testBit_mod_two_pow, Nat.testBit_mod_two_pow,
    Nat.testBit_shiftRight, Nat.testBit_shiftRight, Nat.testBit_shiftLeft,
    testBit_doubled _ _ hx]
  by_cases hi : i < 32
  · by_cases h2 : 32 ≤ r + i
    · have e1 : r + i - 32 = i - (32 - r) := by omega
      have h3 : 32 - r ≤ i := by omega
      simp [hi, h2, h3, e1, testBit_word_high hx h2]
    · have h3 : ¬ 32 - r ≤ i := by omega
      simp [hi, h2, h3]
  · have h2 : 32 ≤ r + i := by omega
    simp [hi, testBit_word_high hx h2]

theorem xor_mod_word (a b : Nat) :
    (a % 4294967296) ^^^ (b % 4294967296) = (a ^^^ b) % 4294967296 := by
  apply Nat.eq_of_testBit_eq
  intro i
  have e32 : (4294967296 : Nat) = 2 ^ 32 := by norm_num
  rw [e32, Nat.testBit_xor, Nat.testBit_mod_two_pow, Nat.testBit_mod_two_pow,
    Nat.testBit_mod_two_pow, Nat.testBit_xor]
  by_cases hi : i < 32 <;> simp [hi]

theorem S0_fast_eq (x : Nat) (hx : x < 4294967296) : S0_fast x = S0 x := by
  rw [S0, rotr_eq_doubled x 2 hx (by decide), rotr_eq_doubled x 13 hx (by decide),
    rotr_eq_doubled x 22 hx (by decide), xor_mod_word, xor_mod_word]
  rfl

theorem S1_fast_eq (x : Nat) (hx : x < 4294967296) : S1_fast x = S1 x := by
  rw [S1, rotr_eq_doubled x 6 hx (by decide), rotr_eq_doubled x 11 hx (by decide),
    rotr_eq_doubled x 25 hx (by decide), xor_mod_word, xor_mod_word]
  rfl

theorem Ch_fast_eq (x y z : Nat) : Ch_fast x y z = Ch x y z := rfl

theorem Maj_fast_eq (x y z : Nat) : Maj_fast x y z = Maj x y z := rfl

/-- One round of `sha256_block` in the merged form used by `rounds_fast`. -/
theorem round_eq_fast (w : List Nat) (v : Vars) (i : Nat) (hv : v.wf) :
    round w v i =
      Vars.mk
        (Nat.mod (Nat.add (Nat.add (Nat.add (Nat.add v.h (S1_fast v.e)) (Ch_fast v.e v.f v.g))
          (K.getD i 0 + w.getD i 0)) (Nat.add (S0_fast v.a) (Maj_fast v.a v.b v.c))) 4294967296)
        v.a v.b v.c
        (Nat.mod (Nat.add v.d (Nat.add (Nat.add (Nat.add v.h (S1_fast v.e))
          (Ch_fast v.e v.f v.g)) (K.getD i 0 + w.getD i 0))) 4294967296)
        v.e v.f v.g := by
  obtain ⟨ha, _, _, _, he, _, _, _⟩ := hv
  rw [S0_fast_eq _ ha, S1_fast_eq _ he, Ch_fast_eq, Maj_fast_eq]
  show round w v i = Vars.mk
    ((v.h + S1 v.e + Ch v.e v.f v.g + (K.getD i 0 + w.getD i 0)
      + (S0 v.a + Maj v.a v.b v.c)) % 4294967296) v.a v.b v.c
    ((v.d + (v.h + S1 v.e + Ch v.e v.f v.g + (K.getD i 0 + w.getD i 0))) % 4294967296)
    v.e v.f v.g
  simp only [round, Vars.mk.injEq, and_true, true_and]
  constructor <;> omega

theorem round_wf (w : List Nat) (v : Vars) (i : Nat) (hv : v.wf) : (round w v i).wf := by
  obtain ⟨ha, hb, hc, _, he, hf, hg, _⟩ := hv
  refine ⟨?_, ha, hb, hc, ?_, he, hf, hg⟩
  · exact Nat.mod_lt _ (by decide)
  · exact Nat.mod_lt _ (by decide)

/-- The round loop of `sha256_block` over any index list, in the form of `rounds_fast`. -/
theorem foldl_round_eq_fast (w : List Nat) (is : List Nat) (v : Vars) (hv : v.wf) :
    is.foldl (round w) v =
      rounds_fast (is.map (fun i => K.getD i 0 + w.getD i 0))
        v.a v.b v.c v.d v.e v.f v.g v.h := by
  induction is generalizing v with
  | nil => rfl
  | cons i is ih =>
    rw [List.foldl_cons, ih _ (round_wf w v i hv), round_eq_fast w v i hv]
    rfl

theorem block_fast_eq (kws : List Nat) (v : Vars) :
    block_fast kws v =
      Vars.mk
        ((v.a + (rounds_fast kws v.a v.b v.c v.d v.e v.f v.g v.h).a) % 4294967296)
        ((v.b + (rounds_fast kws v.a v.b v.c v.d v.e v.f v.g v.h).b) % 4294967296)
        ((v.c + (rounds_fast kws v.a v.b v.c v.d v.e v.f v.g v.h).c) % 4294967296)
        ((v.d + (rounds_fast kws v.a v.b v.c v.d v.e v.f v.g v.h).d) % 4294967296)
        ((v.e + (rounds_fast kws v.a v.b v.c v.d v.e v.f v.g v.h).e) % 4294967296)
        ((v.f + (rounds_fast kws v.a v.b v.c v.d v.e v.f v.g v.h).f) % 4294967296)
        ((v.g + (rounds_fast kws v.a v.b v.c v.d v.e v.f v.g v.h).g) % 4294967296)
        ((v.h + (rounds_fast kws v.a v.b v.c v.d v.e v.f v.g v.h).h) % 4294967296) := by
  unfold block_fast
  cases rounds_fast kws v.a v.b v.c v.d v.e v.f v.g v.h
  simp only [force_eq]
  rfl

theorem block_fast_wf (kws : List Nat) (v : Vars) : (block_fast kws v).wf := by
  rw [block_fast_eq]
  exact ⟨Nat.mod_lt _ (by decide), Nat.mod_lt _ (by decide), Nat.mod_lt _ (by decide),
    Nat.mod_lt _ (by decide), Nat.mod_lt _ (by decide), Nat.mod_lt _ (by decide),
    Nat.mod_lt _ (by decide), Nat.mod_lt _ (by decide)⟩

/-- The function `sha256_block` on a state of eight 32-bit words is `block_fast`. -/
theorem sha256_block_eq_fast (v : Vars) (block : List Nat) (hv : v.wf) :
    sha256_block (of_vars v) block = of_vars (block_fast (round_constants (schedule block)) v) := by
  rw [block_fast_eq, round_constants, ← foldl_round_eq_fast (schedule block) (List.range 64) v hv]
  rfl

theorem iter_fast_succ (kws : List Nat) (n : Nat) (v : Vars) :
    iter_fast kws (n + 1) v = iter_fast kws n (block_fast kws v) := by
  show (match block_fast kws v with
    | Vars.mk a b c d e f g h => iter_fast kws n (Vars.mk a b c d e f g h)) = _
  cases block_fast kws v
  rfl

theorem iter_fast_add (kws : List Nat) (m n : Nat) (v : Vars) :
    iter_fast kws (m + n) v = iter_fast kws n (iter_fast kws m v) := by
  induction m generalizing v with
  | zero => rw [Nat.zero_add]; rfl
  | succ m ih =>
    rw [Nat.add_right_comm, iter_fast_succ, ih, iter_fast_succ]

/-- Folding `sha256_block` over `n` copies of one block is `iter_fast`. -/
theorem foldl_replicate_eq_fast (block : List Nat) (n : Nat) (v : Vars) (hv : v.wf) :
    (List.replicate n block).foldl sha256_block (of_vars v)
      = of_vars (iter_fast (round_constants (schedule block)) n v) := by
  induction n generalizing v with
  | zero => rfl
  | succ n ih =>
    rw [List.replicate_succ, List.foldl_cons, sha256_block_eq_fast v block hv,
      ih _ (block_fast_wf _ _), iter_fast_succ]

theorem blocks_aux_replicate (n r a : Nat) :
    blocks_aux n (List.replicate (64 * n + r) a) = List.replicate n (List.replicate 64 a) := by
  induction n with
  | zero => rfl
  | succ n ih =>
    have e : 64 * (n + 1) + r - 64 = 64 * n + r := by omega
    rw [blocks_aux, List.take_replicate, List.drop_replicate, e, ih,
      Nat.min_eq_left (by omega)]
    rfl

/-- The digest of a message of `64 * n` equal bytes: `n` compressions of the same block, and
one compression of the padding block. -/
theorem sha256_replicate (n a L : Nat) (hn : L = 64 * n) (hL : L < 2 ^ 61) :
    sha256 (List.replicate L a) L =
      serialise (sha256_block ((List.replicate n (List.replicate 64 a)).foldl sha256_block H0)
        (0x80 :: List.replicate 55 0 ++ be64 (8 * L))) := by
  have hlen : (List.replicate L a).length = L := List.length_replicate _ _
  have hq : L / 64 = n := by omega
  have hr : L % 64 = 0 := by omega
  have hloop := sha256_loop_eq (List.replicate L a) L H0 0 (by rw [hlen]; omega)
  rw [hlen, List.drop_zero, Nat.sub_zero, Nat.zero_add, hq] at hloop
  have hb : blocks_aux n (List.replicate L a) = List.replicate n (List.replicate 64 a) := by
    have := blocks_aux_replicate n 0 a
    rwa [Nat.add_zero, ← hn] at this
  have htail := sha256_tail_fits (List.replicate L a)
    ((List.replicate n (List.replicate 64 a)).foldl sha256_block H0)
    (by rw [hlen]; exact hL) (by rw [hlen]; omega)
  have h0 : L - 64 * n = 0 := by omega
  rw [hlen, hq, hr, List.drop_replicate, h0] at htail
  rw [hb] at hloop
  simp only [sha256, hloop, htail]
  rfl

set_option maxRecDepth 100000 in
theorem round_constants_a : round_constants (schedule (List.replicate 64 0x61)) = KW_a := by
  decide

theorem H0_eq_of_vars :
    H0 = of_vars (Vars.mk 0x6a09e667 0xbb67ae85 0x3c6ef372 0xa54ff53a
      0x510e527f 0x9b05688c 0x1f83d9ab 0x5be0cd19) := rfl

theorem iter_chain (m : Nat) (v v1 v2 : Vars) (h1 : iter_fast KW_a m v = v1)
    (h2 : iter_fast KW_a 125 v1 = v2) : iter_fast KW_a (m + 125) v = v2 := by
  rw [iter_fast_add, h1, h2]


end dhcc

namespace dhcc

/-! ## Length and layout of the digest -/

set_option linter.unusedVariables false in
/-- Claim C11. For every byte sequence `x` of length below `2^61`, `sha256(x)` and
`sha256d(x)` each write exactly 32 output bytes. -/
theorem sha256_digest_length (x : List Nat) (hL : x.length < 2 ^ 61) :
    (sha256 x x.length).length = 32 ∧ (sha256d x x.length).length = 32 :=
  ⟨sha256_length _ _, sha256_length _ _⟩

/-- Witness of claim C11, on the message `abc`. -/
theorem sha256_digest_length_witness :
    (sha256 [0x61, 0x62, 0x63] [0x61, 0x62, 0x63].length).length = 32
      ∧ (sha256d [0x61, 0x62, 0x63] [0x61, 0x62, 0x63].length).length = 32 :=
  sha256_digest_length [0x61, 0x62, 0x63] (by decide)

theorem sha256_eq_serialise_state (data : List Nat) (len : Nat) :
    sha256 data len = serialise (sha256_state data len) := rfl

theorem serialise_getD (st : List Nat) (i j : Nat) (hi : i < 8) (hj : j < 4) :
    (serialise st).getD (4 * i + j) 0 = (st.getD i 0 >>> (24 - 8 * j)) % 256 := by
  interval_cases i <;> interval_cases j <;> rfl

theorem sha256_block_word_lt (st block : List Nat) (i : Nat) :
    (sha256_block st block).getD i 0 < 4294967296 := by
  have h : ∀ n, i = n → n < 8 → (sha256_block st block).getD i 0 < 4294967296 := by
    intro n hn h8
    subst hn
    interval_cases i <;> exact Nat.mod_lt _ (by decide)
  by_cases h8 : i < 8
  · exact h i rfl h8
  · have : (sha256_block st block).getD i 0 = 0 := by
      have hl : (sha256_block st block).length = 8 := rfl
      simp [List.getD_eq_getElem?_getD, List.getElem?_eq_none (by omega : (sha256_block st block).length ≤ i)]
    omega

/-- A 32-bit word is recovered from its four big-endian bytes. -/
theorem be32_store_word (x : Nat) (hx : x < 4294967296) :
    be32 ((x >>> 24) % 256) ((x >>> 16) % 256) ((x >>> 8) % 256) (x % 256) = x := by
  simp only [be32, Nat.shiftRight_eq_div_pow]
  omega

/-- Claim C16. The digest written by `sha256` is the big-endian serialisation of the eight
final state words: `out32[4i+j] = (st[i] >> (24 - 8j)) mod 256` for `i < 8`, `j < 4`, and
reading the digest back as eight big-endian 32-bit words gives the final state. -/
theorem sha256_digest_big_endian (data : List Nat) (len : Nat) (i j : Nat)
    (hi : i < 8) (hj : j < 4) :
    (sha256 data len).getD (4 * i + j) 0
        = ((sha256_state data len).getD i 0 >>> (24 - 8 * j)) % 256
      ∧ parse_be32 (sha256 data len) i = (sha256_state data len).getD i 0 := by
  refine ⟨serialise_getD _ i j hi hj, ?_⟩
  have h0 := serialise_getD (sha256_state data len) i 0 hi (by decide)
  have h1 := serialise_getD (sha256_state data len) i 1 hi (by decide)
  have h2 := serialise_getD (sha256_state data len) i 2 hi (by decide)
  have h3 := serialise_getD (sha256_state data len) i 3 hi (by decide)
  rw [parse_be32, sha256_eq_serialise_state, ← Nat.add_zero (4 * i), h0, Nat.add_zero, h1, h2, h3]
  exact be32_store_word _ (sha256_block_word_lt _ _ i)

/-- Witness of claim C16, on the last byte and the last word of the digest of the empty
message. -/
theorem sha256_digest_big_endian_witness :
    (sha256 [] 0).getD (4 * 7 + 3) 0 = ((sha256_state [] 0).getD 7 0 >>> (24 - 8 * 3)) % 256
      ∧ parse_be32 (sha256 [] 0) 7 = (sha256_state [] 0).getD 7 0 :=
  sha256_digest_big_endian [] 0 7 3 (by decide) (by decide)

end dhcc

namespace dhcc

/-! ## The compression function and the message schedule against the specification -/

/-- The function `rotr` on a 32-bit word is the bitwise right rotation. -/
theorem rotr_eq_ROTR (x r : Nat) (hx : x < 4294967296) (hr : r ≤ 32) :
    rotr x r = ROTR x r := by
  have hdiv : x / 2 ^ r < 2 ^ (32 - r) := by
    apply Nat.div_lt_of_lt_mul
    rw [← Nat.pow_add, Nat.add_sub_cancel' hr]
    exact hx
  have e : ROTR x r = 2 ^ (32 - r) * (x % 2 ^ r) + x / 2 ^ r := by
    rw [ROTR, Nat.mul_comm, Nat.add_comm]
  rw [rotr_eq_doubled x r hx hr, e]
  apply Nat.eq_of_testBit_eq
  intro i
  have e32 : (4294967296 : Nat) = 2 ^ 32 := by norm_num
  rw [e32, Nat.testBit_mod_two_pow, Nat.testBit_shiftRight, testBit_doubled _ _ hx,
    Nat.testBit_mul_pow_two_add _ hdiv, Nat.testBit_mod_two_pow, ← Nat.shiftRight_eq_div_pow,
    Nat.testBit_shiftRight]
  by_cases h1 : i < 32 - r
  · have h2 : i < 32 := by omega
    have h3 : ¬ 32 ≤ r + i := by omega
    simp [h1, h2, h3]
  · by_cases h2 : i < 32
    · have h3 : 32 ≤ r + i := by omega
      have h4 : i - (32 - r) < r := by omega
      have e1 : r + i - 32 = i - (32 - r) := by omega
      simp [h1, h2, h3, h4, e1, testBit_word_high hx h3]
    · have h4 : ¬ i - (32 - r) < r := by omega
      simp [h1, h2, h4]

theorem S0_eq_Sigma0 (x : Nat) (hx : x < 4294967296) : S0 x = Sigma0 x := by
  rw [S0, Sigma0, rotr_eq_ROTR x 2 hx (by decide), rotr_eq_ROTR x 13 hx (by decide),
    rotr_eq_ROTR x 22 hx (by decide)]

theorem S1_eq_Sigma1 (x : Nat) (hx : x < 4294967296) : S1 x = Sigma1 x := by
  rw [S1, Sigma1, rotr_eq_ROTR x 6 hx (by decide), rotr_eq_ROTR x 11 hx (by decide),
    rotr_eq_ROTR x 25 hx (by decide)]

theorem s0_eq_sigma0 (x : Nat) (hx : x < 4294967296) : s0 x = sigma0 x := by
  rw [s0, sigma0, rotr_eq_ROTR x 7 hx (by decide), rotr_eq_ROTR x 18 hx (by decide),
    Nat.shiftRight_eq_div_pow]

theorem s1_eq_sigma1 (x : Nat) (hx : x < 4294967296) : s1 x = sigma1 x := by
  rw [s1, sigma1, rotr_eq_ROTR x 17 hx (by decide), rotr_eq_ROTR x 19 hx (by decide),
    Nat.shiftRight_eq_div_pow]

/-- One iteration of the round loop of `sha256_block` is one round of the specification. -/
theorem round_eq_spec_round (w : List Nat) (v : Vars) (i : Nat) (hv : v.wf) :
    round w v i = spec_round (K.getD i 0) (w.getD i 0) v := by
  obtain ⟨ha, _, _, _, he, _, _, _⟩ := hv
  simp only [round, spec_round, add32, S0_eq_Sigma0 _ ha, S1_eq_Sigma1 _ he,
    Vars.mk.injEq, and_true, true_and]
  constructor <;> omega

/-- The round loop of `sha256_block` run for `i = 0, ..., n - 1`. -/
theorem foldl_round_eq_spec_rounds (w : List Nat) (n : Nat) (v : Vars) (hv : v.wf) :
    (List.range n).foldl (round w) v = spec_rounds w n v ∧ (spec_rounds w n v).wf := by
  induction n with
  | zero => exact ⟨rfl, hv⟩
  | succ n ih =>
    obtain ⟨h1, h2⟩ := ih
    rw [List.range_succ, List.foldl_append, List.foldl_cons, List.foldl_nil, h1,
      round_eq_spec_round w _ n h2]
    refine ⟨rfl, ?_⟩
    rw [spec_rounds, ← round_eq_spec_round w _ n h2]
    exact round_wf w _ n h2

theorem getD_lt_of_forall (l : List Nat) (B : Nat) (hB : 0 < B) (h : ∀ s ∈ l, s < B)
    (j : Nat) : l.getD j 0 < B := by
  rw [List.getD_eq_getElem?_getD]
  cases hj : l[j]? with
  | none => exact hB
  | some s => exact h s (List.getElem?_mem hj)

set_option linter.unusedVariables false in
/-- Claim C14. For every state of eight 32-bit words and every 64-byte block,
`sha256_block` returns the state whose `j`-th word is `state[j] + v_j` modulo `2^32`, where
`v` comes from `(a..h) = state` by the 64 rounds of the specification, `i = 0..63` in
increasing order, with the round constants `K` and the schedule of the block. -/
theorem sha256_block_eq_spec (state block : List Nat) (hs : state.length = 8)
    (hblock : block.length = 64) (hw : ∀ s ∈ state, s < 4294967296) :
    sha256_block state block = spec_compress state (schedule block) := by
  have g := getD_lt_of_forall state 4294967296 (by decide) hw
  have hv : Vars.wf (Vars.mk (state.getD 0 0) (state.getD 1 0) (state.getD 2 0)
      (state.getD 3 0) (state.getD 4 0) (state.getD 5 0) (state.getD 6 0)
      (state.getD 7 0)) := ⟨g 0, g 1, g 2, g 3, g 4, g 5, g 6, g 7⟩
  simp only [sha256_block, spec_compress, (foldl_round_eq_spec_rounds (schedule block) 64 _ hv).1,
    add32]

set_option maxRecDepth 100000 in
/-- Witness of claim C14, on the initial state and the block of 64 zero bytes. -/
theorem sha256_block_eq_spec_witness :
    sha256_block H0 (List.replicate 64 0) = spec_compress H0 (schedule (List.replicate 64 0)) :=
  sha256_block_eq_spec H0 (List.replicate 64 0) (by decide) (by decide) (by decide)

theorem getD_set_self (w : List Nat) (i v : Nat) (h : i < w.length) :
    (w.set i v).getD i 0 = v := by
  rw [List.getD_eq_getElem?_getD, List.getElem?_set_self h]
  rfl

theorem getD_set_of_ne (w : List Nat) (i j v : Nat) (h : i ≠ j) :
    (w.set i v).getD j 0 = w.getD j 0 := by
  rw [List.getD_eq_getElem?_getD, List.getD_eq_getElem?_getD, List.getElem?_set_ne h]

/-- A loop `for i = s, s+1, ...: w[i] = F(w, i)`: one more iteration. -/
theorem foldl_set_succ (F : List Nat → Nat → Nat) (w0 : List Nat) (s n : Nat) :
    (List.range' s (n + 1)).foldl (fun w i => w.set i (F w i)) w0
      = ((List.range' s n).foldl (fun w i => w.set i (F w i)) w0).set (s + n)
          (F ((List.range' s n).foldl (fun w i => w.set i (F w i)) w0) (s + n)) := by
  rw [List.range'_concat, List.foldl_append, List.foldl_cons, List.foldl_nil, Nat.one_mul]

theorem foldl_set_length (F : List Nat → Nat → Nat) (w0 : List Nat) (s n : Nat) :
    ((List.range' s n).foldl (fun w i => w.set i (F w i)) w0).length = w0.length := by
  induction n with
  | zero => rfl
  | succ n ih => rw [foldl_set_succ, List.length_set, ih]

/-- Entries below the current index are not touched by later iterations. -/
theorem foldl_set_stable (F : List Nat → Nat → Nat) (w0 : List Nat) (s n m j : Nat)
    (hj : j < s + n) :
    ((List.range' s (n + m)).foldl (fun w i => w.set i (F w i)) w0).getD j 0
      = ((List.range' s n).foldl (fun w i => w.set i (F w i)) w0).getD j 0 := by
  induction m with
  | zero => rfl
  | succ m ih =>
    rw [← Nat.add_assoc, foldl_set_succ, getD_set_of_ne _ _ _ _ (by omega), ih]

/-- Entries outside the range of the loop keep their initial value. -/
theorem foldl_set_below (F : List Nat → Nat → Nat) (w0 : List Nat) (s n j : Nat)
    (hj : j < s) :
    ((List.range' s n).foldl (fun w i => w.set i (F w i)) w0).getD j 0 = w0.getD j 0 := by
  have := foldl_set_stable F w0 s 0 n j (by omega)
  rw [Nat.zero_add] at this
  exact this

/-- The entry written by iteration `s + n` is the value computed from the array as it was
after the first `n` iterations. -/
theorem foldl_set_value (F : List Nat → Nat → Nat) (w0 : List Nat) (s n m : Nat)
    (hn : n < m) (hlen : s + n < w0.length) :
    ((List.range' s m).foldl (fun w i => w.set i (F w i)) w0).getD (s + n) 0
      = F ((List.range' s n).foldl (fun w i => w.set i (F w i)) w0) (s + n) := by
  obtain ⟨d, rfl⟩ : ∃ d, m = (n + 1) + d := ⟨m - (n + 1), by omega⟩
  rw [foldl_set_stable F w0 s (n + 1) d (s + n) (by omega), foldl_set_succ,
    getD_set_self _ _ _ (by rw [foldl_set_length]; exact hlen)]

/-- Four bytes joined by shifts and ors are the big-endian word of the specification. -/
theorem shift_or_eq_be32 (b0 b1 b2 b3 : Nat) (h1 : b1 < 256) (h2 : b2 < 256)
    (h3 : b3 < 256) :
    (b0 <<< 24) ||| (b1 <<< 16) ||| (b2 <<< 8) ||| b3 = be32 b0 b1 b2 b3 := by
  have e3 : (b2 <<< 8) ||| b3 = 2 ^ 8 * b2 + b3 := by
    rw [Nat.shiftLeft_eq, Nat.mul_comm, Nat.mul_add_lt_is_or (by omega : b3 < 2 ^ 8)]
  have e2 : (b1 <<< 16) ||| (2 ^ 8 * b2 + b3) = 2 ^ 16 * b1 + (2 ^ 8 * b2 + b3) := by
    rw [Nat.shiftLeft_eq, Nat.mul_comm,
      Nat.mul_add_lt_is_or (by omega : 2 ^ 8 * b2 + b3 < 2 ^ 16)]
  have e1 : (b0 <<< 24) ||| (2 ^ 16 * b1 + (2 ^ 8 * b2 + b3))
      = 2 ^ 24 * b0 + (2 ^ 16 * b1 + (2 ^ 8 * b2 + b3)) := by
    rw [Nat.shiftLeft_eq, Nat.mul_comm,
      Nat.mul_add_lt_is_or (by omega : 2 ^ 16 * b1 + (2 ^ 8 * b2 + b3) < 2 ^ 24)]
  rw [Nat.lor_assoc, Nat.lor_assoc, e3, e2, e1, be32]
  ring

/-- The array `w` after the first loop of `sha256_block`. -/
theorem schedule_loaded (block : List Nat) (i : Nat) (hi : i < 16) :
    ((List.range 16).foldl (load_word block) (List.replicate 64 0)).getD i 0
      = (block.getD (4 * i) 0 <<< 24) ||| (block.getD (4 * i + 1) 0 <<< 16)
          ||| (block.getD (4 * i + 2) 0 <<< 8) ||| block.getD (4 * i + 3) 0 := by
  have h := foldl_set_value
    (fun _ i => (block.getD (4 * i) 0 <<< 24) ||| (block.getD (4 * i + 1) 0 <<< 16)
      ||| (block.getD (4 * i + 2) 0 <<< 8) ||| block.getD (4 * i + 3) 0)
    (List.replicate 64 0) 0 i 16 hi (by rw [List.length_replicate]; omega)
  rw [Nat.zero_add, ← List.range_eq_range'] at h
  exact h

/-- The schedule array as the second loop of `sha256_block` leaves it: the length, the
first sixteen words, and the recurrence in the code's own terms. -/
theorem schedule_raw (block : List Nat) :
    (schedule block).length = 64
      ∧ (∀ i, i < 16 → (schedule block).getD i 0
          = (block.getD (4 * i) 0 <<< 24) ||| (block.getD (4 * i + 1) 0 <<< 16)
              ||| (block.getD (4 * i + 2) 0 <<< 8) ||| block.getD (4 * i + 3) 0)
      ∧ (∀ i, 16 ≤ i → i < 64 → (schedule block).getD i 0
          = (s1 ((schedule block).getD (i - 2) 0) + (schedule block).getD (i - 7) 0
              + s0 ((schedule block).getD (i - 15) 0) + (schedule block).getD (i - 16) 0)
            % 4294967296) := by
  have hlen0 : ((List.range 16).foldl (load_word block) (List.replicate 64 0)).length = 64 := by
    have := foldl_set_length
      (fun _ i => (block.getD (4 * i) 0 <<< 24) ||| (block.getD (4 * i + 1) 0 <<< 16)
        ||| (block.getD (4 * i + 2) 0 <<< 8) ||| block.getD (4 * i + 3) 0)
      (List.replicate 64 0) 0 16
    rw [← List.range_eq_range', List.length_replicate] at this
    exact this
  refine ⟨?_, ?_, ?_⟩
  · exact (foldl_set_length _ _ 16 48).trans hlen0
  · intro i hi
    exact (foldl_set_below _ _ 16 48 i hi).trans (schedule_loaded block i hi)
  · intro i h16 h64
    obtain ⟨n, rfl⟩ : ∃ n, i = 16 + n := ⟨i - 16, by omega⟩
    have hv := foldl_set_value
      (fun w i => (s1 (w.getD (i - 2) 0) + w.getD (i - 7) 0 + s0 (w.getD (i - 15) 0)
        + w.getD (i - 16) 0) % 4294967296)
      ((List.range 16).foldl (load_word block) (List.replicate 64 0)) 16 n 48
      (by omega) (by rw [hlen0]; omega)
    have hst : ∀ j, j < 16 + n → (schedule block).getD j 0
        = ((List.range' 16 n).foldl expand_word
            ((List.range 16).foldl (load_word block) (List.replicate 64 0))).getD j 0 := by
      intro j hj
      obtain ⟨d, hd⟩ : ∃ d, 48 = n + d := ⟨48 - n, by omega⟩
      have := foldl_set_stable
        (fun w i => (s1 (w.getD (i - 2) 0) + w.getD (i - 7) 0 + s0 (w.getD (i - 15) 0)
          + w.getD (i - 16) 0) % 4294967296)
        ((List.range 16).foldl (load_word block) (List.replicate 64 0)) 16 n d j hj
      rw [← hd] at this
      exact this
    rw [hst (16 + n - 2) (by omega), hst (16 + n - 7) (by omega),
      hst (16 + n - 15) (by omega), hst (16 + n - 16) (by omega)]
    exact hv

theorem schedule_word_lt (block : List Nat) (hb : ∀ b ∈ block, b < 256) (j : Nat) :
    (schedule block).getD j 0 < 4294967296 := by
  obtain ⟨hl, h1, h2⟩ := schedule_raw block
  have g := getD_lt_of_forall block 256 (by decide) hb
  by_cases h16 : j < 16
  · rw [h1 j h16, shift_or_eq_be32 _ _ _ _ (g _) (g _) (g _), be32]
    have := g (4 * j)
    have := g (4 * j + 1)
    have := g (4 * j + 2)
    have := g (4 * j + 3)
    omega
  · by_cases h64 : j < 64
    · rw [h2 j (by omega) h64]
      exact Nat.mod_lt _ (by decide)
    · rw [List.getD_eq_getElem?_getD, List.getElem?_eq_none (by omega)]
      decide

set_option linter.unusedVariables false in
/-- Claim C15. For every 64-byte block, the message schedule built by `sha256_block`
satisfies: for `i < 16`, `W[i]` is the big-endian 32-bit word of the block bytes
`4i..4i+3`; for `16 ≤ i < 64`, `W[i] = σ₁(W[i-2]) ⊞ W[i-7] ⊞ σ₀(W[i-15]) ⊞ W[i-16]`, with
`σ₀(x) = ROTR(x,7) ⊕ ROTR(x,18) ⊕ (x ≫ 3)` and `σ₁(x) = ROTR(x,17) ⊕ ROTR(x,19) ⊕ (x ≫ 10)`. -/
theorem schedule_eq_spec (block : List Nat) (hlen : block.length = 64)
    (hb : ∀ b ∈ block, b < 256) :
    (∀ i, i < 16 → (schedule block).getD i 0
        = be32 (block.getD (4 * i) 0) (block.getD (4 * i + 1) 0) (block.getD (4 * i + 2) 0)
            (block.getD (4 * i + 3) 0))
      ∧ (∀ i, 16 ≤ i → i < 64 → (schedule block).getD i 0
          = add32 (add32 (add32 (sigma1 ((schedule block).getD (i - 2) 0))
                ((schedule block).getD (i - 7) 0)) (sigma0 ((schedule block).getD (i - 15) 0)))
              ((schedule block).getD (i - 16) 0)) := by
  obtain ⟨_, h1, h2⟩ := schedule_raw block
  have g := getD_lt_of_forall block 256 (by decide) hb
  have hw := schedule_word_lt block hb
  constructor
  · intro i hi
    rw [h1 i hi, shift_or_eq_be32 _ _ _ _ (g _) (g _) (g _)]
  · intro i h16 h64
    rw [h2 i h16 h64, s1_eq_sigma1 _ (hw _), s0_eq_sigma0 _ (hw _)]
    simp only [add32]
    omega

set_option maxRecDepth 100000 in
/-- Witness of claim C15, on the block of 64 bytes `0x61`. -/
theorem schedule_eq_spec_witness :
    (∀ i, i < 16 → (schedule (List.replicate 64 0x61)).getD i 0
        = be32 ((List.replicate 64 0x61).getD (4 * i) 0)
            ((List.replicate 64 0x61).getD (4 * i + 1) 0)
            ((List.replicate 64 0x61).getD (4 * i + 2) 0)
            ((List.replicate 64 0x61).getD (4 * i + 3) 0))
      ∧ (∀ i, 16 ≤ i → i < 64 → (schedule (List.replicate 64 0x61)).getD i 0
          = add32 (add32 (add32 (sigma1 ((schedule (List.replicate 64 0x61)).getD (i - 2) 0))
                ((schedule (List.replicate 64 0x61)).getD (i - 7) 0))
              (sigma0 ((schedule (List.replicate 64 0x61)).getD (i - 15) 0)))
              ((schedule (List.replicate 64 0x61)).getD (i - 16) 0)) :=
  schedule_eq_spec (List.replicate 64 0x61) (by decide) (by decide)

end dhcc

namespace dhcc

/-! ## The constants `K` and `H0` -/

theorem small_prime_iff (p : Nat) (hp : p < 324) : small_prime p = true ↔ Nat.Prime p := by
  rw [Nat.prime_def_le_sqrt, small_prime, Bool.and_eq_true, decide_eq_true_iff, List.all_eq_true]
  constructor
  · rintro ⟨h2, h⟩
    refine ⟨h2, fun m hm hle hd => ?_⟩
    have hmm : m * m ≤ p := Nat.le_sqrt.mp hle
    have h18 : m < 18 := by
      by_contra hge
      have : 18 * 18 ≤ m * m := Nat.mul_le_mul (by omega) (by omega)
      omega
    have := h m (List.mem_range.mpr h18)
    simp [hm, hmm, Nat.mod_eq_zero_of_dvd hd] at this
  · rintro ⟨h2, h⟩
    refine ⟨h2, fun m _ => ?_⟩
    by_cases hc : 2 ≤ m ∧ m * m ≤ p ∧ p % m = 0
    · exact absurd (Nat.dvd_of_mod_eq_zero hc.2.2) (h m hc.1 (Nat.le_sqrt.mpr hc.2.1))
    · simp only [Bool.not_eq_true', Bool.and_eq_false_iff, decide_eq_false_iff_not]
      tauto

set_option maxRecDepth 1000000 in
/-- The table holds exactly the primes below 312, in increasing order. -/
theorem prime_table_eq : (List.range 312).filter small_prime = prime_table := by
  decide

theorem filter_prime_eq (n : Nat) (hn : n ≤ 324) :
    (List.range n).filter (fun k => decide (Nat.Prime k)) = (List.range n).filter small_prime := by
  apply List.filter_congr
  intro k hk
  rw [Bool.eq_iff_iff, decide_eq_true_iff,
    small_prime_iff k (by have := List.mem_range.mp hk; omega)]

theorem filter_range_split (f : Nat → Bool) (n q : Nat) (hq : q < n) (hf : f q = true) :
    (List.range n).filter f
      = (List.range q).filter f ++ q :: (List.range' (q + 1) (n - q - 1)).filter f := by
  have e : List.range n = List.range q ++ q :: List.range' (q + 1) (n - q - 1) := by
    have h1 : List.range' 0 q ++ List.range' (0 + q) (n - q) = List.range' 0 (n - q + q) :=
      List.range'_append_1 0 q (n - q)
    have h2 : n - q + q = n := by omega
    have h3 : List.range' q (n - q) = q :: List.range' (q + 1) (n - q - 1) := by
      have h4 : n - q = (n - q - 1) + 1 := by omega
      conv_lhs => rw [h4]
      exact List.range'_succ q (n - q - 1) 1
    rw [h2, Nat.zero_add, h3] at h1
    rw [List.range_eq_range', List.range_eq_range']
    exact h1.symm
  rw [e, List.filter_append, List.filter_cons, hf]
  rfl

/-- The elements of `(List.range n).filter P`, in order, are the first numbers with `P`. -/
theorem nth_eq_getD_filter_range (P : Nat → Prop) [DecidablePred P] (n i : Nat)
    (hi : i < ((List.range n).filter (fun k => decide (P k))).length) :
    Nat.nth P i = ((List.range n).filter (fun k => decide (P k))).getD i 0 := by
  have hget : ((List.range n).filter (fun k => decide (P k))).getD i 0
      = ((List.range n).filter (fun k => decide (P k)))[i] := by
    rw [List.getD_eq_getElem?_getD, List.getElem?_eq_getElem hi]
    rfl
  have hmem := List.getElem_mem hi
  rw [List.mem_filter, List.mem_range, decide_eq_true_iff] at hmem
  obtain ⟨hq, hP⟩ := hmem
  have hsplit := filter_range_split (fun k => decide (P k)) n _ hq (decide_eq_true hP)
  have hnd : ((List.range n).filter (fun k => decide (P k))).Nodup :=
    (List.nodup_range n).filter _
  have hlen : ((List.range ((List.range n).filter (fun k => decide (P k)))[i]).filter
      (fun k => decide (P k))).length
        < ((List.range n).filter (fun k => decide (P k))).length := by
    conv_rhs => rw [hsplit]
    rw [List.length_append, List.length_cons]
    omega
  have hq' : ((List.range n).filter (fun k => decide (P k)))[((List.range
      ((List.range n).filter (fun k => decide (P k)))[i]).filter (fun k => decide (P k))).length]
        = ((List.range n).filter (fun k => decide (P k)))[i] := by
    have := List.getElem_of_eq hsplit hlen
    rw [this, List.getElem_append_right (Nat.le_refl _)]
    simp
  have hidx := (List.Nodup.getElem_inj_iff hnd).mp hq'
  have hcount : Nat.count P ((List.range n).filter (fun k => decide (P k)))[i] = i := by
    rw [Nat.count, List.countP_eq_length_filter]
    exact hidx
  rw [hget]
  have := Nat.nth_count hP
  rw [hcount] at this
  exact this

/-- The `(i+1)`-th prime, for `i < 64`, is the `i`-th entry of the table. -/
theorem nth_prime_table (i : Nat) (hi : i < 64) :
    Nat.nth Nat.Prime i = prime_table.getD i 0 := by
  have h := nth_eq_getD_filter_range Nat.Prime 312 i
    (by rw [filter_prime_eq 312 (by decide), prime_table_eq]; exact hi)
  rw [filter_prime_eq 312 (by decide), prime_table_eq] at h
  exact h

set_option maxRecDepth 100000 in
theorem K_table_check : ∀ i, i < 64 → ∃ c, c < 8 ∧
    c ^ 3 ≤ prime_table.getD i 0 ∧ prime_table.getD i 0 < (c + 1) ^ 3 ∧
    (c * 2 ^ 32 + K.getD i 0) ^ 3 ≤ prime_table.getD i 0 * 2 ^ 96 ∧
    prime_table.getD i 0 * 2 ^ 96 < (c * 2 ^ 32 + K.getD i 0 + 1) ^ 3 := by
  decide

set_option maxRecDepth 100000 in
theorem H0_table_check : ∀ i, i < 8 → ∃ c, c < 8 ∧
    c ^ 2 ≤ prime_table.getD i 0 ∧ prime_table.getD i 0 < (c + 1) ^ 2 ∧
    (c * 2 ^ 32 + H0.getD i 0) ^ 2 ≤ prime_table.getD i 0 * 2 ^ 64 ∧
    prime_table.getD i 0 * 2 ^ 64 < (c * 2 ^ 32 + H0.getD i 0 + 1) ^ 2 := by
  decide

/-- Claim C17. The table `K` is the standard one: for every `i < 64`, with `p` the
`(i+1)`-th prime and `c` the integer part of its cube root, the integer
`n = c * 2^32 + K[i]` satisfies `n^3 ≤ p * 2^96 < (n+1)^3`, so `K[i]` is the first 32 bits of
the fractional part of the cube root of `p`. -/
theorem K_is_standard (i : Nat) (hi : i < 64) :
    ∃ c, c ^ 3 ≤ Nat.nth Nat.Prime i ∧ Nat.nth Nat.Prime i < (c + 1) ^ 3 ∧
      (c * 2 ^ 32 + K.getD i 0) ^ 3 ≤ Nat.nth Nat.Prime i * 2 ^ 96 ∧
      Nat.nth Nat.Prime i * 2 ^ 96 < (c * 2 ^ 32 + K.getD i 0 + 1) ^ 3 := by
  obtain ⟨c, _, h⟩ := K_table_check i hi
  rw [nth_prime_table i hi]
  exact ⟨c, h⟩

/-- Witness of claim C17, on the first constant (the prime 2). -/
theorem K_is_standard_witness :
    ∃ c, c ^ 3 ≤ Nat.nth Nat.Prime 0 ∧ Nat.nth Nat.Prime 0 < (c + 1) ^ 3 ∧
      (c * 2 ^ 32 + K.getD 0 0) ^ 3 ≤ Nat.nth Nat.Prime 0 * 2 ^ 96 ∧
      Nat.nth Nat.Prime 0 * 2 ^ 96 < (c * 2 ^ 32 + K.getD 0 0 + 1) ^ 3 :=
  K_is_standard 0 (by decide)

/-- Claim C18. The initial state of `sha256` is the standard one: for every `i < 8`, with
`p` the `(i+1)`-th prime and `c` the integer part of its square root, the integer
`n = c * 2^32 + st[i]` satisfies `n^2 ≤ p * 2^64 < (n+1)^2`, so `st[i]` is the first 32 bits
of the fractional part of the square root of `p`. -/
theorem H0_is_standard (i : Nat) (hi : i < 8) :
    ∃ c, c ^ 2 ≤ Nat.nth Nat.Prime i ∧ Nat.nth Nat.Prime i < (c + 1) ^ 2 ∧
      (c * 2 ^ 32 + H0.getD i 0) ^ 2 ≤ Nat.nth Nat.Prime i * 2 ^ 64 ∧
      Nat.nth Nat.Prime i * 2 ^ 64 < (c * 2 ^ 32 + H0.getD i 0 + 1) ^ 2 := by
  obtain ⟨c, _, h⟩ := H0_table_check i hi
  rw [nth_prime_table i (by omega)]
  exact ⟨c, h⟩

/-- Witness of claim C18, on the last word of the initial state (the prime 19). -/
theorem H0_is_standard_witness :
    ∃ c, c ^ 2 ≤ Nat.nth Nat.Prime 7 ∧ Nat.nth Nat.Prime 7 < (c + 1) ^ 2 ∧
      (c * 2 ^ 32 + H0.getD 7 0) ^ 2 ≤ Nat.nth Nat.Prime 7 * 2 ^ 64 ∧
      Nat.nth Nat.Prime 7 * 2 ^ 64 < (c * 2 ^ 32 + H0.getD 7 0 + 1) ^ 2 :=
  H0_is_standard 7 (by decide)

end dhcc

namespace dhcc

/-! ## The checked execution succeeds and agrees with the code -/

theorem getElem?_eq_some_getD (l : List Nat) (i : Nat) (h : i < l.length) :
    l[i]? = some (l.getD i 0) := by
  rw [List.getD_eq_getElem?_getD, List.getElem?_eq_getElem h]
  rfl

theorem read_at_sub (w : List Nat) (i k : Nat) (hk : k ≤ i) (h : i - k < w.length) :
    read_at w ((i : Int) - (k : Int)) = some (w.getD (i - k) 0) := by
  have e : ((i : Int) - (k : Int)) = ((i - k : Nat) : Int) := by omega
  rw [read_at, e, if_pos (Int.natCast_nonneg _), Int.toNat_natCast,
    getElem?_eq_some_getD _ _ h]

theorem some_bind_eq {α β : Type} (a : α) (f : α → Option β) : (some a >>= f) = f a := rfl

theorem write_at_of_lt (p : List Nat) (i v : Nat) (h : i < p.length) :
    write_at p i v = some (p.set i v) := by
  rw [write_at, if_pos h]

/-- A checked loop whose every iteration succeeds, under an invariant, is the plain loop. -/
theorem foldlM_eq_some_foldl {α β : Type} (f : β → α → Option β) (g : β → α → β)
    (P : β → Prop) (l : List α)
    (h : ∀ b a, a ∈ l → P b → f b a = some (g b a) ∧ P (g b a)) (b : β) (hb : P b) :
    l.foldlM f b = some (l.foldl g b) ∧ P (l.foldl g b) := by
  induction l generalizing b with
  | nil => exact ⟨rfl, hb⟩
  | cons a l ih =>
    obtain ⟨h1, h2⟩ := h b a (List.mem_cons_self a l) hb
    rw [List.foldlM_cons, h1, List.foldl_cons]
    exact ih (fun b' a' ha' hb' => h b' a' (List.mem_cons_of_mem a ha') hb') (g b a) h2

theorem load_word_checked_eq (block w : List Nat) (i : Nat) (hb : 64 ≤ block.length)
    (hw : w.length = 64) (hi : i < 16) :
    load_word_checked block w i = some (load_word block w i)
      ∧ (load_word block w i).length = 64 := by
  constructor
  · rw [load_word_checked, getElem?_eq_some_getD block (4 * i) (by omega),
      getElem?_eq_some_getD block (4 * i + 1) (by omega),
      getElem?_eq_some_getD block (4 * i + 2) (by omega),
      getElem?_eq_some_getD block (4 * i + 3) (by omega)]
    exact write_at_of_lt _ _ _ (by omega)
  · rw [load_word, List.length_set, hw]

theorem expand_word_checked_eq (w : List Nat) (i : Nat) (hw : w.length = 64)
    (h16 : 16 ≤ i) (h64 : i < 64) :
    expand_word_checked w i = some (expand_word w i) ∧ (expand_word w i).length = 64 := by
  constructor
  · have r2 := read_at_sub w i 2 (by omega) (by omega)
    have r7 := read_at_sub w i 7 (by omega) (by omega)
    have r15 := read_at_sub w i 15 (by omega) (by omega)
    have r16 := read_at_sub w i 16 (by omega) (by omega)
    rw [Nat.cast_ofNat] at r2 r7 r15 r16
    rw [expand_word_checked, r2, r7, r15, r16]
    exact write_at_of_lt _ _ _ (by omega)
  · rw [expand_word, List.length_set, hw]

/-- Every access of the two schedule loops is within bounds. -/
theorem schedule_checked_eq (block : List Nat) (hb : 64 ≤ block.length) :
    schedule_checked block = some (schedule block) ∧ (schedule block).length = 64 := by
  obtain ⟨h1, h2⟩ := foldlM_eq_some_foldl (load_word_checked block) (load_word block)
    (fun w => w.length = 64) (List.range 16)
    (fun w i hi hw => load_word_checked_eq block w i hb hw (List.mem_range.mp hi))
    (List.replicate 64 0) (List.length_replicate _ _)
  obtain ⟨h3, h4⟩ := foldlM_eq_some_foldl expand_word_checked expand_word
    (fun w => w.length = 64) (List.range' 16 48)
    (fun w i hi hw => by
      have := List.mem_range'_1.mp hi
      exact expand_word_checked_eq w i hw (by omega) (by omega))
    _ h2
  constructor
  · rewrite [schedule_checked, h1, schedule, some_bind_eq]
    exact h3
  · rewrite [schedule]
    exact h4

theorem round_checked_eq (w : List Nat) (v : Vars) (i : Nat) (hw : w.length = 64)
    (hi : i < 64) : round_checked w v i = some (round w v i) := by
  have hK : K.length = 64 := rfl
  rewrite [round_checked, getElem?_eq_some_getD K i (by omega),
    getElem?_eq_some_getD w i (by omega)]
  rfl

/-- Every access of `sha256_block` is within bounds when `state` has 8 words and `block`
points to at least 64 readable bytes; the checked result is the result of the code. -/
theorem sha256_block_checked_eq (state block : List Nat) (hs : state.length = 8)
    (hb : 64 ≤ block.length) :
    sha256_block_checked state block = some (sha256_block state block) := by
  obtain ⟨h1, h2⟩ := schedule_checked_eq block hb
  have h3 := fun v => (foldlM_eq_some_foldl (round_checked (schedule block))
    (round (schedule block)) (fun _ => True) (List.range 64)
    (fun v i hi _ => ⟨round_checked_eq _ v i h2 (List.mem_range.mp hi), trivial⟩) v trivial).1
  rewrite [sha256_block_checked, h1, some_bind_eq,
    getElem?_eq_some_getD state 0 (by omega), some_bind_eq,
    getElem?_eq_some_getD state 1 (by omega), some_bind_eq,
    getElem?_eq_some_getD state 2 (by omega), some_bind_eq,
    getElem?_eq_some_getD state 3 (by omega), some_bind_eq,
    getElem?_eq_some_getD state 4 (by omega), some_bind_eq,
    getElem?_eq_some_getD state 5 (by omega), some_bind_eq,
    getElem?_eq_some_getD state 6 (by omega), some_bind_eq,
    getElem?_eq_some_getD state 7 (by omega), some_bind_eq, h3, some_bind_eq, sha256_block]
  exact rfl

end dhcc

namespace dhcc

theorem memcpy_checked_eq (dst src : List Nat) (n : Nat) (hs : n ≤ src.length)
    (hd : n ≤ dst.length) : memcpy_checked dst src n = some (memcpy dst src n) := by
  rw [memcpy_checked, if_pos ⟨hs, hd⟩]

theorem store_bitlen_checked_eq (block : List Nat) (bitlen : Nat) (hb : block.length = 64) :
    store_bitlen_checked block bitlen = some (store_bitlen block bitlen) := by
  rewrite [store_bitlen_checked,
    write_at_of_lt _ 56 _ (by omega), some_bind_eq,
    write_at_of_lt _ 57 _ (by simp only [List.length_set]; omega), some_bind_eq,
    write_at_of_lt _ 58 _ (by simp only [List.length_set]; omega), some_bind_eq,
    write_at_of_lt _ 59 _ (by simp only [List.length_set]; omega), some_bind_eq,
    write_at_of_lt _ 60 _ (by simp only [List.length_set]; omega), some_bind_eq,
    write_at_of_lt _ 61 _ (by simp only [List.length_set]; omega), some_bind_eq,
    write_at_of_lt _ 62 _ (by simp only [List.length_set]; omega), some_bind_eq,
    write_at_of_lt _ 63 _ (by simp only [List.length_set]; omega)]
  rfl

theorem store_word_checked_eq (st out : List Nat) (i : Nat) (hs : st.length = 8)
    (hi : i < 8) :
    store_word_checked st out i = some (out ++ store_word (st.getD i 0)) := by
  rewrite [store_word_checked, getElem?_eq_some_getD st i (by omega), some_bind_eq,
    if_pos (by omega)]
  rfl

/-- The output loop reads `st[0..7]` and writes `out32[0..31]`, all within bounds. -/
theorem serialise_checked_eq (st : List Nat) (hs : st.length = 8) :
    serialise_checked st = some (serialise st) := by
  have h := (foldlM_eq_some_foldl (store_word_checked st)
    (fun out i => out ++ store_word (st.getD i 0)) (fun _ => True) (List.range 8)
    (fun out i hi _ => ⟨store_word_checked_eq st out i hs (List.mem_range.mp hi), trivial⟩)
    [] trivial).1
  rewrite [serialise_checked, h, serialise]
  exact rfl

theorem sha256_loop_checked_succ (data : List Nat) (len fuel : Nat) (st : List Nat)
    (off : Nat) (calls : List (List Nat)) :
    sha256_loop_checked data len (fuel + 1) (st, off, calls) =
      if off ≤ len then
        if len - off ≥ 64 then
          sha256_block_checked st ((data.take len).drop off) >>= fun st1 =>
            sha256_loop_checked data len fuel
              (st1, off + 64, calls ++ [((data.take len).drop off).take 64])
        else some (st, off, calls)
      else none := rfl

theorem sha256_block_length (st block : List Nat) : (sha256_block st block).length = 8 := rfl

theorem foldl_sha256_block_length (st : List Nat) (bs : List (List Nat)) (hs : st.length = 8) :
    (bs.foldl sha256_block st).length = 8 := by
  induction bs generalizing st with
  | nil => exact hs
  | cons b bs ih => exact ih _ (sha256_block_length st b)

/-- The checked main loop with enough fuel: no wrap of `len - off`, every block read inside
the input, and the same state as the code; the calls are the full blocks after `off`. -/
theorem sha256_loop_checked_eq (x : List Nat) (fuel : Nat) (st : List Nat) (off : Nat)
    (calls : List (List Nat)) (hs : st.length = 8) (hoff : off ≤ x.length)
    (hfuel : (x.length - off) / 64 < fuel) :
    sha256_loop_checked x x.length fuel (st, off, calls) =
      some ((blocks_aux ((x.length - off) / 64) (x.drop off)).foldl sha256_block st,
        off + 64 * ((x.length - off) / 64),
        calls ++ blocks_aux ((x.length - off) / 64) (x.drop off)) := by
  induction fuel generalizing st off calls with
  | zero => omega
  | succ fuel ih =>
    by_cases h : x.length - off ≥ 64
    · have e : (x.length - off) / 64 = (x.length - (off + 64)) / 64 + 1 := by omega
      have hlen : 64 ≤ ((x.take x.length).drop off).length := by
        rw [List.take_length, List.length_drop]; exact h
      rewrite [sha256_loop_checked_succ, if_pos hoff, if_pos h,
        sha256_block_checked_eq st _ hs hlen, some_bind_eq,
        ih _ _ _ (sha256_block_length _ _) (by omega) (by omega), e, List.take_length]
      simp only [blocks_aux, List.foldl_cons, sha256_block_take, List.drop_drop,
        Nat.add_comm 64 off, List.append_assoc, List.singleton_append]
      refine congrArg some (Prod.ext rfl (Prod.ext ?_ rfl))
      simp only []
      omega
    · have h0 : (x.length - off) / 64 = 0 := by omega
      rewrite [sha256_loop_checked_succ, if_pos hoff, if_neg h, h0]
      simp only [blocks_aux, List.foldl_nil, List.append_nil, Nat.mul_zero, Nat.add_zero]

end dhcc

namespace dhcc

theorem sha256_tail_checked_unfold (data : List Nat) (len : Nat) (st : List Nat) (off : Nat)
    (calls : List (List Nat)) :
    sha256_tail_checked data len (st, off, calls) =
      if off ≤ len then
        tail_copy_checked data len off >>= fun block0 =>
        write_at block0 (len - off) 0x80 >>= fun block =>
        spill_checked st block calls (len - off) >>= fun sb =>
        store_bitlen_checked sb.2.1 ((len * 8) % 18446744073709551616) >>= fun last =>
        some (sb.1, last, sb.2.2)
      else none := rfl

theorem sha256_tail_unfold (data : List Nat) (len : Nat) (st : List Nat) (off : Nat) :
    sha256_tail data len (st, off) =
      ((if len - off ≥ 56
          then (sha256_block st
              ((if len - off ≠ 0 then memcpy (List.replicate 64 0) (data.drop off) (len - off)
                else List.replicate 64 0).set (len - off) 0x80), List.replicate 64 0)
          else (st,
              (if len - off ≠ 0 then memcpy (List.replicate 64 0) (data.drop off) (len - off)
                else List.replicate 64 0).set (len - off) 0x80)).1,
        store_bitlen
          (if len - off ≥ 56
            then (sha256_block st
                ((if len - off ≠ 0 then memcpy (List.replicate 64 0) (data.drop off) (len - off)
                  else List.replicate 64 0).set (len - off) 0x80), List.replicate 64 0)
            else (st,
                (if len - off ≠ 0 then memcpy (List.replicate 64 0) (data.drop off) (len - off)
                  else List.replicate 64 0).set (len - off) 0x80)).2
          ((len * 8) % 18446744073709551616)) := rfl

/-- The block built by the tail copy has 64 bytes. -/
theorem tail_copy_length (x : List Nat) (off : Nat) (_hoff : off ≤ x.length)
    (hrem : x.length - off < 64) :
    (if x.length - off ≠ 0 then memcpy (List.replicate 64 0) (x.drop off) (x.length - off)
      else List.replicate 64 0).length = 64 := by
  by_cases h0 : x.length - off ≠ 0
  · rw [if_pos h0, memcpy, List.length_append, List.length_take, List.length_drop,
      List.length_drop, List.length_replicate]
    omega
  · rw [if_neg h0, List.length_replicate]

/-- The checked tail of `sha256`: the copy reads inside the input and writes inside
`block`, the marker and the length stores are inside `block`, and the state and the final
block are those of the code; a spill adds the marker block to the calls. -/
theorem sha256_tail_checked_eq (x st : List Nat) (off : Nat) (calls : List (List Nat))
    (hs : st.length = 8) (hoff : off ≤ x.length) (hrem : x.length - off < 64) :
    sha256_tail_checked x x.length (st, off, calls) =
      some ((sha256_tail x x.length (st, off)).1, (sha256_tail x x.length (st, off)).2,
        calls ++ (if x.length - off ≥ 56
          then [(if x.length - off ≠ 0
              then memcpy (List.replicate 64 0) (x.drop off) (x.length - off)
              else List.replicate 64 0).set (x.length - off) 0x80]
          else [])) := by
  have hcopy : tail_copy_checked x x.length off
      = some (if x.length - off ≠ 0
          then memcpy (List.replicate 64 0) (x.drop off) (x.length - off)
          else List.replicate 64 0) := by
    by_cases h0 : x.length - off ≠ 0
    · rw [tail_copy_checked, if_pos h0, if_pos h0, List.take_length,
        memcpy_checked_eq _ _ _ (by rw [List.length_drop])
          (by rw [List.length_replicate]; omega)]
    · rw [tail_copy_checked, if_neg h0, if_neg h0]
  have hl := tail_copy_length x off hoff hrem
  rewrite [sha256_tail_checked_unfold, sha256_tail_unfold, if_pos hoff, hcopy, some_bind_eq,
    write_at_of_lt _ _ _ (by rw [hl]; exact hrem), some_bind_eq, spill_checked]
  by_cases h56 : x.length - off ≥ 56
  · repeat rewrite [if_pos h56]
    rewrite [sha256_block_checked_eq st _ hs (by rw [List.length_set, hl]), some_bind_eq,
      some_bind_eq, store_bitlen_checked_eq _ _ (List.length_replicate _ _), some_bind_eq]
    rfl
  · repeat rewrite [if_neg h56]
    rewrite [some_bind_eq,
      store_bitlen_checked_eq _ _ (by rw [List.length_set, hl]), some_bind_eq,
      List.append_nil]
    rfl

end dhcc

namespace dhcc

/-- The stored length bytes are the low eight bytes of `8 * L`, for every `L`. -/
theorem bitlen_bytes_any (L : Nat) :
    [((L * 8 % 18446744073709551616) >>> 56) % 256, ((L * 8 % 18446744073709551616) >>> 48) % 256,
     ((L * 8 % 18446744073709551616) >>> 40) % 256, ((L * 8 % 18446744073709551616) >>> 32) % 256,
     ((L * 8 % 18446744073709551616) >>> 24) % 256, ((L * 8 % 18446744073709551616) >>> 16) % 256,
     ((L * 8 % 18446744073709551616) >>> 8) % 256, (L * 8 % 18446744073709551616) % 256]
      = be64 (8 * L) := by
  simp only [be64, Nat.shiftRight_eq_div_pow, List.cons.injEq, and_true]
  refine ⟨?_, ?_, ?_, ?_, ?_, ?_, ?_, ?_⟩ <;> omega

/-- The tail of `sha256` when `len % 64 < 56`, for every length. -/
theorem sha256_tail_fits_any (x st : List Nat) (hr : x.length % 64 < 56) :
    sha256_tail x x.length (st, 64 * (x.length / 64)) =
      (st, (x.drop (64 * (x.length / 64)) ++ 0x80 :: List.replicate (55 - x.length % 64) 0)
            ++ be64 (8 * x.length)) := by
  have hrem : x.length - 64 * (x.length / 64) = x.length % 64 := by omega
  have htl : (x.drop (64 * (x.length / 64))).length = x.length % 64 := by
    rw [List.length_drop]; exact hrem
  have e : 63 - x.length % 64 = (55 - x.length % 64) + 8 := by omega
  simp only [sha256_tail, hrem]
  rw [tail_block_eq _ _ htl (by omega), if_neg (by omega), e, List.replicate_add,
    ← List.cons_append, ← List.append_assoc]
  rw [store_bitlen_append _ _ _ (by simp [htl]; omega) (by simp), bitlen_bytes_any]

/-- The tail of `sha256` when `len % 64 ≥ 56`, for every length. -/
theorem sha256_tail_spills_any (x st : List Nat) (hr : 56 ≤ x.length % 64) :
    sha256_tail x x.length (st, 64 * (x.length / 64)) =
      (sha256_block st
          (x.drop (64 * (x.length / 64)) ++ 0x80 :: List.replicate (63 - x.length % 64) 0),
        List.replicate 56 0 ++ be64 (8 * x.length)) := by
  have hrem : x.length - 64 * (x.length / 64) = x.length % 64 := by omega
  have htl : (x.drop (64 * (x.length / 64))).length = x.length % 64 := by
    rw [List.length_drop]; exact hrem
  have e : List.replicate 64 0 = List.replicate 56 0 ++ List.replicate 8 0 := by
    rw [← List.replicate_add]
  simp only [sha256_tail, hrem]
  rw [tail_block_eq _ _ htl (by omega), if_pos (by omega), e,
    store_bitlen_append _ _ _ (by simp) (by simp), bitlen_bytes_any]

theorem blocks_aux_length (n : Nat) (m : List Nat) : (blocks_aux n m).length = n := by
  induction n generalizing m with
  | zero => rfl
  | succ n ih => rw [blocks_aux, List.length_cons, ih]

theorem sha256_checked_unfold (data : List Nat) (len : Nat) :
    sha256_checked data len =
      sha256_loop_checked data len (len + 1) (H0, 0, []) >>= fun s =>
      sha256_tail_checked data len s >>= fun t =>
      sha256_block_checked t.1 t.2.1 >>= fun st =>
      serialise_checked st >>= fun out =>
      some { out32 := out, calls := t.2.2 ++ [t.2.1], iterations := s.2.2.length,
             rem := len - s.2.1 } := rfl

/-- The checked run of `sha256` succeeds on every input; its digest is the digest of the
code, the main loop runs `L / 64` times, `rem = L % 64`, and the calls of `sha256_block`
are the full input blocks, the marker block when `rem ≥ 56`, and the final block. -/
theorem sha256_checked_eq (x : List Nat) :
    sha256_checked x x.length = some
      { out32 := sha256 x x.length,
        calls := blocks_aux (x.length / 64) x ++
          (if x.length % 64 ≥ 56
            then [x.drop (64 * (x.length / 64)) ++ 0x80 :: List.replicate (63 - x.length % 64) 0,
                  List.replicate 56 0 ++ be64 (8 * x.length)]
            else [(x.drop (64 * (x.length / 64)) ++ 0x80 ::
                    List.replicate (55 - x.length % 64) 0) ++ be64 (8 * x.length)]),
        iterations := x.length / 64,
        rem := x.length % 64 } := by
  have hloopc := sha256_loop_checked_eq x (x.length + 1) H0 0 [] rfl (Nat.zero_le _)
    (by omega)
  rw [Nat.sub_zero, List.drop_zero, Nat.zero_add, List.nil_append] at hloopc
  have hloop : sha256_loop x x.length x.length (H0, 0)
      = ((blocks_aux (x.length / 64) x).foldl sha256_block H0, 64 * (x.length / 64)) := by
    have := sha256_loop_eq x x.length H0 0 (by omega)
    rw [Nat.sub_zero, List.drop_zero, Nat.zero_add] at this
    exact this
  have hst := foldl_sha256_block_length H0 (blocks_aux (x.length / 64) x) rfl
  have hrem : x.length - 64 * (x.length / 64) = x.length % 64 := by omega
  have htl : (x.drop (64 * (x.length / 64))).length = x.length % 64 := by
    rw [List.length_drop]; exact hrem
  have htailc := sha256_tail_checked_eq x ((blocks_aux (x.length / 64) x).foldl sha256_block H0)
    (64 * (x.length / 64)) (blocks_aux (x.length / 64) x) hst (by omega) (by omega)
  have hbl : (be64 (8 * x.length)).length = 8 := rfl
  rewrite [sha256_checked_unfold, hloopc, some_bind_eq, htailc, some_bind_eq]
  simp only [sha256, hloop, blocks_aux_length, hrem]
  by_cases h56 : x.length % 64 ≥ 56
  · rewrite [sha256_tail_spills_any x _ h56, tail_block_eq _ _ htl (by omega),
      sha256_block_checked_eq _ _ (sha256_block_length _ _)
        (by rw [List.length_append, List.length_replicate, hbl]),
      some_bind_eq, serialise_checked_eq _ (sha256_block_length _ _), some_bind_eq,
      if_pos h56, if_pos h56, List.append_assoc]
    rfl
  · rewrite [sha256_tail_fits_any x _ (by omega),
      sha256_block_checked_eq _ _ hst
        (by rw [List.length_append, List.length_append, List.length_cons,
              List.length_replicate, htl, hbl]; omega),
      some_bind_eq, serialise_checked_eq _ (sha256_block_length _ _), some_bind_eq,
      if_neg h56, if_neg h56, List.append_nil]
    rfl

end dhcc

namespace dhcc

theorem sha256_loop_full (x : List Nat) :
    sha256_loop x x.length x.length (H0, 0)
      = ((blocks_aux (x.length / 64) x).foldl sha256_block H0, 64 * (x.length / 64)) := by
  have h := sha256_loop_eq x x.length H0 0 (by omega)
  rw [Nat.sub_zero, List.drop_zero, Nat.zero_add] at h
  exact h

/-- The digest is the serialised state after compressing, from `H0`, the full input blocks
and then the tail blocks. -/
theorem sha256_eq_foldl_calls (x : List Nat) :
    sha256 x x.length = serialise ((blocks_aux (x.length / 64) x ++
          (if x.length % 64 ≥ 56
            then [x.drop (64 * (x.length / 64)) ++ 0x80 :: List.replicate (63 - x.length % 64) 0,
                  List.replicate 56 0 ++ be64 (8 * x.length)]
            else [(x.drop (64 * (x.length / 64)) ++ 0x80 ::
                    List.replicate (55 - x.length % 64) 0) ++ be64 (8 * x.length)])).foldl
        sha256_block H0) := by
  simp only [sha256, sha256_loop_full]
  by_cases h56 : x.length % 64 ≥ 56
  · rewrite [sha256_tail_spills_any x _ h56, if_pos h56, List.foldl_append]
    rfl
  · rewrite [sha256_tail_fits_any x _ (by omega), if_neg h56, List.foldl_append]
    rfl

set_option linter.unusedVariables false in
/-- Claim C12. For every input of length `L < 2^61` the checked run of `sha256`, which fails as
soon as `len - off` would wrap, a read of `data` leaves the first `L` bytes, an index leaves
`block`, `w`, `K`, `state` or `out32`, or the main loop does not end, succeeds: it returns
the digest of `sha256`, the main loop makes exactly `L / 64` iterations, each on the
next 64 input bytes, and `rem = L % 64 ≤ 63`. Every call of the checked compression function
on a state of 8 words and a block of at least 64 bytes succeeds, and so does each schedule
step `16 ≤ i < 64` with its reads `w[i-2]`, `w[i-7]`, `w[i-15]`, `w[i-16]`. -/
theorem sha256_no_runtime_failure (x : List Nat) (hL : x.length < 2 ^ 61) :
    (∃ r, sha256_checked x x.length = some r ∧ r.out32 = sha256 x x.length
      ∧ r.iterations = x.length / 64
      ∧ r.calls.take (x.length / 64) = blocks_aux (x.length / 64) x
      ∧ r.rem = x.length % 64 ∧ r.rem ≤ 63)
    ∧ (∀ state block : List Nat, state.length = 8 → 64 ≤ block.length →
        sha256_block_checked state block = some (sha256_block state block))
    ∧ (∀ (w : List Nat) (i : Nat), w.length = 64 → 16 ≤ i → i < 64 →
        expand_word_checked w i = some (expand_word w i)
        ∧ 0 ≤ (i : Int) - 16 ∧ (i : Int) - 2 < 64) := by
  refine ⟨⟨_, sha256_checked_eq x, rfl, rfl, ?_, rfl, ?_⟩, sha256_block_checked_eq, ?_⟩
  · show (blocks_aux (x.length / 64) x ++ _).take (x.length / 64) = _
    rw [List.take_left' (blocks_aux_length _ _)]
  · show x.length % 64 ≤ 63
    omega
  · intro w i hw h16 h64
    exact ⟨(expand_word_checked_eq w i hw h16 h64).1, by omega, by omega⟩

/-- Witness of claim C12, on the three bytes `abc`. -/
theorem sha256_no_runtime_failure_witness :
    ([0x61, 0x62, 0x63] : List Nat).length < 2 ^ 61 ∧
    ((∃ r, sha256_checked [0x61, 0x62, 0x63] ([0x61, 0x62, 0x63] : List Nat).length = some r
      ∧ r.out32 = sha256 [0x61, 0x62, 0x63] ([0x61, 0x62, 0x63] : List Nat).length
      ∧ r.iterations = ([0x61, 0x62, 0x63] : List Nat).length / 64
      ∧ r.calls.take (([0x61, 0x62, 0x63] : List Nat).length / 64)
          = blocks_aux (([0x61, 0x62, 0x63] : List Nat).length / 64) [0x61, 0x62, 0x63]
      ∧ r.rem = ([0x61, 0x62, 0x63] : List Nat).length % 64 ∧ r.rem ≤ 63)
    ∧ (∀ state block : List Nat, state.length = 8 → 64 ≤ block.length →
        sha256_block_checked state block = some (sha256_block state block))
    ∧ (∀ (w : List Nat) (i : Nat), w.length = 64 → 16 ≤ i → i < 64 →
        expand_word_checked w i = some (expand_word w i)
        ∧ 0 ≤ (i : Int) - 16 ∧ (i : Int) - 2 < 64)) :=
  ⟨by decide, sha256_no_runtime_failure [0x61, 0x62, 0x63] (by decide)⟩

set_option linter.unusedVariables false in
/-- Claim C19. For every input of length `L < 2^61` the run of `sha256` calls `sha256_block`
exactly `⌈(L + 9) / 64⌉` times: the first `L / 64` calls are on the consecutive full blocks
of the input, followed by one tail block when `L % 64 < 56` and two when `L % 64 ≥ 56`; the
digest is the serialised state after these calls, starting from `H0`. -/
theorem sha256_compression_count (x : List Nat) (hL : x.length < 2 ^ 61) :
    ∃ r, sha256_checked x x.length = some r
      ∧ r.calls.length = (x.length + 9 + 63) / 64
      ∧ r.calls.length = x.length / 64 + (if x.length % 64 < 56 then 1 else 2)
      ∧ r.calls.take (x.length / 64) = blocks_aux (x.length / 64) x
      ∧ sha256 x x.length = serialise (r.calls.foldl sha256_block H0) := by
  refine ⟨_, sha256_checked_eq x, ?_, ?_, ?_, sha256_eq_foldl_calls x⟩
  · show (blocks_aux (x.length / 64) x ++ _).length = _
    rw [List.length_append, blocks_aux_length]
    by_cases h56 : x.length % 64 ≥ 56
    · rw [if_pos h56, List.length_cons, List.length_singleton]; omega
    · rw [if_neg h56, List.length_singleton]; omega
  · show (blocks_aux (x.length / 64) x ++ _).length = _
    rw [List.length_append, blocks_aux_length]
    by_cases h56 : x.length % 64 ≥ 56
    · rw [if_pos h56, if_neg (by omega), List.length_cons, List.length_singleton]
    · rw [if_neg h56, if_pos (by omega), List.length_singleton]
  · show (blocks_aux (x.length / 64) x ++ _).take (x.length / 64) = _
    rw [List.take_left' (blocks_aux_length _ _)]

/-- Witness of claim C19, on an input of 120 bytes. -/
theorem sha256_compression_count_witness :
    (List.replicate 120 0x61).length < 2 ^ 61 ∧
    ∃ r, sha256_checked (List.replicate 120 0x61) (List.replicate 120 0x61).length = some r
      ∧ r.calls.length = ((List.replicate 120 0x61).length + 9 + 63) / 64
      ∧ r.calls.length = (List.replicate 120 0x61).length / 64
          + (if (List.replicate 120 0x61).length % 64 < 56 then 1 else 2)
      ∧ r.calls.take ((List.replicate 120 0x61).length / 64)
          = blocks_aux ((List.replicate 120 0x61).length / 64) (List.replicate 120 0x61)
      ∧ sha256 (List.replicate 120 0x61) (List.replicate 120 0x61).length
          = serialise (r.calls.foldl sha256_block H0) :=
  ⟨by rw [List.length_replicate]; decide,
    sha256_compression_count (List.replicate 120 0x61)
      (by rw [List.length_replicate]; decide)⟩

/-- Claim C20. For every input whose length `L` has `56 ≤ L % 64` the run of `sha256` ends with two
calls of `sha256_block` after the `L / 64` full input blocks: first on the block holding the
remaining `L % 64` input bytes, then `0x80`, then zero bytes up to 64; second on the block of
56 zero bytes followed by the eight bytes `be64 (8 * L)`, which read as a big-endian number
give `8 * L` when `L < 2^61`. -/
theorem sha256_spill_blocks (x : List Nat) (hr : 56 ≤ x.length % 64) :
    ∃ r, sha256_checked x x.length = some r
      ∧ r.calls.length = x.length / 64 + 2
      ∧ r.calls.drop (x.length / 64)
          = [x.drop (64 * (x.length / 64)) ++ 0x80 :: List.replicate (63 - x.length % 64) 0,
             List.replicate 56 0 ++ be64 (8 * x.length)]
      ∧ (x.drop (64 * (x.length / 64))).length = x.length % 64
      ∧ (x.drop (64 * (x.length / 64)) ++ 0x80 ::
            List.replicate (63 - x.length % 64) 0).length = 64
      ∧ (List.replicate 56 0 ++ be64 (8 * x.length)).length = 64
      ∧ (x.length < 2 ^ 61 →
          (be64 (8 * x.length)).foldl (fun acc b => 256 * acc + b) 0 = 8 * x.length) := by
  have htl : (x.drop (64 * (x.length / 64))).length = x.length % 64 := by
    rw [List.length_drop]; omega
  refine ⟨_, sha256_checked_eq x, ?_, ?_, htl, ?_, ?_, ?_⟩
  · show (blocks_aux (x.length / 64) x ++ _).length = _
    rw [List.length_append, blocks_aux_length, if_pos hr, List.length_cons,
      List.length_singleton]
  · show (blocks_aux (x.length / 64) x ++ _).drop (x.length / 64) = _
    rw [List.drop_left' (blocks_aux_length _ _), if_pos hr]
  · rw [List.length_append, List.length_cons, List.length_replicate, htl]; omega
  · rw [List.length_append, List.length_replicate]; rfl
  · intro hL
    simp only [be64, List.foldl]
    omega

/-- Witness of claim C20, on an input of 56 bytes. -/
theorem sha256_spill_blocks_witness :
    56 ≤ (List.replicate 56 0x61).length % 64 ∧
    ∃ r, sha256_checked (List.replicate 56 0x61) (List.replicate 56 0x61).length = some r
      ∧ r.calls.length = (List.replicate 56 0x61).length / 64 + 2
      ∧ r.calls.drop ((List.replicate 56 0x61).length / 64)
          = [(List.replicate 56 0x61).drop (64 * ((List.replicate 56 0x61).length / 64))
               ++ 0x80 :: List.replicate (63 - (List.replicate 56 0x61).length % 64) 0,
             List.replicate 56 0 ++ be64 (8 * (List.replicate 56 0x61).length)]
      ∧ ((List.replicate 56 0x61).drop
            (64 * ((List.replicate 56 0x61).length / 64))).length
          = (List.replicate 56 0x61).length % 64
      ∧ ((List.replicate 56 0x61).drop (64 * ((List.replicate 56 0x61).length / 64))
            ++ 0x80 :: List.replicate (63 - (List.replicate 56 0x61).length % 64) 0).length
          = 64
      ∧ (List.replicate 56 0 ++ be64 (8 * (List.replicate 56 0x61).length)).length = 64
      ∧ ((List.replicate 56 0x61).length < 2 ^ 61 →
          (be64 (8 * (List.replicate 56 0x61).length)).foldl (fun acc b => 256 * acc + b) 0
            = 8 * (List.replicate 56 0x61).length) :=
  ⟨by rw [List.length_replicate], sha256_spill_blocks (List.replicate 56 0x61)
    (by rw [List.length_replicate])⟩

end dhcc

namespace HilbertSpace640

theorem clz_walk_checked_eq (hash : List Nat) (n : Nat) (s : Int × List Nat)
    (hn : n ≤ hash.length) :
    ∃ reads, clz_walk_checked hash n s = some (clz_walk hash n s.1, s.2 ++ reads)
      ∧ ∀ i ∈ reads, i < n := by
  induction n generalizing s with
  | zero => exact ⟨[], by simp [clz_walk_checked, clz_walk], by simp⟩
  | succ n ih =>
    have hlt : n < hash.length := by omega
    have hget : hash[n]? = some (hash.getD n 0) := by
      simp [List.getD_eq_getElem?_getD, List.getElem?_eq_getElem hlt]
    by_cases h0 : hash.getD n 0 = 0
    · obtain ⟨reads, h1, h2⟩ := ih (s.1 + 8, s.2 ++ [n]) (by omega)
      refine ⟨n :: reads, ?_, ?_⟩
      · simp only [clz_walk_checked, hget, h0, if_true, clz_walk, h1, List.append_assoc,
          List.singleton_append]
      · intro i hi
        rcases List.mem_cons.mp hi with rfl | hi
        · omega
        · have := h2 i hi; omega
    · refine ⟨[n], ?_, ?_⟩
      · simp only [clz_walk_checked, hget, h0, if_false, clz_walk, builtin_clz_checked]
      · intro i hi
        rw [List.mem_singleton.mp hi]; omega

/-- Claim C13. On every array of 32 bytes the checked run of `count_leading_zeros`, which fails
when `hash[i]` is read outside the array or `__builtin_clz` is applied to zero, succeeds
with the value of `count_leading_zeros`, and every index read is below 32. On a non-zero
byte `b` the builtin is defined and `__builtin_clz(b) - 24` lies in `[0, 7]` and is the
number of leading zero bits of the eight bits of `b`; at a non-zero byte the walk adds this
amount and stops, and at a zero byte it adds 8 and goes on to the next byte. -/
theorem count_leading_zeros_total (hash : List Nat) (hlen : hash.length = 32)
    (hb : ∀ b ∈ hash, b < 256) :
    (∃ reads, count_leading_zeros_checked hash = some (count_leading_zeros hash, reads)
      ∧ ∀ i ∈ reads, i < 32)
    ∧ (∀ i, i < 32 → hash.getD i 0 ≠ 0 →
        builtin_clz_checked (hash.getD i 0) = some (builtin_clz (hash.getD i 0))
        ∧ 0 ≤ (builtin_clz (hash.getD i 0) : Int) - 24
        ∧ (builtin_clz (hash.getD i 0) : Int) - 24 ≤ 7
        ∧ (builtin_clz (hash.getD i 0) : Int) - 24
            = (leading_zeros (byte_bits (hash.getD i 0)) : Int)
        ∧ ∀ z, clz_walk hash (i + 1) z = z + ((builtin_clz (hash.getD i 0) : Int) - 24))
    ∧ (∀ i, i < 32 → hash.getD i 0 = 0 →
        ∀ z, clz_walk hash (i + 1) z = clz_walk hash i (z + 8)) := by
  refine ⟨?_, ?_, ?_⟩
  · obtain ⟨reads, h1, h2⟩ := clz_walk_checked_eq hash 32 (0, []) (by omega)
    exact ⟨reads, by simpa [count_leading_zeros_checked, count_leading_zeros] using h1, h2⟩
  · intro i hi h0
    have hlt : i < hash.length := by omega
    have hmem : hash.getD i 0 ∈ hash := by
      rw [List.getD_eq_getElem?_getD, List.getElem?_eq_getElem hlt]
      exact List.getElem_mem hlt
    obtain ⟨_, hclz, h7⟩ := clz_byte _ (hb _ hmem) h0
    refine ⟨by simp only [builtin_clz_checked, h0, if_false], by omega, by omega, by omega, ?_⟩
    intro z
    exact clz_walk_stop_step hash i z h0
  · intro i _ h0 z
    exact clz_walk_zero_step hash i z h0

/-- Witness of claim C13, on an array ending in `0x0f 0x00 0x00`: the walk reads the
indices 31, 30 and 29, applies the builtin to the non-zero byte `0x0f` (28 leading zeros as
a 32-bit value, 4 as a byte) and stops with 20. -/
theorem count_leading_zeros_total_witness :
    ((∃ reads, count_leading_zeros_checked (List.replicate 29 0xff ++ [0x0f, 0x00, 0x00])
          = some (count_leading_zeros (List.replicate 29 0xff ++ [0x0f, 0x00, 0x00]), reads)
      ∧ ∀ i ∈ reads, i < 32)
    ∧ (∀ i, i < 32 → (List.replicate 29 0xff ++ [0x0f, 0x00, 0x00]).getD i 0 ≠ 0 →
        builtin_clz_checked ((List.replicate 29 0xff ++ [0x0f, 0x00, 0x00]).getD i 0)
          = some (builtin_clz ((List.replicate 29 0xff ++ [0x0f, 0x00, 0x00]).getD i 0))
        ∧ 0 ≤ (builtin_clz ((List.replicate 29 0xff ++ [0x0f, 0x00, 0x00]).getD i 0) : Int)
            - 24
        ∧ (builtin_clz ((List.replicate 29 0xff ++ [0x0f, 0x00, 0x00]).getD i 0) : Int)
            - 24 ≤ 7
        ∧ (builtin_clz ((List.replicate 29 0xff ++ [0x0f, 0x00, 0x00]).getD i 0) : Int) - 24
            = (leading_zeros
                (byte_bits ((List.replicate 29 0xff ++ [0x0f, 0x00, 0x00]).getD i 0)) : Int)
        ∧ ∀ z, clz_walk (List.replicate 29 0xff ++ [0x0f, 0x00, 0x00]) (i + 1) z
            = z + ((builtin_clz
                ((List.replicate 29 0xff ++ [0x0f, 0x00, 0x00]).getD i 0) : Int) - 24))
    ∧ (∀ i, i < 32 → (List.replicate 29 0xff ++ [0x0f, 0x00, 0x00]).getD i 0 = 0 →
        ∀ z, clz_walk (List.replicate 29 0xff ++ [0x0f, 0x00, 0x00]) (i + 1) z
            = clz_walk (List.replicate 29 0xff ++ [0x0f, 0x00, 0x00]) i (z + 8)))
    ∧ count_leading_zeros_checked (List.replicate 29 0xff ++ [0x0f, 0x00, 0x00])
        = some (20, [31, 30, 29])
    ∧ (List.replicate 29 0xff ++ [0x0f, 0x00, 0x00]).getD 29 0 = 0x0f
    ∧ builtin_clz_checked 0x0f = some 28
    ∧ builtin_clz_checked 0 = none
    ∧ leading_zeros (byte_bits 0x0f) = 4 :=
  ⟨count_leading_zeros_total (List.replicate 29 0xff ++ [0x0f, 0x00, 0x00])
      (by decide) (by decide),
    by decide, by decide, by decide, by decide, by decide⟩

end HilbertSpace640

namespace dhcc

/-! ## `Ch`, `Maj` and `rotr` bit by bit -/

theorem Ch_testBit (x y z i : Nat) (hz : z < 4294967296) :
    (Ch x y z).testBit i = if x.testBit i then y.testBit i else z.testBit i := by
  have e : (0xffffffff : Nat) = 2 ^ 32 - 1 := by norm_num
  rw [Ch, Nat.testBit_xor, Nat.testBit_and, Nat.testBit_and, Nat.testBit_xor, e,
    Nat.testBit_two_pow_sub_one]
  by_cases hi : i < 32
  · cases x.testBit i <;> cases y.testBit i <;> cases z.testBit i <;> simp [hi]
  · have hzi : z.testBit i = false := testBit_word_high hz (by omega)
    cases x.testBit i <;> cases y.testBit i <;> simp [hi, hzi]

theorem Maj_testBit (x y z i : Nat) :
    (Maj x y z).testBit i
      = decide (2 ≤ (x.testBit i).toNat + (y.testBit i).toNat + (z.testBit i).toNat) := by
  rw [Maj, Nat.testBit_xor, Nat.testBit_xor, Nat.testBit_and, Nat.testBit_and, Nat.testBit_and]
  cases x.testBit i <;> cases y.testBit i <;> cases z.testBit i <;> rfl

theorem Maj_eq_of_bits (x y z r : Nat)
    (h : ∀ i, decide (2 ≤ (x.testBit i).toNat + (y.testBit i).toNat + (z.testBit i).toNat)
      = r.testBit i) : Maj x y z = r := by
  apply Nat.eq_of_testBit_eq
  intro i
  rw [Maj_testBit, h]

set_option linter.unusedVariables false in
/-- Claim C24. For all 32-bit `x`, `y`, `z` and every bit position `i`, bit `i` of
`Ch(x,y,z)` is bit `i` of `y` when bit `i` of `x` is 1 and bit `i` of `z` when it is 0; bit
`i` of `Maj(x,y,z)` is the majority of the bits `i` of `x`, `y`, `z`. On single bits the two
functions follow the eight rows of the documented truth tables, and `Maj(a,a,c) = a`,
`Maj(a,b,a) = a`, `Maj(a,b,b) = b` for all words. -/
theorem Ch_Maj_truth_tables (x y z : Nat) (hx : x < 4294967296) (hy : y < 4294967296)
    (hz : z < 4294967296) :
    (∀ i, (Ch x y z).testBit i = if x.testBit i then y.testBit i else z.testBit i)
    ∧ (∀ i, (Maj x y z).testBit i
        = decide (2 ≤ (x.testBit i).toNat + (y.testBit i).toNat + (z.testBit i).toNat))
    ∧ (Ch 0 0 0 = 0 ∧ Ch 0 0 1 = 1 ∧ Ch 0 1 0 = 0 ∧ Ch 0 1 1 = 1
        ∧ Ch 1 0 0 = 0 ∧ Ch 1 0 1 = 0 ∧ Ch 1 1 0 = 1 ∧ Ch 1 1 1 = 1)
    ∧ (Maj 0 0 0 = 0 ∧ Maj 0 0 1 = 0 ∧ Maj 0 1 0 = 0 ∧ Maj 0 1 1 = 1
        ∧ Maj 1 0 0 = 0 ∧ Maj 1 0 1 = 1 ∧ Maj 1 1 0 = 1 ∧ Maj 1 1 1 = 1)
    ∧ Maj x x z = x ∧ Maj x y x = x ∧ Maj x y y = y := by
  refine ⟨fun i => Ch_testBit x y z i hz, fun i => Maj_testBit x y z i, by decide, by decide,
    ?_, ?_, ?_⟩
  · apply Maj_eq_of_bits
    intro i
    cases x.testBit i <;> cases z.testBit i <;> rfl
  · apply Maj_eq_of_bits
    intro i
    cases x.testBit i <;> cases y.testBit i <;> rfl
  · apply Maj_eq_of_bits
    intro i
    cases x.testBit i <;> cases y.testBit i <;> rfl

/-- Witness of claim C24, on the first three words of the initial state. -/
theorem Ch_Maj_truth_tables_witness :
    (∀ i, (Ch 0x6a09e667 0xbb67ae85 0x3c6ef372).testBit i
        = if (0x6a09e667 : Nat).testBit i then (0xbb67ae85 : Nat).testBit i
          else (0x3c6ef372 : Nat).testBit i)
    ∧ (∀ i, (Maj 0x6a09e667 0xbb67ae85 0x3c6ef372).testBit i
        = decide (2 ≤ ((0x6a09e667 : Nat).testBit i).toNat
            + ((0xbb67ae85 : Nat).testBit i).toNat + ((0x3c6ef372 : Nat).testBit i).toNat))
    ∧ (Ch 0 0 0 = 0 ∧ Ch 0 0 1 = 1 ∧ Ch 0 1 0 = 0 ∧ Ch 0 1 1 = 1
        ∧ Ch 1 0 0 = 0 ∧ Ch 1 0 1 = 0 ∧ Ch 1 1 0 = 1 ∧ Ch 1 1 1 = 1)
    ∧ (Maj 0 0 0 = 0 ∧ Maj 0 0 1 = 0 ∧ Maj 0 1 0 = 0 ∧ Maj 0 1 1 = 1
        ∧ Maj 1 0 0 = 0 ∧ Maj 1 0 1 = 1 ∧ Maj 1 1 0 = 1 ∧ Maj 1 1 1 = 1)
    ∧ Maj 0x6a09e667 0x6a09e667 0x3c6ef372 = 0x6a09e667
    ∧ Maj 0x6a09e667 0xbb67ae85 0x6a09e667 = 0x6a09e667
    ∧ Maj 0x6a09e667 0xbb67ae85 0xbb67ae85 = 0xbb67ae85 :=
  Ch_Maj_truth_tables 0x6a09e667 0xbb67ae85 0x3c6ef372 (by decide) (by decide) (by decide)

theorem rotr_lt (x r : Nat) (hx : x < 4294967296) : rotr x r < 4294967296 := by
  have e32 : (4294967296 : Nat) = 2 ^ 32 := by norm_num
  rw [rotr, e32]
  apply Nat.or_lt_two_pow
  · rw [Nat.shiftRight_eq_div_pow]
    exact Nat.lt_of_le_of_lt (Nat.div_le_self _ _) (by rw [← e32]; exact hx)
  · exact Nat.mod_lt _ (by decide)

/-- Bit `i` of `rotr(x, r)` is bit `(i + r) mod 32` of `x`. -/
theorem rotr_testBit (x r i : Nat) (hx : x < 4294967296) (hr : r ≤ 32) (hi : i < 32) :
    (rotr x r).testBit i = x.testBit ((i + r) % 32) := by
  have e32 : (4294967296 : Nat) = 2 ^ 32 := by norm_num
  rw [rotr, e32, Nat.testBit_or, Nat.testBit_mod_two_pow, Nat.testBit_shiftRight,
    Nat.testBit_shiftLeft]
  by_cases h : i + r < 32
  · have h1 : ¬ (i ≥ 32 - r) := by omega
    have h2 : (i + r) % 32 = r + i := by omega
    simp [hi, h1, h2]
  · have h1 : i ≥ 32 - r := by omega
    have h2 : (i + r) % 32 = i - (32 - r) := by omega
    have h3 : x.testBit (r + i) = false := testBit_word_high hx (by omega)
    simp [hi, h1, h2, h3]

theorem rotr_checked_eq (x r : Nat) (h1 : 1 ≤ r) (h31 : r ≤ 31) :
    rotr_checked x r = some (rotr x r) := by
  have e : (4294967296 + 32 - r % 4294967296) % 4294967296 = 32 - r := by omega
  simp only [rotr_checked, shr_checked, shl_checked, e, rotr,
    if_pos (by omega : r < 32), if_pos (by omega : 32 - r < 32)]

/-- Claim C23. The calls of `rotr` made by `S0`, `S1`, `s0`, `s1` have the rotation amounts
2, 13, 22, 6, 11, 25, 7, 18, 17, 19; for each of them `r` and `32 - r` lie in `[1, 31]`, so the
checked functions, which fail on a shift by 32 or more, succeed with the values of the code
(while `rotr` with amount 0 or 32 fails). For every 32-bit `x`, every `r` with
`1 ≤ r ≤ 31` and every `i < 32`, bit `i` of `rotr(x, r)` is bit `(i + r) mod 32` of `x`, and
`rotr(x, r)` is a 32-bit value. -/
theorem rotr_is_rotation (x : Nat) (hx : x < 4294967296) :
    (S0 x = rotr x 2 ^^^ rotr x 13 ^^^ rotr x 22 ∧ S1 x = rotr x 6 ^^^ rotr x 11 ^^^ rotr x 25
      ∧ s0 x = rotr x 7 ^^^ rotr x 18 ^^^ (x >>> 3)
      ∧ s1 x = rotr x 17 ^^^ rotr x 19 ^^^ (x >>> 10))
    ∧ (∀ r ∈ [2, 6, 7, 11, 13, 17, 18, 19, 22, 25],
        1 ≤ r ∧ r ≤ 31 ∧ 1 ≤ 32 - r ∧ 32 - r ≤ 31
          ∧ rotr_checked x r = some (rotr x r))
    ∧ (S0_checked x = some (S0 x) ∧ S1_checked x = some (S1 x)
        ∧ s0_checked x = some (s0 x) ∧ s1_checked x = some (s1 x))
    ∧ (rotr_checked x 0 = none ∧ rotr_checked x 32 = none)
    ∧ (∀ r i, 1 ≤ r → r ≤ 31 → i < 32 →
        (rotr x r).testBit i = x.testBit ((i + r) % 32))
    ∧ (∀ r, 1 ≤ r → r ≤ 31 → rotr x r < 4294967296) := by
  refine ⟨⟨rfl, rfl, rfl, rfl⟩, ?_, ⟨?_, ?_, ?_, ?_⟩, ⟨rfl, rfl⟩, ?_, ?_⟩
  · intro r hr
    have h : 1 ≤ r ∧ r ≤ 31 := by
      simp only [List.mem_cons, List.mem_singleton, List.not_mem_nil, or_false] at hr
      omega
    exact ⟨h.1, h.2, by omega, by omega, rotr_checked_eq x r h.1 h.2⟩
  · simp only [S0_checked, rotr_checked_eq x 2 (by decide) (by decide),
      rotr_checked_eq x 13 (by decide) (by decide),
      rotr_checked_eq x 22 (by decide) (by decide), S0]
  · simp only [S1_checked, rotr_checked_eq x 6 (by decide) (by decide),
      rotr_checked_eq x 11 (by decide) (by decide),
      rotr_checked_eq x 25 (by decide) (by decide), S1]
  · simp only [s0_checked, rotr_checked_eq x 7 (by decide) (by decide),
      rotr_checked_eq x 18 (by decide) (by decide), s0, shr_checked,
      if_pos (by decide : 3 < 32)]
  · simp only [s1_checked, rotr_checked_eq x 17 (by decide) (by decide),
      rotr_checked_eq x 19 (by decide) (by decide), s1, shr_checked,
      if_pos (by decide : 10 < 32)]
  · intro r i _ h31 hi
    exact rotr_testBit x r i hx (by omega) hi
  · intro r _ _
    exact rotr_lt x r hx

/-- Witness of claim C23, on the first word of the initial state. -/
theorem rotr_is_rotation_witness :
    (S0 0x6a09e667 = rotr 0x6a09e667 2 ^^^ rotr 0x6a09e667 13 ^^^ rotr 0x6a09e667 22
      ∧ S1 0x6a09e667 = rotr 0x6a09e667 6 ^^^ rotr 0x6a09e667 11 ^^^ rotr 0x6a09e667 25
      ∧ s0 0x6a09e667 = rotr 0x6a09e667 7 ^^^ rotr 0x6a09e667 18 ^^^ (0x6a09e667 >>> 3)
      ∧ s1 0x6a09e667 = rotr 0x6a09e667 17 ^^^ rotr 0x6a09e667 19 ^^^ (0x6a09e667 >>> 10))
    ∧ (∀ r ∈ [2, 6, 7, 11, 13, 17, 18, 19, 22, 25],
        1 ≤ r ∧ r ≤ 31 ∧ 1 ≤ 32 - r ∧ 32 - r ≤ 31
          ∧ rotr_checked 0x6a09e667 r = some (rotr 0x6a09e667 r))
    ∧ (S0_checked 0x6a09e667 = some (S0 0x6a09e667)
        ∧ S1_checked 0x6a09e667 = some (S1 0x6a09e667)
        ∧ s0_checked 0x6a09e667 = some (s0 0x6a09e667)
        ∧ s1_checked 0x6a09e667 = some (s1 0x6a09e667))
    ∧ (rotr_checked 0x6a09e667 0 = none ∧ rotr_checked 0x6a09e667 32 = none)
    ∧ (∀ r i, 1 ≤ r → r ≤ 31 → i < 32 →
        (rotr 0x6a09e667 r).testBit i = (0x6a09e667 : Nat).testBit ((i + r) % 32))
    ∧ (∀ r, 1 ≤ r → r ≤ 31 → rotr 0x6a09e667 r < 4294967296) :=
  rotr_is_rotation 0x6a09e667 (by decide)

end dhcc

namespace dhcc

/-! ## The blocks compressed for the empty input and for an input of 32 bytes -/

/-- Claim C21. For the empty input `sha256` compresses exactly one block: the byte `0x80`,
then 55 zero bytes, then eight zero bytes of length field, that is `0x80` followed by 63 zero
bytes. -/
theorem empty_input_one_block :
    ∃ r, sha256_checked [] 0 = some r
      ∧ r.calls = [0x80 :: (List.replicate 55 0 ++ be64 (8 * 0))]
      ∧ be64 (8 * 0) = List.replicate 8 0
      ∧ r.calls = [0x80 :: List.replicate 63 0]
      ∧ r.calls.length = 1
      ∧ r.out32 = sha256 [] 0 :=
  ⟨_, sha256_checked_eq [], rfl, rfl, rfl, rfl, rfl⟩

theorem sha256_checked_32 (x : List Nat) (hlen : x.length = 32) :
    sha256_checked x 32 = some
      { out32 := sha256 x 32,
        calls := [x ++ (0x80 :: List.replicate 29 0 ++ [0x01, 0x00])],
        iterations := 0,
        rem := 32 } := by
  have h := sha256_checked_eq x
  rewrite [hlen] at h
  have e : (x ++ 0x80 :: List.replicate 23 0) ++ be64 (8 * 32)
      = x ++ (0x80 :: List.replicate 29 0 ++ [0x01, 0x00]) := by
    rw [List.append_assoc]
    rfl
  rewrite [h, ← e]
  rfl

theorem getD_append_tail (x t : List Nat) (n j : Nat) (hlen : x.length = n) :
    (x ++ t).getD (n + j) 0 = t.getD j 0 := by
  rw [List.getD_append_right _ _ _ _ (by omega), hlen, Nat.add_sub_cancel_left]

theorem getD_append_head (x t : List Nat) (j : Nat) (hj : j < x.length) :
    (x ++ t).getD j 0 = x.getD j 0 :=
  List.getD_append _ _ _ _ hj

/-- Claim C22. For every input `x` of 32 bytes `sha256` performs exactly one compression, on
the block `x`, `0x80`, 29 zero bytes, `0x01`, `0x00`; the first sixteen schedule words of this
block are the 8 big-endian words of `x`, then `0x80000000`, six zero words and `0x00000100`.
The second pass of `sha256d` on any message is such a call. -/
theorem sha256_pass2_block (x : List Nat) (hlen : x.length = 32) (hb : ∀ b ∈ x, b < 256) :
    (∃ r, sha256_checked x 32 = some r ∧ r.out32 = sha256 x 32
      ∧ r.calls = [x ++ (0x80 :: List.replicate 29 0 ++ [0x01, 0x00])])
    ∧ (∀ j, j < 32 →
        (x ++ (0x80 :: List.replicate 29 0 ++ [0x01, 0x00])).getD j 0 = x.getD j 0)
    ∧ (x ++ (0x80 :: List.replicate 29 0 ++ [0x01, 0x00])).getD 32 0 = 0x80
    ∧ (∀ j, 33 ≤ j → j ≤ 61 →
        (x ++ (0x80 :: List.replicate 29 0 ++ [0x01, 0x00])).getD j 0 = 0)
    ∧ (x ++ (0x80 :: List.replicate 29 0 ++ [0x01, 0x00])).getD 62 0 = 0x01
    ∧ (x ++ (0x80 :: List.replicate 29 0 ++ [0x01, 0x00])).getD 63 0 = 0x00
    ∧ (∀ i, i < 8 →
        (schedule (x ++ (0x80 :: List.replicate 29 0 ++ [0x01, 0x00]))).getD i 0
          = parse_be32 x i)
    ∧ (schedule (x ++ (0x80 :: List.replicate 29 0 ++ [0x01, 0x00]))).getD 8 0 = 0x80000000
    ∧ (∀ i, 9 ≤ i → i ≤ 14 →
        (schedule (x ++ (0x80 :: List.replicate 29 0 ++ [0x01, 0x00]))).getD i 0 = 0)
    ∧ (schedule (x ++ (0x80 :: List.replicate 29 0 ++ [0x01, 0x00]))).getD 15 0 = 0x00000100
    ∧ (∀ data len, (sha256 data len).length = 32 ∧ (∀ b ∈ sha256 data len, b < 256)
        ∧ sha256d data len = sha256 (sha256 data len) 32) := by
  have ht : ∀ j, (x ++ (0x80 :: List.replicate 29 0 ++ [0x01, 0x00])).getD (32 + j) 0
      = (0x80 :: List.replicate 29 0 ++ [0x01, 0x00]).getD j 0 :=
    fun j => getD_append_tail x _ 32 j hlen
  have hh : ∀ j, j < 32 → (x ++ (0x80 :: List.replicate 29 0 ++ [0x01, 0x00])).getD j 0
      = x.getD j 0 := fun j hj => getD_append_head x _ j (by omega)
  have hw : ∀ i, 8 ≤ i → i < 16 →
      (schedule (x ++ (0x80 :: List.replicate 29 0 ++ [0x01, 0x00]))).getD i 0
        = ((0x80 :: List.replicate 29 0 ++ [0x01, 0x00]).getD (4 * i - 32) 0 <<< 24)
          ||| ((0x80 :: List.replicate 29 0 ++ [0x01, 0x00]).getD (4 * i + 1 - 32) 0 <<< 16)
          ||| ((0x80 :: List.replicate 29 0 ++ [0x01, 0x00]).getD (4 * i + 2 - 32) 0 <<< 8)
          ||| (0x80 :: List.replicate 29 0 ++ [0x01, 0x00]).getD (4 * i + 3 - 32) 0 := by
    intro i h8 h16
    have hget : ∀ n, 32 ≤ n → (x ++ (0x80 :: List.replicate 29 0 ++ [0x01, 0x00])).getD n 0
        = (0x80 :: List.replicate 29 0 ++ [0x01, 0x00]).getD (n - 32) 0 := by
      intro n hn
      have e : n = 32 + (n - 32) := by omega
      rw [e, ht, ← e]
    rw [(schedule_raw _).2.1 i h16, hget (4 * i) (by omega), hget (4 * i + 1) (by omega),
      hget (4 * i + 2) (by omega), hget (4 * i + 3) (by omega)]
  have g := getD_lt_of_forall x 256 (by decide) hb
  refine ⟨⟨_, sha256_checked_32 x hlen, rfl, rfl⟩, hh, ?_, ?_, ?_, ?_, ?_, ?_, ?_, ?_, ?_⟩
  · exact ht 0
  · intro j h33 h61
    have e : j = 32 + (j - 32) := by omega
    rw [e, ht]
    have : j - 32 < 30 := by omega
    have h1 : 1 ≤ j - 32 := by omega
    generalize j - 32 = m at this h1
    interval_cases m <;> rfl
  · exact ht 30
  · exact ht 31
  · intro i hi
    rw [(schedule_raw _).2.1 i (by omega), hh _ (by omega), hh _ (by omega), hh _ (by omega),
      hh _ (by omega), shift_or_eq_be32 _ _ _ _ (g _) (g _) (g _), parse_be32]
  · rw [hw 8 (by decide) (by decide)]
    rfl
  · intro i h9 h14
    rw [hw i (by omega) (by omega)]
    interval_cases i <;> rfl
  · rw [hw 15 (by decide) (by decide)]
    rfl
  · intro data len
    exact ⟨sha256_length _ _, serialise_bytes _, rfl⟩

/-- Witness of claim C22, on 32 bytes `0x61`. -/
theorem sha256_pass2_block_witness :
    (∃ r, sha256_checked (List.replicate 32 0x61) 32 = some r
      ∧ r.out32 = sha256 (List.replicate 32 0x61) 32
      ∧ r.calls = [List.replicate 32 0x61 ++ (0x80 :: List.replicate 29 0 ++ [0x01, 0x00])])
    ∧ (∀ j, j < 32 →
        (List.replicate 32 0x61 ++ (0x80 :: List.replicate 29 0 ++ [0x01, 0x00])).getD j 0
          = (List.replicate 32 0x61).getD j 0)
    ∧ (List.replicate 32 0x61 ++ (0x80 :: List.replicate 29 0 ++ [0x01, 0x00])).getD 32 0
        = 0x80
    ∧ (∀ j, 33 ≤ j → j ≤ 61 →
        (List.replicate 32 0x61 ++ (0x80 :: List.replicate 29 0 ++ [0x01, 0x00])).getD j 0 = 0)
    ∧ (List.replicate 32 0x61 ++ (0x80 :: List.replicate 29 0 ++ [0x01, 0x00])).getD 62 0
        = 0x01
    ∧ (List.replicate 32 0x61 ++ (0x80 :: List.replicate 29 0 ++ [0x01, 0x00])).getD 63 0
        = 0x00
    ∧ (∀ i, i < 8 →
        (schedule (List.replicate 32 0x61
            ++ (0x80 :: List.replicate 29 0 ++ [0x01, 0x00]))).getD i 0
          = parse_be32 (List.replicate 32 0x61) i)
    ∧ (schedule (List.replicate 32 0x61
          ++ (0x80 :: List.replicate 29 0 ++ [0x01, 0x00]))).getD 8 0 = 0x80000000
    ∧ (∀ i, 9 ≤ i → i ≤ 14 →
        (schedule (List.replicate 32 0x61
            ++ (0x80 :: List.replicate 29 0 ++ [0x01, 0x00]))).getD i 0 = 0)
    ∧ (schedule (List.replicate 32 0x61
          ++ (0x80 :: List.replicate 29 0 ++ [0x01, 0x00]))).getD 15 0 = 0x00000100
    ∧ (∀ data len, (sha256 data len).length = 32 ∧ (∀ b ∈ sha256 data len, b < 256)
        ∧ sha256d data len = sha256 (sha256 data len) 32) :=
  sha256_pass2_block (List.replicate 32 0x61) (by decide) (by decide)

end dhcc

namespace dhcc

/-! ## The blocks of a run are the blocks of the padded message -/

theorem pad_suffix_length (L : Nat) :
    (pad_suffix L).length = if L % 64 < 56 then 64 - L % 64 else 128 - L % 64 := by
  have hbe : (be64 (8 * L)).length = 8 := rfl
  rw [pad_suffix, List.length_append, List.length_cons, List.length_replicate, hbe]
  split_ifs <;> omega

theorem padded_length (x : List Nat) :
    (x ++ pad_suffix x.length).length
      = 64 * (x.length / 64 + if x.length % 64 < 56 then 1 else 2) := by
  rw [List.length_append, pad_suffix_length]
  split_ifs <;> omega

theorem sha256_blocks_eq (x : List Nat) :
    sha256_blocks x x.length = blocks_aux (x.length / 64) x ++
      (if x.length % 64 ≥ 56
        then [x.drop (64 * (x.length / 64)) ++ 0x80 :: List.replicate (63 - x.length % 64) 0,
              List.replicate 56 0 ++ be64 (8 * x.length)]
        else [(x.drop (64 * (x.length / 64)) ++ 0x80 ::
                List.replicate (55 - x.length % 64) 0) ++ be64 (8 * x.length)]) := by
  rw [sha256_blocks, sha256_checked_eq]

/-- The blocks handed to `sha256_block` are the consecutive 64-byte blocks of the input
followed by its padding suffix. -/
theorem calls_eq_blocks (x : List Nat) :
    blocks_aux (x.length / 64) x ++
      (if x.length % 64 ≥ 56
        then [x.drop (64 * (x.length / 64)) ++ 0x80 :: List.replicate (63 - x.length % 64) 0,
              List.replicate 56 0 ++ be64 (8 * x.length)]
        else [(x.drop (64 * (x.length / 64)) ++ 0x80 ::
                List.replicate (55 - x.length % 64) 0) ++ be64 (8 * x.length)])
      = blocks (x ++ pad_suffix x.length) := by
  have hbe : (be64 (8 * x.length)).length = 8 := rfl
  have htl : (x.drop (64 * (x.length / 64))).length = x.length % 64 := by
    rw [List.length_drop]; omega
  have hlen := padded_length x
  rw [List.length_append] at hlen
  by_cases hr : x.length % 64 < 56
  · rw [if_pos hr] at hlen
    rw [if_neg (by omega), blocks_append_suffix x _ 1 hlen]
    have hp : pad_suffix x.length
        = (0x80 :: List.replicate (55 - x.length % 64) 0) ++ be64 (8 * x.length) := by
      rw [pad_suffix, if_pos hr]
    have h64 : ((x.drop (64 * (x.length / 64)) ++ 0x80 ::
        List.replicate (55 - x.length % 64) 0) ++ be64 (8 * x.length)).length ≤ 64 := by
      rw [List.length_append, List.length_append, List.length_cons, List.length_replicate,
        htl, hbe]
      omega
    rw [hp, ← List.append_assoc]
    simp only [blocks_aux]
    rw [List.take_of_length_le h64]
  · rw [if_neg hr] at hlen
    rw [if_pos (by omega), blocks_append_suffix x _ 2 hlen]
    have e : 119 - x.length % 64 = (63 - x.length % 64) + 56 := by omega
    have h1 : (x.drop (64 * (x.length / 64)) ++ 0x80 ::
        List.replicate (63 - x.length % 64) 0).length = 64 := by
      rw [List.length_append, List.length_cons, List.length_replicate, htl]
      omega
    have h2 : (List.replicate 56 0 ++ be64 (8 * x.length)).length ≤ 64 := by
      rw [List.length_append, List.length_replicate, hbe]
    have hT : x.drop (64 * (x.length / 64)) ++ pad_suffix x.length
        = (x.drop (64 * (x.length / 64)) ++ 0x80 :: List.replicate (63 - x.length % 64) 0)
          ++ (List.replicate 56 0 ++ be64 (8 * x.length)) := by
      rw [pad_suffix, if_neg hr, e, List.replicate_add]
      simp only [List.append_assoc, List.cons_append]
    rw [hT]
    simp only [blocks_aux]
    rw [List.take_left' h1, List.drop_left' h1, List.take_of_length_le h2]

/-- The blocks compressed by `sha256`, laid end to end, are the input followed by its padding
suffix. -/
theorem sha256_blocks_flatten (x : List Nat) :
    sha256_blocks x x.length = blocks (x ++ pad_suffix x.length)
      ∧ (sha256_blocks x x.length).flatten = x ++ pad_suffix x.length := by
  have h : sha256_blocks x x.length = blocks (x ++ pad_suffix x.length) := by
    rw [sha256_blocks_eq, calls_eq_blocks]
  refine ⟨h, ?_⟩
  rw [h, blocks]
  have hlen := padded_length x
  have hq : (x ++ pad_suffix x.length).length / 64
      = x.length / 64 + if x.length % 64 < 56 then 1 else 2 := by
    rw [hlen]; omega
  rw [hq]
  exact (blocks_aux_join _ _ hlen).1

theorem sha256_eq_fold_blocks (x : List Nat) :
    sha256 x x.length
      = serialise ((blocks (x ++ pad_suffix x.length)).foldl sha256_block H0) := by
  rw [sha256_eq_foldl_calls, calls_eq_blocks]

theorem blocks_append (a b : List Nat) (ha : a.length % 64 = 0) :
    blocks (a ++ b) = blocks a ++ blocks b := by
  have hn : a.length = 64 * (a.length / 64) := by omega
  have hq : (a ++ b).length / 64 = a.length / 64 + b.length / 64 := by
    rw [List.length_append]; omega
  rw [blocks, hq, blocks_aux_append _ _ a b hn]
  rfl

theorem list8_eq (S : List Nat) (h : S.length = 8) :
    S = [S.getD 0 0, S.getD 1 0, S.getD 2 0, S.getD 3 0, S.getD 4 0, S.getD 5 0, S.getD 6 0,
      S.getD 7 0] := by
  match S, h with
  | [_, _, _, _, _, _, _, _], _ => rfl

/-- Parsing the serialised state gives back the state. -/
theorem digest_words_serialise (S : List Nat) (hlen : S.length = 8)
    (hw : ∀ i, S.getD i 0 < 4294967296) : digest_words (serialise S) = S := by
  have hp : ∀ i, i < 8 → parse_be32 (serialise S) i = S.getD i 0 := by
    intro i hi
    have h0 := serialise_getD S i 0 hi (by decide)
    have h1 := serialise_getD S i 1 hi (by decide)
    have h2 := serialise_getD S i 2 hi (by decide)
    have h3 := serialise_getD S i 3 hi (by decide)
    rw [parse_be32, ← Nat.add_zero (4 * i), h0, Nat.add_zero, h1, h2, h3]
    exact be32_store_word _ (hw i)
  have e : digest_words (serialise S)
      = [parse_be32 (serialise S) 0, parse_be32 (serialise S) 1, parse_be32 (serialise S) 2,
         parse_be32 (serialise S) 3, parse_be32 (serialise S) 4, parse_be32 (serialise S) 5,
         parse_be32 (serialise S) 6, parse_be32 (serialise S) 7] := rfl
  rw [e, hp 0 (by decide), hp 1 (by decide), hp 2 (by decide), hp 3 (by decide),
    hp 4 (by decide), hp 5 (by decide), hp 6 (by decide), hp 7 (by decide)]
  exact (list8_eq S hlen).symm

theorem foldl_sha256_block_word_lt (bs : List (List Nat)) (st : List Nat)
    (hw : ∀ i, st.getD i 0 < 4294967296) (i : Nat) :
    (bs.foldl sha256_block st).getD i 0 < 4294967296 := by
  induction bs generalizing st with
  | nil => exact hw i
  | cons b bs ih => exact ih _ (sha256_block_word_lt st b)

theorem H0_word_lt (i : Nat) : H0.getD i 0 < 4294967296 :=
  getD_lt_of_forall H0 4294967296 (by decide) (by decide) i

theorem sha256_extend (m e : List Nat) :
    sha256 (m ++ pad_suffix m.length ++ e) (m ++ pad_suffix m.length ++ e).length
        = serialise ((blocks (e ++ pad_suffix (m.length + (pad_suffix m.length).length
              + e.length))).foldl sha256_block (digest_words (sha256 m m.length))) := by
  have hP : (m ++ pad_suffix m.length).length % 64 = 0 := by
    rw [padded_length]; omega
  have hx : (m ++ pad_suffix m.length ++ e).length
      = m.length + (pad_suffix m.length).length + e.length := by
    rw [List.length_append, List.length_append]
  rw [sha256_eq_fold_blocks, hx, List.append_assoc (m ++ pad_suffix m.length),
    blocks_append _ _ hP, List.foldl_append, sha256_eq_fold_blocks m,
    digest_words_serialise _ (foldl_sha256_block_length H0 _ rfl)
      (foldl_sha256_block_word_lt _ _ H0_word_lt)]

set_option linter.unusedVariables false in
/-- Claim C25. Length extension. Let `p(m) = pad_suffix |m|` be the padding suffix that
`sha256` appends to `m`: the blocks compressed for `m`, laid end to end, are `m ++ p(m)`. For
all `m` and `e` (total padded length below `2^61`), `sha256(m ++ p(m) ++ e)` is the
big-endian serialisation of the state reached from the 8 big-endian words of `sha256(m)` by
folding `sha256_block` over the 64-byte blocks of `e` followed by the padding suffix for the
total length `|m| + |p(m)| + |e|`. So it depends on `m` only through `sha256(m)` and `|m|`:
a message of the same length and the same digest has the same extended digest. -/
theorem sha256_length_extension (m e : List Nat)
    (hL : (m ++ pad_suffix m.length ++ e).length
        + (pad_suffix (m ++ pad_suffix m.length ++ e).length).length < 2 ^ 61) :
    sha256 (m ++ pad_suffix m.length ++ e) (m ++ pad_suffix m.length ++ e).length
        = serialise ((blocks (e ++ pad_suffix (m.length + (pad_suffix m.length).length
              + e.length))).foldl sha256_block (digest_words (sha256 m m.length)))
      ∧ (sha256_blocks m m.length).flatten = m ++ pad_suffix m.length
      ∧ pad_suffix m.length
          = 0x80 :: List.replicate (if m.length % 64 < 56 then 55 - m.length % 64
              else 119 - m.length % 64) 0 ++ be64 (8 * m.length)
      ∧ (∀ m2 : List Nat, m2.length = m.length → sha256 m2 m2.length = sha256 m m.length →
          sha256 (m2 ++ pad_suffix m2.length ++ e) (m2 ++ pad_suffix m2.length ++ e).length
            = sha256 (m ++ pad_suffix m.length ++ e)
                (m ++ pad_suffix m.length ++ e).length) := by
  refine ⟨sha256_extend m e, (sha256_blocks_flatten m).2, rfl, ?_⟩
  intro m2 hlen hd
  rw [sha256_extend m2 e, sha256_extend m e, hd, hlen]

/-- Witness of claim C25, on `m = abc` and the extension `d`. -/
theorem sha256_length_extension_witness :
    sha256 ([0x61, 0x62, 0x63] ++ pad_suffix [0x61, 0x62, 0x63].length ++ [0x64])
        ([0x61, 0x62, 0x63] ++ pad_suffix [0x61, 0x62, 0x63].length ++ [0x64]).length
        = serialise ((blocks ([0x64] ++ pad_suffix ([0x61, 0x62, 0x63].length
              + (pad_suffix [0x61, 0x62, 0x63].length).length
              + [0x64].length))).foldl sha256_block
            (digest_words (sha256 [0x61, 0x62, 0x63] [0x61, 0x62, 0x63].length)))
      ∧ (sha256_blocks [0x61, 0x62, 0x63] [0x61, 0x62, 0x63].length).flatten
          = [0x61, 0x62, 0x63] ++ pad_suffix [0x61, 0x62, 0x63].length
      ∧ pad_suffix [0x61, 0x62, 0x63].length
          = 0x80 :: List.replicate (if [0x61, 0x62, 0x63].length % 64 < 56
              then 55 - [0x61, 0x62, 0x63].length % 64
              else 119 - [0x61, 0x62, 0x63].length % 64) 0
            ++ be64 (8 * [0x61, 0x62, 0x63].length)
      ∧ (∀ m2 : List Nat, m2.length = [0x61, 0x62, 0x63].length →
          sha256 m2 m2.length = sha256 [0x61, 0x62, 0x63] [0x61, 0x62, 0x63].length →
          sha256 (m2 ++ pad_suffix m2.length ++ [0x64])
              (m2 ++ pad_suffix m2.length ++ [0x64]).length
            = sha256 ([0x61, 0x62, 0x63] ++ pad_suffix [0x61, 0x62, 0x63].length ++ [0x64])
                ([0x61, 0x62, 0x63] ++ pad_suffix [0x61, 0x62, 0x63].length
                  ++ [0x64]).length) :=
  sha256_length_extension [0x61, 0x62, 0x63] [0x64] (by decide)

end dhcc

namespace dhcc

/-! ## Injectivity of the padding, and the length field beyond `2^61` bytes -/

theorem be64_inj (a b : Nat) (ha : a < 2 ^ 64) (hb : b < 2 ^ 64) (h : be64 a = be64 b) :
    a = b := by
  simp only [be64, List.cons.injEq, and_true] at h
  omega

theorem be64_mod (n : Nat) : be64 (n % 2 ^ 64) = be64 n := by
  simp only [be64, List.cons.injEq, and_true]
  refine ⟨?_, ?_, ?_, ?_, ?_, ?_, ?_, ?_⟩ <;> omega

theorem be64_value (n : Nat) :
    (be64 n).foldl (fun acc b => 256 * acc + b) 0 = n % 2 ^ 64 := by
  simp only [be64, List.foldl]
  omega

theorem pad_suffix_split (L : Nat) :
    pad_suffix L = (0x80 :: List.replicate (if L % 64 < 56 then 55 - L % 64
        else 119 - L % 64) 0) ++ be64 (8 * L) := rfl

/-- The padded message determines the message, for lengths below `2^61`. -/
theorem padded_inj (x y : List Nat) (hx : x.length < 2 ^ 61) (hy : y.length < 2 ^ 61)
    (h : x ++ pad_suffix x.length = y ++ pad_suffix y.length) : x = y := by
  have h2 := h
  rw [pad_suffix_split, pad_suffix_split, ← List.append_assoc, ← List.append_assoc] at h2
  have hbe := (List.append_inj' h2 rfl).2
  have hlen : x.length = y.length := by
    have := be64_inj _ _ (by omega) (by omega) hbe
    omega
  rw [hlen] at h
  exact (List.append_left_inj _).mp h

/-- Claim C29. The padding of `sha256` is injective on inputs of length below `2^61`: two
inputs with the same sequence of blocks passed to `sha256_block` are equal; in particular
the blocks compressed for `x` differ from those compressed for `x ++ [b]`, for every
byte `b`. -/
theorem sha256_padding_injective (x y : List Nat) (hx : x.length < 2 ^ 61)
    (hy : y.length < 2 ^ 61) :
    (sha256_blocks x x.length = sha256_blocks y y.length → x = y)
    ∧ (∀ b, (x ++ [b]).length < 2 ^ 61 →
        sha256_blocks x x.length ≠ sha256_blocks (x ++ [b]) (x ++ [b]).length) := by
  have key : ∀ u v : List Nat, u.length < 2 ^ 61 → v.length < 2 ^ 61 →
      sha256_blocks u u.length = sha256_blocks v v.length → u = v := by
    intro u v hu hv h
    have hf := congrArg List.flatten h
    rw [(sha256_blocks_flatten u).2, (sha256_blocks_flatten v).2] at hf
    exact padded_inj u v hu hv hf
  refine ⟨key x y hx hy, ?_⟩
  intro b hb h
  have e := congrArg List.length (key x (x ++ [b]) hx hb h)
  rw [List.length_append, List.length_singleton] at e
  omega

/-- Witness of claim C29, on the inputs `abc` and `ab`. -/
theorem sha256_padding_injective_witness :
    (sha256_blocks [0x61, 0x62, 0x63] [0x61, 0x62, 0x63].length
        = sha256_blocks [0x61, 0x62] [0x61, 0x62].length → [0x61, 0x62, 0x63] = [0x61, 0x62])
    ∧ (∀ b, ([0x61, 0x62, 0x63] ++ [b]).length < 2 ^ 61 →
        sha256_blocks [0x61, 0x62, 0x63] [0x61, 0x62, 0x63].length
          ≠ sha256_blocks ([0x61, 0x62, 0x63] ++ [b]) ([0x61, 0x62, 0x63] ++ [b]).length) :=
  sha256_padding_injective [0x61, 0x62, 0x63] [0x61, 0x62] (by decide) (by decide)

/-- The last block compressed by `sha256` ends with the eight bytes `be64 (8 * L)`. -/
theorem sha256_last_block (x : List Nat) :
    ∃ pre last, sha256_blocks x x.length = pre ++ [last] ∧ last.length = 64
      ∧ last.drop 56 = be64 (8 * x.length) := by
  have hbe : (be64 (8 * x.length)).length = 8 := rfl
  have htl : (x.drop (64 * (x.length / 64))).length = x.length % 64 := by
    rw [List.length_drop]; omega
  by_cases hr : x.length % 64 ≥ 56
  · refine ⟨blocks_aux (x.length / 64) x
        ++ [x.drop (64 * (x.length / 64)) ++ 0x80 :: List.replicate (63 - x.length % 64) 0],
      List.replicate 56 0 ++ be64 (8 * x.length), ?_, ?_, ?_⟩
    · rw [sha256_blocks_eq, if_pos hr, List.append_assoc]
      rfl
    · rw [List.length_append, List.length_replicate, hbe]
    · exact List.drop_left' (List.length_replicate _ _)
  · refine ⟨blocks_aux (x.length / 64) x,
      (x.drop (64 * (x.length / 64)) ++ 0x80 :: List.replicate (55 - x.length % 64) 0)
        ++ be64 (8 * x.length), ?_, ?_, ?_⟩
    · rw [sha256_blocks_eq, if_neg hr]
    · rw [List.length_append, List.length_append, List.length_cons, List.length_replicate,
        htl, hbe]
      omega
    · apply List.drop_left'
      rw [List.length_append, List.length_cons, List.length_replicate, htl]
      omega

/-- Claim C30. For an input of length `L ≥ 2^61`, `sha256` reports nothing and produces a
digest of 32 bytes; the last block it compresses ends with the eight bytes that encode
`(8 * L) mod 2^64` big-endian, which is not `8 * L`; and every input whose length differs
from `L` by a multiple of `2^61` gets the same eight bytes. -/
theorem sha256_length_field_wraps (x : List Nat) (hL : 2 ^ 61 ≤ x.length) :
    sha256_outcome x x.length = Outcome.digest (sha256 x x.length)
    ∧ sha256_outcome x x.length ≠ Outcome.input_too_large
    ∧ (sha256 x x.length).length = 32
    ∧ (∃ pre last, sha256_blocks x x.length = pre ++ [last] ∧ last.length = 64
        ∧ last.drop 56 = be64 (8 * x.length % 2 ^ 64))
    ∧ (be64 (8 * x.length % 2 ^ 64)).foldl (fun acc b => 256 * acc + b) 0
        = 8 * x.length % 2 ^ 64
    ∧ 8 * x.length % 2 ^ 64 ≠ 8 * x.length
    ∧ (∀ (y : List Nat) (k : Nat), y.length = x.length + k * 2 ^ 61 →
        ∃ pre last, sha256_blocks y y.length = pre ++ [last] ∧ last.length = 64
          ∧ last.drop 56 = be64 (8 * x.length % 2 ^ 64)) := by
  refine ⟨rfl, fun h => Outcome.noConfusion h, sha256_length _ _, ?_, ?_, ?_, ?_⟩
  · obtain ⟨pre, last, h1, h2, h3⟩ := sha256_last_block x
    exact ⟨pre, last, h1, h2, by rw [be64_mod]; exact h3⟩
  · rw [be64_value, Nat.mod_mod]
  · omega
  · intro y k hy
    obtain ⟨pre, last, h1, h2, h3⟩ := sha256_last_block y
    refine ⟨pre, last, h1, h2, ?_⟩
    have e : 8 * y.length % 2 ^ 64 = 8 * x.length % 2 ^ 64 := by omega
    rw [h3, ← be64_mod (8 * y.length), e]

/-- Witness of claim C30, on a buffer of `2^61` zero bytes. -/
theorem sha256_length_field_wraps_witness :
    sha256_outcome (List.replicate (2 ^ 61) 0) (List.replicate (2 ^ 61) 0).length
      = Outcome.digest (sha256 (List.replicate (2 ^ 61) 0) (List.replicate (2 ^ 61) 0).length)
    ∧ sha256_outcome (List.replicate (2 ^ 61) 0) (List.replicate (2 ^ 61) 0).length
        ≠ Outcome.input_too_large
    ∧ (sha256 (List.replicate (2 ^ 61) 0) (List.replicate (2 ^ 61) 0).length).length = 32
    ∧ (∃ pre last, sha256_blocks (List.replicate (2 ^ 61) 0)
          (List.replicate (2 ^ 61) 0).length = pre ++ [last] ∧ last.length = 64
        ∧ last.drop 56 = be64 (8 * (List.replicate (2 ^ 61) 0).length % 2 ^ 64))
    ∧ (be64 (8 * (List.replicate (2 ^ 61) 0).length % 2 ^ 64)).foldl
          (fun acc b => 256 * acc + b) 0
        = 8 * (List.replicate (2 ^ 61) 0).length % 2 ^ 64
    ∧ 8 * (List.replicate (2 ^ 61) 0).length % 2 ^ 64
        ≠ 8 * (List.replicate (2 ^ 61) 0).length
    ∧ (∀ (y : List Nat) (k : Nat),
        y.length = (List.replicate (2 ^ 61) 0).length + k * 2 ^ 61 →
        ∃ pre last, sha256_blocks y y.length = pre ++ [last] ∧ last.length = 64
          ∧ last.drop 56 = be64 (8 * (List.replicate (2 ^ 61) 0).length % 2 ^ 64)) :=
  sha256_length_field_wraps (List.replicate (2 ^ 61) 0)
    (by rw [List.length_replicate])

end dhcc

namespace dhcc

/-! ## Each round is a bijection; the schedule can be run backwards -/

theorem round_eq_round_step (W : List Nat) (v : Vars) (i : Nat) :
    round W v i = round_step (K.getD i 0) (W.getD i 0) v := rfl

theorem round_step_wf (k w : Nat) (v : Vars) (hv : v.wf) : (round_step k w v).wf := by
  obtain ⟨ha, hb, hc, _, he, hf, hg, _⟩ := hv
  exact ⟨Nat.mod_lt _ (by decide), ha, hb, hc, Nat.mod_lt _ (by decide), he, hf, hg⟩

theorem round_step_inv_wf (k w : Nat) (v : Vars) (hv : v.wf) : (round_step_inv k w v).wf := by
  obtain ⟨_, hb, hc, hd, _, hf, hg, hh⟩ := hv
  exact ⟨hb, hc, hd, Nat.mod_lt _ (by decide), hf, hg, hh, Nat.mod_lt _ (by decide)⟩

theorem round_step_inv_left (k w : Nat) (v : Vars) (hv : v.wf) :
    round_step_inv k w (round_step k w v) = v := by
  obtain ⟨a, b, c, d, e, f, g, h⟩ := v
  obtain ⟨_, _, _, hd, _, _, _, hh⟩ := hv
  simp only at hd hh
  simp only [round_step, round_step_inv, Vars.mk.injEq, true_and, and_true]
  constructor <;> omega

theorem round_step_inv_right (k w : Nat) (v : Vars) (hv : v.wf) :
    round_step k w (round_step_inv k w v) = v := by
  obtain ⟨a, b, c, d, e, f, g, h⟩ := v
  obtain ⟨ha, _, _, _, he, _, _, _⟩ := hv
  simp only at ha he
  simp only [round_step, round_step_inv, Vars.mk.injEq, true_and, and_true]
  constructor <;> omega

theorem round_step_bijOn (k w : Nat) :
    Set.BijOn (round_step k w) {v | v.wf} {v | v.wf} :=
  Set.InvOn.bijOn
    ⟨fun v hv => round_step_inv_left k w v hv, fun v hv => round_step_inv_right k w v hv⟩
    (fun v hv => round_step_wf k w v hv) (fun v hv => round_step_inv_wf k w v hv)

theorem foldl_round_bijOn (W : List Nat) (is : List Nat) :
    Set.BijOn (fun v => is.foldl (round W) v) {v | v.wf} {v | v.wf} := by
  induction is with
  | nil => exact Set.bijOn_id _
  | cons i is ih => exact Set.BijOn.comp ih (round_step_bijOn (K.getD i 0) (W.getD i 0))

/-- Claim C26. For every round constant `k` and schedule word `w`, the body of the round
loop, `(a,b,c,d,e,f,g,h) ↦ (T1+T2, a, b, c, d+T1, e, f, g)`, is a bijection of the 8-word
states, with inverse `round_step_inv`; iteration `i` of the loop of `sha256_block` is this
map for `k = K[i]` and `w = w[i]`, and for every block the 64 rounds together are a bijection
from the input working variables to the output working variables. -/
theorem round_is_bijection (k w : Nat) :
    Set.BijOn (round_step k w) {v | v.wf} {v | v.wf}
    ∧ (∀ v : Vars, v.wf → round_step_inv k w (round_step k w v) = v)
    ∧ (∀ v : Vars, v.wf → round_step k w (round_step_inv k w v) = v)
    ∧ (∀ (W : List Nat) (v : Vars) (i : Nat),
        round W v i = round_step (K.getD i 0) (W.getD i 0) v)
    ∧ (∀ block : List Nat,
        Set.BijOn (fun v => (List.range 64).foldl (round (schedule block)) v)
          {v | v.wf} {v | v.wf})
    ∧ (∀ state block : List Nat, sha256_block state block
        = List.zipWith (fun s x => (s + x) % 4294967296)
            [state.getD 0 0, state.getD 1 0, state.getD 2 0, state.getD 3 0,
             state.getD 4 0, state.getD 5 0, state.getD 6 0, state.getD 7 0]
            (of_vars ((List.range 64).foldl (round (schedule block))
              (Vars.mk (state.getD 0 0) (state.getD 1 0) (state.getD 2 0) (state.getD 3 0)
                (state.getD 4 0) (state.getD 5 0) (state.getD 6 0) (state.getD 7 0))))) :=
  ⟨round_step_bijOn k w, round_step_inv_left k w, round_step_inv_right k w,
    fun _ _ _ => rfl, fun block => foldl_round_bijOn (schedule block) (List.range 64),
    fun _ _ => rfl⟩

end dhcc

namespace dhcc

theorem ext_getD (l1 l2 : List Nat) (hlen : l1.length = l2.length)
    (h : ∀ n, n < l1.length → l1.getD n 0 = l2.getD n 0) : l1 = l2 := by
  apply List.ext_getElem hlen
  intro n h1 h2
  have := h n h1
  rw [List.getD_eq_getElem?_getD, List.getD_eq_getElem?_getD, List.getElem?_eq_getElem h1,
    List.getElem?_eq_getElem h2] at this
  exact this

/-- The recurrence of the schedule solved for its oldest word. -/
theorem schedule_back (b : List Nat) (hb : ∀ x ∈ b, x < 256) (i : Nat) (h16 : 16 ≤ i)
    (h64 : i < 64) :
    ((schedule b).getD (i - 16) 0 : Int)
      = (((schedule b).getD i 0 : Int) - (sigma1 ((schedule b).getD (i - 2) 0) : Int)
          - ((schedule b).getD (i - 7) 0 : Int)
          - (sigma0 ((schedule b).getD (i - 15) 0) : Int)) % 4294967296 := by
  have hrec := (schedule_raw b).2.2 i h16 h64
  have hlt := schedule_word_lt b hb (i - 16)
  rw [s1_eq_sigma1 _ (schedule_word_lt b hb _), s0_eq_sigma0 _ (schedule_word_lt b hb _)]
    at hrec
  generalize (schedule b).getD (i - 16) 0 = w16 at hrec hlt ⊢
  generalize (schedule b).getD i 0 = wi at hrec ⊢
  generalize sigma1 ((schedule b).getD (i - 2) 0) = x2 at hrec ⊢
  generalize (schedule b).getD (i - 7) 0 = w7 at hrec ⊢
  generalize sigma0 ((schedule b).getD (i - 15) 0) = x15 at hrec ⊢
  omega

/-- Two schedules that agree on sixteen consecutive words agree on the word before them. -/
theorem schedule_step_down (b1 b2 : List Nat) (hb1 : ∀ x ∈ b1, x < 256)
    (hb2 : ∀ x ∈ b2, x < 256) (j : Nat) (hj : j + 1 ≤ 48)
    (h : ∀ i, j + 1 ≤ i → i < j + 1 + 16 →
      (schedule b1).getD i 0 = (schedule b2).getD i 0) :
    ∀ i, j ≤ i → i < j + 16 → (schedule b1).getD i 0 = (schedule b2).getD i 0 := by
  intro i hi1 hi2
  by_cases hij : i = j
  · subst hij
    have e1 := schedule_back b1 hb1 (i + 16) (by omega) (by omega)
    have e2 := schedule_back b2 hb2 (i + 16) (by omega) (by omega)
    have a1 : i + 16 - 16 = i := by omega
    have a2 : i + 16 - 2 = i + 14 := by omega
    have a3 : i + 16 - 7 = i + 9 := by omega
    have a4 : i + 16 - 15 = i + 1 := by omega
    rw [a1, a2, a3, a4] at e1 e2
    rw [h (i + 16) (by omega) (by omega), h (i + 14) (by omega) (by omega),
      h (i + 9) (by omega) (by omega), h (i + 1) (by omega) (by omega), ← e2] at e1
    exact Int.ofNat_inj.mp e1
  · exact h i (by omega) (by omega)

theorem schedule_first_words (b1 b2 : List Nat) (hb1 : ∀ x ∈ b1, x < 256)
    (hb2 : ∀ x ∈ b2, x < 256) (j : Nat) (hj : j ≤ 48)
    (h : ∀ i, j ≤ i → i < j + 16 → (schedule b1).getD i 0 = (schedule b2).getD i 0) :
    ∀ i, i < 16 → (schedule b1).getD i 0 = (schedule b2).getD i 0 := by
  induction j with
  | zero => exact fun i hi => h i (Nat.zero_le _) (by omega)
  | succ j ih => exact ih (by omega) (schedule_step_down b1 b2 hb1 hb2 j hj h)

theorem schedule_word_be32 (b : List Nat) (hb : ∀ x ∈ b, x < 256) (i : Nat) (hi : i < 16) :
    (schedule b).getD i 0 = parse_be32 b i := by
  have g := getD_lt_of_forall b 256 (by decide) hb
  rw [(schedule_raw b).2.1 i hi, shift_or_eq_be32 _ _ _ _ (g _) (g _) (g _), parse_be32]

theorem block_of_words (b1 b2 : List Nat) (h1 : b1.length = 64) (h2 : b2.length = 64)
    (hb1 : ∀ x ∈ b1, x < 256) (hb2 : ∀ x ∈ b2, x < 256)
    (h : ∀ i, i < 16 → parse_be32 b1 i = parse_be32 b2 i) : b1 = b2 := by
  have g1 := getD_lt_of_forall b1 256 (by decide) hb1
  have g2 := getD_lt_of_forall b2 256 (by decide) hb2
  apply ext_getD b1 b2 (by rw [h1, h2])
  intro n hn
  have hw := h (n / 4) (by omega)
  simp only [parse_be32, be32] at hw
  have := g1 (4 * (n / 4))
  have := g1 (4 * (n / 4) + 1)
  have := g1 (4 * (n / 4) + 2)
  have := g1 (4 * (n / 4) + 3)
  have := g2 (4 * (n / 4))
  have := g2 (4 * (n / 4) + 1)
  have := g2 (4 * (n / 4) + 2)
  have := g2 (4 * (n / 4) + 3)
  have hcases : n = 4 * (n / 4) ∨ n = 4 * (n / 4) + 1 ∨ n = 4 * (n / 4) + 2
      ∨ n = 4 * (n / 4) + 3 := by omega
  rcases hcases with e | e | e | e <;> rw [e] <;> omega

/-- Claim C27. The message schedule is reversible: for every 64-byte block and
`16 ≤ i < 64`, `W[i-16] = W[i] - σ₁(W[i-2]) - W[i-7] - σ₀(W[i-15])` modulo `2^32`; so two
blocks whose schedules agree on `W[48..63]`, or on any sixteen consecutive schedule words,
have the same sixteen block words and are the same block. -/
theorem schedule_is_reversible (b1 b2 : List Nat) (h1 : b1.length = 64)
    (h2 : b2.length = 64) (hb1 : ∀ x ∈ b1, x < 256) (hb2 : ∀ x ∈ b2, x < 256) :
    (∀ i, 16 ≤ i → i < 64 →
      ((schedule b1).getD (i - 16) 0 : Int)
        = (((schedule b1).getD i 0 : Int) - (sigma1 ((schedule b1).getD (i - 2) 0) : Int)
            - ((schedule b1).getD (i - 7) 0 : Int)
            - (sigma0 ((schedule b1).getD (i - 15) 0) : Int)) % 4294967296)
    ∧ ((∀ i, 48 ≤ i → i < 64 → (schedule b1).getD i 0 = (schedule b2).getD i 0) →
        (∀ i, i < 16 → (schedule b1).getD i 0 = (schedule b2).getD i 0) ∧ b1 = b2)
    ∧ (∀ j, j ≤ 48 →
        (∀ i, j ≤ i → i < j + 16 → (schedule b1).getD i 0 = (schedule b2).getD i 0) →
        (∀ i, i < 16 → (schedule b1).getD i 0 = (schedule b2).getD i 0) ∧ b1 = b2)
    ∧ (∀ i, i < 16 → (schedule b1).getD i 0 = parse_be32 b1 i) := by
  have key : ∀ j, j ≤ 48 →
      (∀ i, j ≤ i → i < j + 16 → (schedule b1).getD i 0 = (schedule b2).getD i 0) →
      (∀ i, i < 16 → (schedule b1).getD i 0 = (schedule b2).getD i 0) ∧ b1 = b2 := by
    intro j hj h
    have hw := schedule_first_words b1 b2 hb1 hb2 j hj h
    refine ⟨hw, block_of_words b1 b2 h1 h2 hb1 hb2 ?_⟩
    intro i hi
    rw [← schedule_word_be32 b1 hb1 i hi, ← schedule_word_be32 b2 hb2 i hi]
    exact hw i hi
  exact ⟨fun i h16 h64 => schedule_back b1 hb1 i h16 h64,
    fun h => key 48 (Nat.le_refl _) (fun i hi1 hi2 => h i hi1 (by omega)), key,
    fun i hi => schedule_word_be32 b1 hb1 i hi⟩

set_option maxRecDepth 100000 in
/-- Witness of claim C27, on the blocks of 64 bytes `0x61` and of 64 bytes `0x62`. -/
theorem schedule_is_reversible_witness :
    (∀ i, 16 ≤ i → i < 64 →
      ((schedule (List.replicate 64 0x61)).getD (i - 16) 0 : Int)
        = (((schedule (List.replicate 64 0x61)).getD i 0 : Int)
            - (sigma1 ((schedule (List.replicate 64 0x61)).getD (i - 2) 0) : Int)
            - ((schedule (List.replicate 64 0x61)).getD (i - 7) 0 : Int)
            - (sigma0 ((schedule (List.replicate 64 0x61)).getD (i - 15) 0) : Int))
          % 4294967296)
    ∧ ((∀ i, 48 ≤ i → i < 64 → (schedule (List.replicate 64 0x61)).getD i 0
          = (schedule (List.replicate 64 0x62)).getD i 0) →
        (∀ i, i < 16 → (schedule (List.replicate 64 0x61)).getD i 0
          = (schedule (List.replicate 64 0x62)).getD i 0)
        ∧ List.replicate 64 0x61 = List.replicate 64 0x62)
    ∧ (∀ j, j ≤ 48 →
        (∀ i, j ≤ i → i < j + 16 → (schedule (List.replicate 64 0x61)).getD i 0
          = (schedule (List.replicate 64 0x62)).getD i 0) →
        (∀ i, i < 16 → (schedule (List.replicate 64 0x61)).getD i 0
          = (schedule (List.replicate 64 0x62)).getD i 0)
        ∧ List.replicate 64 0x61 = List.replicate 64 0x62)
    ∧ (∀ i, i < 16 → (schedule (List.replicate 64 0x61)).getD i 0
        = parse_be32 (List.replicate 64 0x61) i) :=
  schedule_is_reversible (List.replicate 64 0x61) (List.replicate 64 0x62)
    (by decide) (by decide) (by decide) (by decide)

end dhcc

namespace HilbertSpace640

/-! ## `count_leading_zeros` and the digest as a little-endian integer -/

set_option maxRecDepth 100000 in
/-- A non-zero byte with `z` leading zero bits lies in `[2^(7-z), 2^(8-z))`. -/
theorem byte_bit_length : ∀ b, b < 256 → b ≠ 0 →
    2 ^ (7 - leading_zeros (byte_bits b)) ≤ b ∧ b < 2 ^ (8 - leading_zeros (byte_bits b))
      ∧ leading_zeros (byte_bits b) ≤ 7 ∧ true ∈ byte_bits b := by
  decide

theorem le_value_append (a c : List Nat) :
    le_value (a ++ c) = le_value a + 256 ^ a.length * le_value c := by
  induction a with
  | nil => simp [le_value]
  | cons b bs ih =>
    rw [List.cons_append, le_value, ih, le_value, List.length_cons, pow_succ]
    ring

theorem le_value_lt (l : List Nat) (hb : ∀ b ∈ l, b < 256) : le_value l < 256 ^ l.length := by
  induction l with
  | nil => simp [le_value]
  | cons b bs ih =>
    have h1 := hb b (List.mem_cons_self _ _)
    have h2 := ih (fun x hx => hb x (List.mem_cons_of_mem _ hx))
    rw [le_value, List.length_cons, pow_succ]
    omega

/-- Leading zero bits plus bit length make up all the bits of a big-endian byte string. -/
theorem leading_zero_bits_add_size (l : List Nat) (hb : ∀ b ∈ l, b < 256) :
    leading_zero_bits l + Nat.size (le_value l.reverse) = 8 * l.length := by
  induction l with
  | nil => simp [leading_zero_bits, digest_bits, leading_zeros, le_value]
  | cons b bs ih =>
    have hb0 := hb b (List.mem_cons_self _ _)
    have hbs : ∀ x ∈ bs, x < 256 := fun x hx => hb x (List.mem_cons_of_mem _ hx)
    have ih := ih hbs
    have hv : le_value (b :: bs).reverse = le_value bs.reverse + 256 ^ bs.length * b := by
      rw [List.reverse_cons, le_value_append, List.length_reverse]
      simp [le_value]
    have hlt : le_value bs.reverse < 256 ^ bs.length := by
      have := le_value_lt bs.reverse (fun x hx => hbs x (List.mem_reverse.mp hx))
      rwa [List.length_reverse] at this
    rw [hv, List.length_cons]
    by_cases h0 : b = 0
    · subst h0
      simp only [leading_zero_bits_cons_zero, Nat.mul_zero, Nat.add_zero]
      omega
    · obtain ⟨hlo, hhi, h7, hmem⟩ := byte_bit_length b hb0 h0
      have hz : leading_zero_bits (b :: bs) = leading_zeros (byte_bits b) :=
        leading_zeros_append_of_mem _ _ hmem
      rw [hz]
      generalize leading_zeros (byte_bits b) = z at hlo hhi h7
      have e256 : (256 : Nat) ^ bs.length = 2 ^ (8 * bs.length) := by
        rw [show (256 : Nat) = 2 ^ 8 by norm_num, ← pow_mul]
      rw [e256] at hlt ⊢
      have hsize : Nat.size (le_value bs.reverse + 2 ^ (8 * bs.length) * b)
          = 8 * bs.length + (8 - z) := by
        apply le_antisymm
        · rw [Nat.size_le]
          calc le_value bs.reverse + 2 ^ (8 * bs.length) * b
              < 2 ^ (8 * bs.length) * (b + 1) := by rw [Nat.mul_add, Nat.mul_one]; omega
            _ ≤ 2 ^ (8 * bs.length) * 2 ^ (8 - z) := Nat.mul_le_mul_left _ hhi
            _ = 2 ^ (8 * bs.length + (8 - z)) := (pow_add _ _ _).symm
        · have hlt2 : 8 * bs.length + (7 - z) < Nat.size
              (le_value bs.reverse + 2 ^ (8 * bs.length) * b) := by
            rw [Nat.lt_size]
            calc 2 ^ (8 * bs.length + (7 - z)) = 2 ^ (8 * bs.length) * 2 ^ (7 - z) :=
                  pow_add _ _ _
              _ ≤ 2 ^ (8 * bs.length) * b := Nat.mul_le_mul_left _ hlo
              _ ≤ le_value bs.reverse + 2 ^ (8 * bs.length) * b := Nat.le_add_left _ _
          omega
      rw [hsize]
      omega

/-- Claim C28. For every digest `d` of 32 bytes, `count_leading_zeros` returns the number of
leading zero bits of the 256-bit integer with most significant byte `d[31]` and least
significant byte `d[0]`: 256 minus the bit length of the sum of `d[i] * 256^i`. This is the
big-endian leading-zero count of the byte-reversed digest. -/
theorem count_leading_zeros_little_endian (d : List Nat) (hlen : d.length = 32)
    (hb : ∀ b ∈ d, b < 256) :
    count_leading_zeros d = 256 - (Nat.size (le_value d) : Int)
    ∧ count_leading_zeros d = (leading_zero_bits d.reverse : Int)
    ∧ le_value d < 2 ^ 256
    ∧ le_value d = (List.range 32).foldl (fun acc i => acc + d.getD i 0 * 256 ^ i) 0 := by
  have h := clz_walk_eq d hb 32 0 (by omega)
  rw [List.take_of_length_le (by omega), Int.zero_add] at h
  have hs := leading_zero_bits_add_size d.reverse
    (fun x hx => hb x (List.mem_reverse.mp hx))
  rw [List.reverse_reverse, List.length_reverse, hlen] at hs
  have hlt := le_value_lt d hb
  rw [hlen] at hlt
  refine ⟨?_, h, by simpa using hlt, ?_⟩
  · rw [count_leading_zeros, h]
    omega
  · match d, hlen with
    | [_, _, _, _, _, _, _, _, _, _, _, _, _, _, _, _, _, _, _, _, _, _, _, _, _, _, _, _, _, _,
       _, _], _ =>
      simp only [le_value, List.range, List.range.loop, List.foldl, List.getD_cons_zero,
        List.getD_cons_succ]
      ring

/-- Witness of claim C28, on a digest ending in `0x0f 0x00 0x00`. -/
theorem count_leading_zeros_little_endian_witness :
    count_leading_zeros (List.replicate 29 0xff ++ [0x0f, 0x00, 0x00])
        = 256 - (Nat.size (le_value (List.replicate 29 0xff ++ [0x0f, 0x00, 0x00])) : Int)
    ∧ count_leading_zeros (List.replicate 29 0xff ++ [0x0f, 0x00, 0x00])
        = (leading_zero_bits (List.replicate 29 0xff ++ [0x0f, 0x00, 0x00]).reverse : Int)
    ∧ le_value (List.replicate 29 0xff ++ [0x0f, 0x00, 0x00]) < 2 ^ 256
    ∧ le_value (List.replicate 29 0xff ++ [0x0f, 0x00, 0x00])
        = (List.range 32).foldl
            (fun acc i => acc + (List.replicate 29 0xff ++ [0x0f, 0x00, 0x00]).getD i 0
              * 256 ^ i) 0 :=
  count_leading_zeros_little_endian (List.replicate 29 0xff ++ [0x0f, 0x00, 0x00])
    (by decide) (by decide)

end HilbertSpace640

namespace dhcc

/-! ## The digest against the reference computation of the specification -/

/-- On a state of eight words the output loop of `sha256` writes the big-endian
serialisation of the specification. -/
theorem serialise_eq_serialise_be (S : List Nat) (h : S.length = 8) :
    serialise S = serialise_be S := by
  match S, h with
  | [a, b, c, d, e, f, g, h'], _ =>
    have e1 : serialise [a, b, c, d, e, f, g, h']
        = store_word a ++ store_word b ++ store_word c ++ store_word d ++ store_word e
          ++ store_word f ++ store_word g ++ store_word h' := rfl
    have e2 : serialise_be [a, b, c, d, e, f, g, h']
        = be32_bytes a ++ (be32_bytes b ++ (be32_bytes c ++ (be32_bytes d ++ (be32_bytes e
          ++ (be32_bytes f ++ (be32_bytes g ++ (be32_bytes h' ++ []))))))) := rfl
    have e3 : ∀ w, store_word w = be32_bytes w := by
      intro w
      simp only [store_word, be32_bytes, Nat.shiftRight_eq_div_pow]
    rw [e1, e2, e3, e3, e3, e3, e3, e3, e3, e3]
    simp only [List.append_assoc, List.append_nil]

/-- Read back as big-endian words, the serialisation of the specification gives the
words. -/
theorem parse_be32_serialise_be (S : List Nat) (h : S.length = 8)
    (hw : ∀ i, S.getD i 0 < 4294967296) (i : Nat) (hi : i < 8) :
    parse_be32 (serialise_be S) i = S.getD i 0 := by
  have h0 := serialise_getD S i 0 hi (by decide)
  have h1 := serialise_getD S i 1 hi (by decide)
  have h2 := serialise_getD S i 2 hi (by decide)
  have h3 := serialise_getD S i 3 hi (by decide)
  rw [← serialise_eq_serialise_be S h, parse_be32, ← Nat.add_zero (4 * i), h0, Nat.add_zero,
    h1, h2, h3]
  exact be32_store_word _ (hw i)

/-- Claim C2. For every byte sequence `x` of length `L < 2^61`, `sha256` equals the reference
computation: pad `x` with `0x80`, the least number `k` of zero bytes making `L + 1 + k`
congruent to 56 modulo 64, and the 8-byte big-endian encoding of `8 * L`; split into
64-byte blocks; fold `sha256_block` over them from `H0`; serialise the final 8 state words
big-endian, each as its four bytes `w / 2^24 mod 256, ..., w mod 256`. The reference digest
has 32 bytes, each below 256, and read back as eight big-endian words it is the final
state. -/
theorem sha256_refines_reference (x : List Nat) (k : Nat) (hL : x.length < 2 ^ 61)
    (hk : (x.length + 1 + k) % 64 = 56)
    (hmin : ∀ j, j < k → (x.length + 1 + j) % 64 ≠ 56) :
    sha256 x x.length = sha256_reference x k
    ∧ (sha256_reference x k).length = 32
    ∧ (∀ b ∈ sha256_reference x k, b < 256)
    ∧ (∀ i, i < 8 → parse_be32 (sha256_reference x k) i
        = ((blocks (padded x k)).foldl sha256_block H0).getD i 0)
    ∧ (∀ i j, i < 8 → j < 4 → (sha256 x x.length).getD (4 * i + j) 0
        = ((blocks (padded x k)).foldl sha256_block H0).getD i 0 / 2 ^ (24 - 8 * j) % 256) := by
  have hlen := foldl_sha256_block_length H0 (blocks (padded x k)) rfl
  have hw := foldl_sha256_block_word_lt (blocks (padded x k)) H0 H0_word_lt
  have hfold := sha256_eq_fold_padded x k hL hk hmin
  have href : sha256_reference x k
      = serialise ((blocks (padded x k)).foldl sha256_block H0) := by
    rw [sha256_reference, serialise_eq_serialise_be _ hlen]
  refine ⟨by rw [hfold, href], ?_, ?_, ?_, ?_⟩
  · rw [href]
    exact serialise_length _
  · rw [href]
    exact serialise_bytes _
  · intro i hi
    exact parse_be32_serialise_be _ hlen hw i hi
  · intro i j hi hj
    rw [hfold, serialise_getD _ i j hi hj, Nat.shiftRight_eq_div_pow]

/-- Witness of claim C2 on the message `abc` (`L = 3`, `k = 52`). -/
theorem sha256_refines_reference_witness :
    sha256 [0x61, 0x62, 0x63] [0x61, 0x62, 0x63].length
        = sha256_reference [0x61, 0x62, 0x63] 52
    ∧ (sha256_reference [0x61, 0x62, 0x63] 52).length = 32
    ∧ (∀ b ∈ sha256_reference [0x61, 0x62, 0x63] 52, b < 256)
    ∧ (∀ i, i < 8 → parse_be32 (sha256_reference [0x61, 0x62, 0x63] 52) i
        = ((blocks (padded [0x61, 0x62, 0x63] 52)).foldl sha256_block H0).getD i 0)
    ∧ (∀ i j, i < 8 → j < 4 →
        (sha256 [0x61, 0x62, 0x63] [0x61, 0x62, 0x63].length).getD (4 * i + j) 0
          = ((blocks (padded [0x61, 0x62, 0x63] 52)).foldl sha256_block H0).getD i 0
              / 2 ^ (24 - 8 * j) % 256) :=
  sha256_refines_reference [0x61, 0x62, 0x63] 52 (by decide) (by decide) (by decide)

end dhcc

namespace dhcc

/-! ### The 15625 full blocks of the message of one million bytes `0x61`, 125 at a time -/

theorem chunk_000 :
    iter_fast KW_a 125
      (Vars.mk 0x6a09e667 0xbb67ae85 0x3c6ef372 0xa54ff53a
        0x510e527f 0x9b05688c 0x1f83d9ab 0x5be0cd19)
      = (Vars.mk 0xbd02df17 0xbdc2220a 0xaa5a51c9 0x84d627c8
          0x250162b5 0x88241306 0xc1f10410 0xee7b68d9) := by
  decide!

theorem chunk_001 :
    iter_fast KW_a 125
      (Vars.mk 0xbd02df17 0xbdc2220a 0xaa5a51c9 0x84d627c8
        0x250162b5 0x88241306 0xc1f10410 0xee7b68d9)
      = (Vars.mk 0xd9468efd 0x0335cfa7 0xa5cc862a 0xbc15c4d9
          0x80f75a2a 0x709f1ae1 0xd3db48d0 0x894d9d47) := by
  decide!

theorem chunk_002 :
    iter_fast KW_a 125
      (Vars.mk 0xd9468efd 0x0335cfa7 0xa5cc862a 0xbc15c4d9
        0x80f75a2a 0x709f1ae1 0xd3db48d0 0x894d9d47)
      = (Vars.mk 0xeb038466 0xc9b8b66e 0xd9d31506 0xbca29bb7
          0x12947b02 0x089b7e0b 0x27afe267 0x0fd694f4) := by
  decide!

theorem chunk_003 :
    iter_fast KW_a 125
      (Vars.mk 0xeb038466 0xc9b8b66e 0xd9d31506 0xbca29bb7
        0x12947b02 0x089b7e0b 0x27afe267 0x0fd694f4)
      = (Vars.mk 0x3a0268fc 0x928a965f 0xa3e38962 0xa31396f3
          0x27cc21b2 0x9b643405 0xb430eea0 0xe85163cb) := by
  decide!

theorem chunk_004 :
    iter_fast KW_a 125
      (Vars.mk 0x3a0268fc 0x928a965f 0xa3e38962 0xa31396f3
        0x27cc21b2 0x9b643405 0xb430eea0 0xe85163cb)
      = (Vars.mk 0xb1a2003c 0xf1b63ef3 0x16aedbf6 0xe56a5560
          0x24f33053 0xde064804 0x49f97606 0xa69f45d2) := by
  decide!

theorem chunk_005 :
    iter_fast KW_a 125
      (Vars.mk 0xb1a2003c 0xf1b63ef3 0x16aedbf6 0xe56a5560
        0x24f33053 0xde064804 0x49f97606 0xa69f45d2)
      = (Vars.mk 0x870f115d 0x3c610c2f 0xfda0800f 0x4118966f
          0xe9493459 0xce5f7f20 0x23e246f7 0xcdc6681d) := by
  decide!

theorem chunk_006 :
    iter_fast KW_a 125
      (Vars.mk 0x870f115d 0x3c610c2f 0xfda0800f 0x4118966f
        0xe9493459 0xce5f7f20 0x23e246f7 0xcdc6681d)
      = (Vars.mk 0x155984dd 0xad50408b 0xc7a30415 0x4f1c80ed
          0xe9a46ef8 0x2cc4b2c5 0xb86835f0 0xd763d326) := by
  decide!

theorem chunk_007 :
    iter_fast KW_a 125
      (Vars.mk 0x155984dd 0xad50408b 0xc7a30415 0x4f1c80ed
        0xe9a46ef8 0x2cc4b2c5 0xb86835f0 0xd763d326)
      = (Vars.mk 0x2357c88c 0x8935e0dd 0x683c02a7 0x24f9ad69
          0x0b02c84d 0x9cda0653 0xce38effd 0xe1978f96) := by
  decide!

theorem chunk_008 :
    iter_fast KW_a 125
      (Vars.mk 0x2357c88c 0x8935e0dd 0x683c02a7 0x24f9ad69
        0x0b02c84d 0x9cda0653 0xce38effd 0xe1978f96)
      = (Vars.mk 0xf5afb562 0x23cf67fd 0x99320f46 0x588d7c8f
          0x0258dd75 0xcf0cd835 0xbe032bef 0x74928f38) := by
  decide!

theorem chunk_009 :
    iter_fast KW_a 125
      (Vars.mk 0xf5afb562 0x23cf67fd 0x99320f46 0x588d7c8f
        0x0258dd75 0xcf0cd835 0xbe032bef 0x74928f38)
      = (Vars.mk 0xcf743342 0x4f776eee 0x34b6c566 0x82b56ca0
          0x8b769a9c 0x90092a27 0x88fd3603 0x911d1891) := by
  decide!

theorem chunk_010 :
    iter_fast KW_a 125
      (Vars.mk 0xcf743342 0x4f776eee 0x34b6c566 0x82b56ca0
        0x8b769a9c 0x90092a27 0x88fd3603 0x911d1891)
      = (Vars.mk 0xa85eaa61 0x4d11ec25 0xb412487d 0x462ee861
          0x2889a412 0x24066e74 0xf26f896b 0xad24dd55) := by
  decide!

theorem chunk_011 :
    iter_fast KW_a 125
      (Vars.mk 0xa85eaa61 0x4d11ec25 0xb412487d 0x462ee861
        0x2889a412 0x24066e74 0xf26f896b 0xad24dd55)
      = (Vars.mk 0x590e6c95 0x96f9e6e6 0xd464c5ed 0x47f28986
          0x941137e5 0x4b37c867 0x5d3fe61c 0xc497da9d) := by
  decide!

theorem chunk_012 :
    iter_fast KW_a 125
      (Vars.mk 0x590e6c95 0x96f9e6e6 0xd464c5ed 0x47f28986
        0x941137e5 0x4b37c867 0x5d3fe61c 0xc497da9d)
      = (Vars.mk 0x690d2629 0xa0e2f29a 0xce8183c4 0x035a6e25
          0x55796b67 0xba628131 0x3d7547d4 0x9f43a167) := by
  decide!

theorem chunk_013 :
    iter_fast KW_a 125
      (Vars.mk 0x690d2629 0xa0e2f29a 0xce8183c4 0x035a6e25
        0x55796b67 0xba628131 0x3d7547d4 0x9f43a167)
      = (Vars.mk 0x2cdda216 0xb434cb1b 0x62c79f26 0xda5664b4
          0x399ba766 0x2eb2c293 0x6e1b8d35 0xe89dd975) := by
  decide!

theorem chunk_014 :
    iter_fast KW_a 125
      (Vars.mk 0x2cdda216 0xb434cb1b 0x62c79f26 0xda5664b4
        0x399ba766 0x2eb2c293 0x6e1b8d35 0xe89dd975)
      = (Vars.mk 0xe3890ec1 0x07bd55d6 0xf7be3f8e 0x2c2501f9
          0x1ac7b63a 0xaa6ebc52 0x996854a6 0xf3eec507) := by
  decide!

theorem chunk_015 :
    iter_fast KW_a 125
      (Vars.mk 0xe3890ec1 0x07bd55d6 0xf7be3f8e 0x2c2501f9
        0x1ac7b63a 0xaa6ebc52 0x996854a6 0xf3eec507)
      = (Vars.mk 0x90fbdd8b 0xd44df452 0x2f42ee39 0x0727fab0
          0x672748d2 0xb8cb6931 0x5879da42 0x8fdc1e15) := by
  decide!

theorem chunk_016 :
    iter_fast KW_a 125
      (Vars.mk 0x90fbdd8b 0xd44df452 0x2f42ee39 0x0727fab0
        0x672748d2 0xb8cb6931 0x5879da42 0x8fdc1e15)
      = (Vars.mk 0x339adcb0 0x889631d9 0x33f768df 0x3e49e226
          0xe0678b1a 0xcb742906 0x003d418e 0x82cbe123) := by
  decide!

theorem chunk_017 :
    iter_fast KW_a 125
      (Vars.mk 0x339adcb0 0x889631d9 0x33f768df 0x3e49e226
        0xe0678b1a 0xcb742906 0x003d418e 0x82cbe123)
      = (Vars.mk 0xf32b47bf 0xb72fc405 0xef6e4db4 0x6f295ff8
          0x0c59d81a 0x0c3b6cb1 0x2cb9630c 0x5ad749e5) := by
  decide!

theorem chunk_018 :
    iter_fast KW_a 125
      (Vars.mk 0xf32b47bf 0xb72fc405 0xef6e4db4 0x6f295ff8
        0x0c59d81a 0x0c3b6cb1 0x2cb9630c 0x5ad749e5)
      = (Vars.mk 0x36cc9e9d 0xfebaea46 0x21f01ba2 0x709ec277
          0xd667d60f 0x4fcba647 0xcc8e5485 0xa0c779f9) := by
  decide!

theorem chunk_019 :
    iter_fast KW_a 125
      (Vars.mk 0x36cc9e9d 0xfebaea46 0x21f01ba2 0x709ec277
        0xd667d60f 0x4fcba647 0xcc8e5485 0xa0c779f9)
      = (Vars.mk 0x93d8a61e 0x34df5a2a 0xdeae1536 0x96cc3bed
          0x98275faf 0x7f1fe596 0x85f9b310 0x5dd31783) := by
  decide!

theorem chunk_020 :
    iter_fast KW_a 125
      (Vars.mk 0x93d8a61e 0x34df5a2a 0xdeae1536 0x96cc3bed
        0x98275faf 0x7f1fe596 0x85f9b310 0x5dd31783)
      = (Vars.mk 0xb57f28ca 0x70626fdc 0x5a761793 0xf7f2a340
          0x10f11880 0x9c8feb84 0x88b0883f 0x15d80e70) := by
  decide!

theorem chunk_021 :
    iter_fast KW_a 125
      (Vars.mk 0xb57f28ca 0x70626fdc 0x5a761793 0xf7f2a340
        0x10f11880 0x9c8feb84 0x88b0883f 0x15d80e70)
      = (Vars.mk 0xa3fef6bc 0x3087a2b5 0xdf5fe24c 0xb72ccb0f
          0xd97c608c 0x54bb7e67 0x5330cd72 0xaf398397) := by
  decide!

theorem chunk_022 :
    iter_fast KW_a 125
      (Vars.mk 0xa3fef6bc 0x3087a2b5 0xdf5fe24c 0xb72ccb0f
        0xd97c608c 0x54bb7e67 0x5330cd72 0xaf398397)
      = (Vars.mk 0x283763e1 0xcfd363db 0xc94b360d 0x44df5cbb
          0xeef89947 0x4e3afcaa 0x1412bedd 0x4a21263a) := by
  decide!

theorem chunk_023 :
    iter_fast KW_a 125
      (Vars.mk 0x283763e1 0xcfd363db 0xc94b360d 0x44df5cbb
        0xeef89947 0x4e3afcaa 0x1412bedd 0x4a21263a)
      = (Vars.mk 0xdc2accad 0xc06ed6a7 0x7271d7ec 0x451a7d62
          0x76f67d8e 0xe86c0c15 0x3fce605a 0xe39cad84) := by
  decide!

theorem chunk_024 :
    iter_fast KW_a 125
      (Vars.mk 0xdc2accad 0xc06ed6a7 0x7271d7ec 0x451a7d62
        0x76f67d8e 0xe86c0c15 0x3fce605a 0xe39cad84)
      = (Vars.mk 0x12e49657 0xfb99a686 0x128ef21f 0x03d22ab7
          0x4563f135 0x6bc1bcce 0x993e6b6a 0x87b4fc39) := by
  decide!

theorem chunk_025 :
    iter_fast KW_a 125
      (Vars.mk 0x12e49657 0xfb99a686 0x128ef21f 0x03d22ab7
        0x4563f135 0x6bc1bcce 0x993e6b6a 0x87b4fc39)
      = (Vars.mk 0x5aa4cbef 0x0ae80dda 0x4200a250 0x7be3fa45
          0x0a891bb4 0xe7326750 0x4b0e3db4 0x6656e34c) := by
  decide!

theorem chunk_026 :
    iter_fast KW_a 125
      (Vars.mk 0x5aa4cbef 0x0ae80dda 0x4200a250 0x7be3fa45
        0x0a891bb4 0xe7326750 0x4b0e3db4 0x6656e34c)
      = (Vars.mk 0x74cd63c9 0xee98e129 0xa0f168bd 0x0ce7f52d
          0xd679cb93 0x10bf4b48 0x56d8efbc 0xdd6e18a4) := by
  decide!

theorem chunk_027 :
    iter_fast KW_a 125
      (Vars.mk 0x74cd63c9 0xee98e129 0xa0f168bd 0x0ce7f52d
        0xd679cb93 0x10bf4b48 0x56d8efbc 0xdd6e18a4)
      = (Vars.mk 0xb53aaf01 0xafcef3b5 0xea8f9e0e 0xc9b53d5f
          0x8e734dab 0x29060c96 0xedc06048 0x983b113a) := by
  decide!

theorem chunk_028 :
    iter_fast KW_a 125
      (Vars.mk 0xb53aaf01 0xafcef3b5 0xea8f9e0e 0xc9b53d5f
        0x8e734dab 0x29060c96 0xedc06048 0x983b113a)
      = (Vars.mk 0x0f1556ab 0xb2e44628 0x2e60c1c4 0x0be2df77
          0xbe2ff996 0x9acd4548 0x681c9d9c 0x49d415c3) := by
  decide!

theorem chunk_029 :
    iter_fast KW_a 125
      (Vars.mk 0x0f1556ab 0xb2e44628 0x2e60c1c4 0x0be2df77
        0xbe2ff996 0x9acd4548 0x681c9d9c 0x49d415c3)
      = (Vars.mk 0xcdbd4c85 0x76c2d85c 0xf53c6801 0xfac39eb0
          0x4d991b32 0x89f57ffb 0xaab2d0b2 0x18a31fa1) := by
  decide!

theorem chunk_030 :
    iter_fast KW_a 125
      (Vars.mk 0xcdbd4c85 0x76c2d85c 0xf53c6801 0xfac39eb0
        0x4d991b32 0x89f57ffb 0xaab2d0b2 0x18a31fa1)
      = (Vars.mk 0x0f10b4e8 0x3e4019cd 0xbf373098 0x17c5fbff
          0x38135cd1 0x9e73e94f 0x24cb5255 0x27d6ff82) := by
  decide!

theorem chunk_031 :
    iter_fast KW_a 125
      (Vars.mk 0x0f10b4e8 0x3e4019cd 0xbf373098 0x17c5fbff
        0x38135cd1 0x9e73e94f 0x24cb5255 0x27d6ff82)
      = (Vars.mk 0xad35a0c1 0x506dd989 0x61be2175 0x3d867f3d
          0xf3a4a9a9 0x32562eff 0x0881daaa 0x6ce5088f) := by
  decide!

theorem chunk_032 :
    iter_fast KW_a 125
      (Vars.mk 0xad35a0c1 0x506dd989 0x61be2175 0x3d867f3d
        0xf3a4a9a9 0x32562eff 0x0881daaa 0x6ce5088f)
      = (Vars.mk 0x8bf9729f 0x473b76d3 0x43455eb0 0xca9c39ac
          0xc488f460 0x4ba10bb5 0xb6e6a185 0xf3e6d901) := by
  decide!

theorem chunk_033 :
    iter_fast KW_a 125
      (Vars.mk 0x8bf9729f 0x473b76d3 0x43455eb0 0xca9c39ac
        0xc488f460 0x4ba10bb5 0xb6e6a185 0xf3e6d901)
      = (Vars.mk 0xc5c3bde6 0xbe152132 0xb89d1fa6 0x8f3e7de3
          0xbda4aac7 0xcb0305cc 0x1b7b1ef2 0x5802af02) := by
  decide!

theorem chunk_034 :
    iter_fast KW_a 125
      (Vars.mk 0xc5c3bde6 0xbe152132 0xb89d1fa6 0x8f3e7de3
        0xbda4aac7 0xcb0305cc 0x1b7b1ef2 0x5802af02)
      = (Vars.mk 0x0182192e 0x563358d8 0x015a0789 0xb165f85f
          0x1b92dd85 0xe00b75bb 0x5de9b2be 0xf3424d8f) := by
  decide!

theorem chunk_035 :
    iter_fast KW_a 125
      (Vars.mk 0x0182192e 0x563358d8 0x015a0789 0xb165f85f
        0x1b92dd85 0xe00b75bb 0x5de9b2be 0xf3424d8f)
      = (Vars.mk 0xa282732b 0x0e9a29f4 0xe405c72d 0x92029351
          0x994d7432 0xdc8d28bc 0x1d2b02f2 0xece8ae48) := by
  decide!

theorem chunk_036 :
    iter_fast KW_a 125
      (Vars.mk 0xa282732b 0x0e9a29f4 0xe405c72d 0x92029351
        0x994d7432 0xdc8d28bc 0x1d2b02f2 0xece8ae48)
      = (Vars.mk 0x72ea276b 0x2ba224bb 0x435f196f 0x92245be5
          0xd5ce26a8 0xd24aea48 0x489afd21 0xa0caa700) := by
  decide!

theorem chunk_037 :
    iter_fast KW_a 125
      (Vars.mk 0x72ea276b 0x2ba224bb 0x435f196f 0x92245be5
        0xd5ce26a8 0xd24aea48 0x489afd21 0xa0caa700)
      = (Vars.mk 0x597d10dc 0x861e8ca8 0x7986a151 0x1300537c
          0x05032af0 0xcd298bc2 0x2095d89e 0x0306cbb1) := by
  decide!

theorem chunk_038 :
    iter_fast KW_a 125
      (Vars.mk 0x597d10dc 0x861e8ca8 0x7986a151 0x1300537c
        0x05032af0 0xcd298bc2 0x2095d89e 0x0306cbb1)
      = (Vars.mk 0xdc348004 0x69347383 0xd653bf0c 0x25ba2286
          0xee7437bc 0xa8dce91e 0x9a2bff74 0x0f9ee626) := by
  decide!

theorem chunk_039 :
    iter_fast KW_a 125
      (Vars.mk 0xdc348004 0x69347383 0xd653bf0c 0x25ba2286
        0xee7437bc 0xa8dce91e 0x9a2bff74 0x0f9ee626)
      = (Vars.mk 0xf47170d2 0x07b92295 0x2d2fddc7 0xa76f6b5f
          0xaf9b0b31 0xf5e26529 0xd6098c19 0xa09a6b99) := by
  decide!

theorem chunk_040 :
    iter_fast KW_a 125
      (Vars.mk 0xf47170d2 0x07b92295 0x2d2fddc7 0xa76f6b5f
        0xaf9b0b31 0xf5e26529 0xd6098c19 0xa09a6b99)
      = (Vars.mk 0xf991f820 0xad476966 0xe7291d0f 0x40bd72cd
          0x9cdb01c0 0x02eeb3a4 0xc867aed3 0x808abda8) := by
  decide!

theorem chunk_041 :
    iter_fast KW_a 125
      (Vars.mk 0xf991f820 0xad476966 0xe7291d0f 0x40bd72cd
        0x9cdb01c0 0x02eeb3a4 0xc867aed3 0x808abda8)
      = (Vars.mk 0x435529cc 0xee650b48 0x22646d9f 0xdcdee380
          0x8e047bb0 0x16ee2d37 0x0bef74b8 0x393fc20c) := by
  decide!

theorem chunk_042 :
    iter_fast KW_a 125
      (Vars.mk 0x435529cc 0xee650b48 0x22646d9f 0xdcdee380
        0x8e047bb0 0x16ee2d37 0x0bef74b8 0x393fc20c)
      = (Vars.mk 0x7cfbc3c8 0xc1182784 0x0c8f2395 0x3d30502b
          0x70af31f7 0xf6450454 0xa8ce4fbb 0xf8c3368d) := by
  decide!

theorem chunk_043 :
    iter_fast KW_a 125
      (Vars.mk 0x7cfbc3c8 0xc1182784 0x0c8f2395 0x3d30502b
        0x70af31f7 0xf6450454 0xa8ce4fbb 0xf8c3368d)
      = (Vars.mk 0x4cbb71da 0x46a8f5a9 0x8b64bd6c 0xd2726f9e
          0xf17131ce 0x7b279840 0x8ca63f76 0xa82441a8) := by
  decide!

theorem chunk_044 :
    iter_fast KW_a 125
      (Vars.mk 0x4cbb71da 0x46a8f5a9 0x8b64bd6c 0xd2726f9e
        0xf17131ce 0x7b279840 0x8ca63f76 0xa82441a8)
      = (Vars.mk 0x0edba237 0x05cc53ef 0x9c794153 0x32d2bd3a
          0xaea8e536 0xcbf4f242 0x1add31bf 0xac5515f8) := by
  decide!

theorem chunk_045 :
    iter_fast KW_a 125
      (Vars.mk 0x0edba237 0x05cc53ef 0x9c794153 0x32d2bd3a
        0xaea8e536 0xcbf4f242 0x1add31bf 0xac5515f8)
      = (Vars.mk 0x4ac13575 0x34726777 0xe4d9a30b 0xa90f5dc8
          0x3f5bb8aa 0x6b9f7b00 0x976725d4 0x69e9c016) := by
  decide!

theorem chunk_046 :
    iter_fast KW_a 125
      (Vars.mk 0x4ac13575 0x34726777 0xe4d9a30b 0xa90f5dc8
        0x3f5bb8aa 0x6b9f7b00 0x976725d4 0x69e9c016)
      = (Vars.mk 0x84011757 0x90f7447b 0x594ac89e 0x907ff276
          0xc83cacec 0xc8fe6e79 0x17b75d30 0xfdc45ecb) := by
  decide!

theorem chunk_047 :
    iter_fast KW_a 125
      (Vars.mk 0x84011757 0x90f7447b 0x594ac89e 0x907ff276
        0xc83cacec 0xc8fe6e79 0x17b75d30 0xfdc45ecb)
      = (Vars.mk 0xfd98232d 0xa7430b2e 0xe1260472 0x9ffb305b
          0x98c5ee68 0xc276c1df 0x62770d03 0x0cd0bd8d) := by
  decide!

theorem chunk_048 :
    iter_fast KW_a 125
      (Vars.mk 0xfd98232d 0xa7430b2e 0xe1260472 0x9ffb305b
        0x98c5ee68 0xc276c1df 0x62770d03 0x0cd0bd8d)
      = (Vars.mk 0x75387db6 0x723796c5 0x39b2d4ce 0x05864878
          0x5f6c5cc9 0x318fc15b 0x01ff245d 0xfe9ae7bb) := by
  decide!

theorem chunk_049 :
    iter_fast KW_a 125
      (Vars.mk 0x75387db6 0x723796c5 0x39b2d4ce 0x05864878
        0x5f6c5cc9 0x318fc15b 0x01ff245d 0xfe9ae7bb)
      = (Vars.mk 0xeb7abd5f 0x468d7843 0x1f385e18 0x4054a165
          0xd2771833 0x7540373c 0xf5296b39 0x685127ec) := by
  decide!

theorem chunk_050 :
    iter_fast KW_a 125
      (Vars.mk 0xeb7abd5f 0x468d7843 0x1f385e18 0x4054a165
        0xd2771833 0x7540373c 0xf5296b39 0x685127ec)
      = (Vars.mk 0x383682b5 0x5fd3806b 0xfe62a806 0xe5db930c
          0x5372251b 0x16d92c56 0xe35286a1 0xdf3cc9ad) := by
  decide!

theorem chunk_051 :
    iter_fast KW_a 125
      (Vars.mk 0x383682b5 0x5fd3806b 0xfe62a806 0xe5db930c
        0x5372251b 0x16d92c56 0xe35286a1 0xdf3cc9ad)
      = (Vars.mk 0x9a6d0cf8 0xd03bbd26 0x0a97d788 0x1e1a5fb0
          0x89072a5e 0xc9895b52 0x9e118add 0xd86d39fe) := by
  decide!

theorem chunk_052 :
    iter_fast KW_a 125
      (Vars.mk 0x9a6d0cf8 0xd03bbd26 0x0a97d788 0x1e1a5fb0
        0x89072a5e 0xc9895b52 0x9e118add 0xd86d39fe)
      = (Vars.mk 0x28b8179d 0xc4b7f230 0xec2994a4 0xc9d922d1
          0x4b208e99 0x972201b1 0xad9de955 0xab4ef63e) := by
  decide!

theorem chunk_053 :
    iter_fast KW_a 125
      (Vars.mk 0x28b8179d 0xc4b7f230 0xec2994a4 0xc9d922d1
        0x4b208e99 0x972201b1 0xad9de955 0xab4ef63e)
      = (Vars.mk 0x8ffe1f56 0x0352e1fa 0xd1884344 0xab56ce15
          0x75afc63a 0x8c1a1d6a 0xffb646a2 0xc94a7676) := by
  decide!

theorem chunk_054 :
    iter_fast KW_a 125
      (Vars.mk 0x8ffe1f56 0x0352e1fa 0xd1884344 0xab56ce15
        0x75afc63a 0x8c1a1d6a 0xffb646a2 0xc94a7676)
      = (Vars.mk 0x0585eaef 0x798d238a 0xa7a15758 0x5360a3a4
          0x160c1004 0xcb9f4ccf 0x0bba0ebe 0xf169eb05) := by
  decide!

theorem chunk_055 :
    iter_fast KW_a 125
      (Vars.mk 0x0585eaef 0x798d238a 0xa7a15758 0x5360a3a4
        0x160c1004 0xcb9f4ccf 0x0bba0ebe 0xf169eb05)
      = (Vars.mk 0xac126f44 0x9af86bba 0x837bf67b 0xe5cf25b3
          0x615ab7aa 0xbd9bb162 0x884a54bd 0x21969c03) := by
  decide!

theorem chunk_056 :
    iter_fast KW_a 125
      (Vars.mk 0xac126f44 0x9af86bba 0x837bf67b 0xe5cf25b3
        0x615ab7aa 0xbd9bb162 0x884a54bd 0x21969c03)
      = (Vars.mk 0x71880fc7 0xa03f00c2 0xaaf0cbfb 0x6a017472
          0x34588c70 0x528a796d 0xaf99c248 0x64b4e287) := by
  decide!

theorem chunk_057 :
    iter_fast KW_a 125
      (Vars.mk 0x71880fc7 0xa03f00c2 0xaaf0cbfb 0x6a017472
        0x34588c70 0x528a796d 0xaf99c248 0x64b4e287)
      = (Vars.mk 0xa3e1ee83 0x25b73b49 0xd11fef0e 0xcb922372
          0xa66d2864 0x1c4f833f 0xf4f4a750 0x9a2642fe) := by
  decide!

theorem chunk_058 :
    iter_fast KW_a 125
      (Vars.mk 0xa3e1ee83 0x25b73b49 0xd11fef0e 0xcb922372
        0xa66d2864 0x1c4f833f 0xf4f4a750 0x9a2642fe)
      = (Vars.mk 0x9e865846 0x81edf538 0x5afab326 0x696e1ac4
          0x970510d1 0x48874d20 0xc0bbc89b 0x65c544e3) := by
  decide!

theorem chunk_059 :
    iter_fast KW_a 125
      (Vars.mk 0x9e865846 0x81edf538 0x5afab326 0x696e1ac4
        0x970510d1 0x48874d20 0xc0bbc89b 0x65c544e3)
      = (Vars.mk 0xd9335a29 0xc5c783a1 0xd8b59b1f 0xc1c396ce
          0x50a47e31 0x21e69d78 0xe84dd790 0x7c4538f0) := by
  decide!

theorem chunk_060 :
    iter_fast KW_a 125
      (Vars.mk 0xd9335a29 0xc5c783a1 0xd8b59b1f 0xc1c396ce
        0x50a47e31 0x21e69d78 0xe84dd790 0x7c4538f0)
      = (Vars.mk 0x53e7587c 0x5f1cecf1 0x69a87670 0xf73aca84
          0x451aa9c8 0x1241c36e 0x12947fa1 0xa868754d) := by
  decide!

theorem chunk_061 :
    iter_fast KW_a 125
      (Vars.mk 0x53e7587c 0x5f1cecf1 0x69a87670 0xf73aca84
        0x451aa9c8 0x1241c36e 0x12947fa1 0xa868754d)
      = (Vars.mk 0x90815a92 0xd3b3c092 0x6607a94e 0x05966485
          0x9effced5 0xfd5d609d 0x25d98d56 0xe0203f47) := by
  decide!

theorem chunk_062 :
    iter_fast KW_a 125
      (Vars.mk 0x90815a92 0xd3b3c092 0x6607a94e 0x05966485
        0x9effced5 0xfd5d609d 0x25d98d56 0xe0203f47)
      = (Vars.mk 0x32167c85 0x61edec53 0x974e0637 0xee33d402
          0x7cbb43fa 0xd8cc479c 0x0c7bd009 0xcc41b258) := by
  decide!

theorem chunk_063 :
    iter_fast KW_a 125
      (Vars.mk 0x32167c85 0x61edec53 0x974e0637 0xee33d402
        0x7cbb43fa 0xd8cc479c 0x0c7bd009 0xcc41b258)
      = (Vars.mk 0x15caa887 0xf767e784 0x4ba2d1e6 0xac6d278b
          0x2904c542 0xeb856f27 0x1352163e 0x177bfbd4) := by
  decide!

theorem chunk_064 :
    iter_fast KW_a 125
      (Vars.mk 0x15caa887 0xf767e784 0x4ba2d1e6 0xac6d278b
        0x2904c542 0xeb856f27 0x1352163e 0x177bfbd4)
      = (Vars.mk 0xa524745c 0xdd9fe98c 0x5502d26e 0x588505d4
          0x8ea8d2f8 0xa2babd19 0x7b4abf01 0x38f91bf6) := by
  decide!

theorem chunk_065 :
    iter_fast KW_a 125
      (Vars.mk 0xa524745c 0xdd9fe98c 0x5502d26e 0x588505d4
        0x8ea8d2f8 0xa2babd19 0x7b4abf01 0x38f91bf6)
      = (Vars.mk 0x8704fe54 0x274137a7 0x3c8c1884 0x4b089f0b
          0xce1480cb 0xc34faee2 0xa7e1e0fb 0x1005a2f3) := by
  decide!

theorem chunk_066 :
    iter_fast KW_a 125
      (Vars.mk 0x8704fe54 0x274137a7 0x3c8c1884 0x4b089f0b
        0xce1480cb 0xc34faee2 0xa7e1e0fb 0x1005a2f3)
      = (Vars.mk 0x4463e2c8 0x8d61d147 0xf3ae97a0 0x210f669b
          0x9cbe449f 0x92c61e32 0x8e8f7859 0xdd967f16) := by
  decide!

theorem chunk_067 :
    iter_fast KW_a 125
      (Vars.mk 0x4463e2c8 0x8d61d147 0xf3ae97a0 0x210f669b
        0x9cbe449f 0x92c61e32 0x8e8f7859 0xdd967f16)
      = (Vars.mk 0x12d96d2f 0x70f13905 0x5706d876 0x7aab8c55
          0x0fdd4f6f 0x9be5293c 0xc1327c34 0x1ebef45d) := by
  decide!

theorem chunk_068 :
    iter_fast KW_a 125
      (Vars.mk 0x12d96d2f 0x70f13905 0x5706d876 0x7aab8c55
        0x0fdd4f6f 0x9be5293c 0xc1327c34 0x1ebef45d)
      = (Vars.mk 0x0f53532d 0xc9232a49 0x22d694c4 0x6353b01b
          0x715ad5ff 0x33741fe0 0xf1e70bd9 0x4148694c) := by
  decide!

theorem chunk_069 :
    iter_fast KW_a 125
      (Vars.mk 0x0f53532d 0xc9232a49 0x22d694c4 0x6353b01b
        0x715ad5ff 0x33741fe0 0xf1e70bd9 0x4148694c)
      = (Vars.mk 0x76b1678e 0x89a47061 0xee0d5f0f 0x5a05a4e7
          0x3a1f51f5 0x75377d9c 0xa070c9b2 0x20c7274e) := by
  decide!

theorem chunk_070 :
    iter_fast KW_a 125
      (Vars.mk 0x76b1678e 0x89a47061 0xee0d5f0f 0x5a05a4e7
        0x3a1f51f5 0x75377d9c 0xa070c9b2 0x20c7274e)
      = (Vars.mk 0x63f43893 0x81487c1b 0x5bc43eb6 0xbc0e3d04
          0xd15cfe4b 0x9d7df0f9 0x425d686f 0x1964d123) := by
  decide!

theorem chunk_071 :
    iter_fast KW_a 125
      (Vars.mk 0x63f43893 0x81487c1b 0x5bc43eb6 0xbc0e3d04
        0xd15cfe4b 0x9d7df0f9 0x425d686f 0x1964d123)
      = (Vars.mk 0xe3968722 0x28297668 0x92455b1f 0x107aabad
          0xcc6bbb39 0x6a298b50 0xe75f5d5b 0xc208cb65) := by
  decide!

theorem chunk_072 :
    iter_fast KW_a 125
      (Vars.mk 0xe3968722 0x28297668 0x92455b1f 0x107aabad
        0xcc6bbb39 0x6a298b50 0xe75f5d5b 0xc208cb65)
      = (Vars.mk 0x54109acf 0x0616ca4e 0x39f96024 0x3cc1a25c
          0x3e027a95 0xb2cda2b2 0xd31e2d54 0x7cd77877) := by
  decide!

theorem chunk_073 :
    iter_fast KW_a 125
      (Vars.mk 0x54109acf 0x0616ca4e 0x39f96024 0x3cc1a25c
        0x3e027a95 0xb2cda2b2 0xd31e2d54 0x7cd77877)
      = (Vars.mk 0xaf5d5def 0x67e9003b 0x2a062255 0xce5c0fd8
          0x168e8f85 0x3db79355 0x2f966a60 0xda9665f7) := by
  decide!

theorem chunk_074 :
    iter_fast KW_a 125
      (Vars.mk 0xaf5d5def 0x67e9003b 0x2a062255 0xce5c0fd8
        0x168e8f85 0x3db79355 0x2f966a60 0xda9665f7)
      = (Vars.mk 0x84dd3cfe 0x4a616cae 0xba883981 0x2fbe58b4
          0xda6a1199 0x7f4fea84 0x62af7121 0xf105db1e) := by
  decide!

theorem chunk_075 :
    iter_fast KW_a 125
      (Vars.mk 0x84dd3cfe 0x4a616cae 0xba883981 0x2fbe58b4
        0xda6a1199 0x7f4fea84 0x62af7121 0xf105db1e)
      = (Vars.mk 0x77161eaa 0xa8a72c2a 0x79a503e9 0x92637e87
          0x988a623c 0xa025223f 0x87aedb74 0xed5fe67c) := by
  decide!

theorem chunk_076 :
    iter_fast KW_a 125
      (Vars.mk 0x77161eaa 0xa8a72c2a 0x79a503e9 0x92637e87
        0x988a623c 0xa025223f 0x87aedb74 0xed5fe67c)
      = (Vars.mk 0x32315183 0x802af6d0 0xe2231065 0xadf30208
          0xc82af97f 0x27b1cb94 0xbbf08b05 0x07a99668) := by
  decide!

theorem chunk_077 :
    iter_fast KW_a 125
      (Vars.mk 0x32315183 0x802af6d0 0xe2231065 0xadf30208
        0xc82af97f 0x27b1cb94 0xbbf08b05 0x07a99668)
      = (Vars.mk 0x138ab787 0x3258507e 0xc254e03d 0xa7499867
          0x5909a702 0xbda9caf3 0x0419fbf4 0xb67a341a) := by
  decide!

theorem chunk_078 :
    iter_fast KW_a 125
      (Vars.mk 0x138ab787 0x3258507e 0xc254e03d 0xa7499867
        0x5909a702 0xbda9caf3 0x0419fbf4 0xb67a341a)
      = (Vars.mk 0x7fc80ac1 0x574e4ae0 0xec2383c5 0xf34ef28d
          0x436ed940 0x878b9032 0xfe5d0258 0xc90f4369) := by
  decide!

theorem chunk_079 :
    iter_fast KW_a 125
      (Vars.mk 0x7fc80ac1 0x574e4ae0 0xec2383c5 0xf34ef28d
        0x436ed940 0x878b9032 0xfe5d0258 0xc90f4369)
      = (Vars.mk 0x585b0343 0xb607204c 0x843cdd1c 0x39095b23
          0xc3caca1c 0x5b51e1f8 0xf4d096e4 0xaeb47314) := by
  decide!

theorem chunk_080 :
    iter_fast KW_a 125
      (Vars.mk 0x585b0343 0xb607204c 0x843cdd1c 0x39095b23
        0xc3caca1c 0x5b51e1f8 0xf4d096e4 0xaeb47314)
      = (Vars.mk 0xa6c26e93 0xf1fc75da 0x3be2f5aa 0xdbb3950c
          0x83062260 0x663069f5 0x630f1322 0x60285e00) := by
  decide!

theorem chunk_081 :
    iter_fast KW_a 125
      (Vars.mk 0xa6c26e93 0xf1fc75da 0x3be2f5aa 0xdbb3950c
        0x83062260 0x663069f5 0x630f1322 0x60285e00)
      = (Vars.mk 0x89dff545 0x002a2fb8 0x7926537c 0x97a36ee9
          0x32167436 0xc7c023c3 0xac6ebb52 0x3ec06e03) := by
  decide!

theorem chunk_082 :
    iter_fast KW_a 125
      (Vars.mk 0x89dff545 0x002a2fb8 0x7926537c 0x97a36ee9
        0x32167436 0xc7c023c3 0xac6ebb52 0x3ec06e03)
      = (Vars.mk 0xba6140dd 0x4de8c124 0xd1bfeaaa 0xb04512a4
          0x26726dee 0x42b80861 0x7317e2ad 0x141059d9) := by
  decide!

theorem chunk_083 :
    iter_fast KW_a 125
      (Vars.mk 0xba6140dd 0x4de8c124 0xd1bfeaaa 0xb04512a4
        0x26726dee 0x42b80861 0x7317e2ad 0x141059d9)
      = (Vars.mk 0x14ef748e 0x187b9d53 0xc8e7ebfb 0xe4de9367
          0x2a240619 0x38e270c1 0xadda55e8 0x9bbcb6ee) := by
  decide!

theorem chunk_084 :
    iter_fast KW_a 125
      (Vars.mk 0x14ef748e 0x187b9d53 0xc8e7ebfb 0xe4de9367
        0x2a240619 0x38e270c1 0xadda55e8 0x9bbcb6ee)
      = (Vars.mk 0x9f41892f 0xd04d7449 0x0ef34552 0x1d91d4b0
          0xd1f71ef0 0xe9073500 0x158e537f 0x32099672) := by
  decide!

theorem chunk_085 :
    iter_fast KW_a 125
      (Vars.mk 0x9f41892f 0xd04d7449 0x0ef34552 0x1d91d4b0
        0xd1f71ef0 0xe9073500 0x158e537f 0x32099672)
      = (Vars.mk 0x8c436e17 0xad99c3bb 0xb59e593c 0x2a8847bd
          0xee101ba3 0x2a76d891 0x98905343 0x1adb88af) := by
  decide!

theorem chunk_086 :
    iter_fast KW_a 125
      (Vars.mk 0x8c436e17 0xad99c3bb 0xb59e593c 0x2a8847bd
        0xee101ba3 0x2a76d891 0x98905343 0x1adb88af)
      = (Vars.mk 0x97d74960 0xb1e19485 0xc5e1b97e 0x4644470c
          0xd717fb28 0x44ed9384 0xb2bbce05 0x416658ce) := by
  decide!

theorem chunk_087 :
    iter_fast KW_a 125
      (Vars.mk 0x97d74960 0xb1e19485 0xc5e1b97e 0x4644470c
        0xd717fb28 0x44ed9384 0xb2bbce05 0x416658ce)
      = (Vars.mk 0xf42b9c71 0xa2c777ed 0x15f26aab 0x886ce050
          0x8a2a3288 0xfd2422ec 0x415eb89c 0x86b667aa) := by
  decide!

theorem chunk_088 :
    iter_fast KW_a 125
      (Vars.mk 0xf42b9c71 0xa2c777ed 0x15f26aab 0x886ce050
        0x8a2a3288 0xfd2422ec 0x415eb89c 0x86b667aa)
      = (Vars.mk 0x1784af87 0xb6c5385a 0xe5d3d4cb 0x5c46b153
          0x35af4cd8 0x3d381bfc 0x5cd15435 0xd9d8eaec) := by
  decide!

theorem chunk_089 :
    iter_fast KW_a 125
      (Vars.mk 0x1784af87 0xb6c5385a 0xe5d3d4cb 0x5c46b153
        0x35af4cd8 0x3d381bfc 0x5cd15435 0xd9d8eaec)
      = (Vars.mk 0x0b130b07 0x665a6cbd 0x46eb4316 0x0d123d5d
          0x40f32141 0xbb8e1fcc 0x27be50be 0xa48e31a9) := by
  decide!

theorem chunk_090 :
    iter_fast KW_a 125
      (Vars.mk 0x0b130b07 0x665a6cbd 0x46eb4316 0x0d123d5d
        0x40f32141 0xbb8e1fcc 0x27be50be 0xa48e31a9)
      = (Vars.mk 0x46b63b09 0x049fc5a2 0xd1ccdc0a 0xbc91f711
          0x3b1d4fcc 0x0d2d823b 0x5bf9f37f 0xb84c812f) := by
  decide!

theorem chunk_091 :
    iter_fast KW_a 125
      (Vars.mk 0x46b63b09 0x049fc5a2 0xd1ccdc0a 0xbc91f711
        0x3b1d4fcc 0x0d2d823b 0x5bf9f37f 0xb84c812f)
      = (Vars.mk 0x2aeb1d42 0x189be2b5 0x3acdc8ce 0x2cc1b83b
          0xa142e127 0xe86ff871 0x3702043f 0x8d8a8f02) := by
  decide!

theorem chunk_092 :
    iter_fast KW_a 125
      (Vars.mk 0x2aeb1d42 0x189be2b5 0x3acdc8ce 0x2cc1b83b
        0xa142e127 0xe86ff871 0x3702043f 0x8d8a8f02)
      = (Vars.mk 0x98840f23 0x333edda4 0x56d35501 0xd466e882
          0xd8ef4524 0x49301aa3 0x9ca02369 0x10e049fd) := by
  decide!

theorem chunk_093 :
    iter_fast KW_a 125
      (Vars.mk 0x98840f23 0x333edda4 0x56d35501 0xd466e882
        0xd8ef4524 0x49301aa3 0x9ca02369 0x10e049fd)
      = (Vars.mk 0x897196a2 0x87ebe8ee 0x3be78bd6 0x26d43c15
          0x9e00cdf8 0xb1c8987e 0xa8a03b76 0x7cefb982) := by
  decide!

theorem chunk_094 :
    iter_fast KW_a 125
      (Vars.mk 0x897196a2 0x87ebe8ee 0x3be78bd6 0x26d43c15
        0x9e00cdf8 0xb1c8987e 0xa8a03b76 0x7cefb982)
      = (Vars.mk 0xcbe1ebfb 0xdfb71786 0xad762eea 0xc10167a3
          0x86ca3110 0xaea18ca8 0xbe60b6a3 0x88dfc519) := by
  decide!

theorem chunk_095 :
    iter_fast KW_a 125
      (Vars.mk 0xcbe1ebfb 0xdfb71786 0xad762eea 0xc10167a3
        0x86ca3110 0xaea18ca8 0xbe60b6a3 0x88dfc519)
      = (Vars.mk 0x568d5fe1 0x13d9120d 0xf229c349 0x1694475b
          0x0ce2850d 0x9ffbc00c 0x62696438 0x1d8fad26) := by
  decide!

theorem chunk_096 :
    iter_fast KW_a 125
      (Vars.mk 0x568d5fe1 0x13d9120d 0xf229c349 0x1694475b
        0x0ce2850d 0x9ffbc00c 0x62696438 0x1d8fad26)
      = (Vars.mk 0x1c069d4b 0xb5526ad0 0x19d98fef 0x5ad005a1
          0x5dde4021 0xed6fe3b9 0xca304ab6 0xb5e2b6e2) := by
  decide!

theorem chunk_097 :
    iter_fast KW_a 125
      (Vars.mk 0x1c069d4b 0xb5526ad0 0x19d98fef 0x5ad005a1
        0x5dde4021 0xed6fe3b9 0xca304ab6 0xb5e2b6e2)
      = (Vars.mk 0x4e191330 0xdbb1ff02 0x8dffb7ba 0xc783f810
          0x7e8563c0 0x28ec2244 0x9dc0c617 0x4b927936) := by
  decide!

theorem chunk_098 :
    iter_fast KW_a 125
      (Vars.mk 0x4e191330 0xdbb1ff02 0x8dffb7ba 0xc783f810
        0x7e8563c0 0x28ec2244 0x9dc0c617 0x4b927936)
      = (Vars.mk 0x5624f7f9 0xccdbe672 0xf515b608 0x7030748b
          0x3426d338 0x42df092b 0xea013cae 0xc491f599) := by
  decide!

theorem chunk_099 :
    iter_fast KW_a 125
      (Vars.mk 0x5624f7f9 0xccdbe672 0xf515b608 0x7030748b
        0x3426d338 0x42df092b 0xea013cae 0xc491f599)
      = (Vars.mk 0x5b11f557 0x266263ba 0x0838a610 0x7157225c
          0x57968c1f 0x0c97e195 0x9b84c6b1 0xda69c93e) := by
  decide!

theorem chunk_100 :
    iter_fast KW_a 125
      (Vars.mk 0x5b11f557 0x266263ba 0x0838a610 0x7157225c
        0x57968c1f 0x0c97e195 0x9b84c6b1 0xda69c93e)
      = (Vars.mk 0xc8250677 0xf50ae273 0x5a6917d1 0x893d1516
          0x770f0c5b 0x0d435138 0x31a1719e 0xfb8d69f0) := by
  decide!

theorem chunk_101 :
    iter_fast KW_a 125
      (Vars.mk 0xc8250677 0xf50ae273 0x5a6917d1 0x893d1516
        0x770f0c5b 0x0d435138 0x31a1719e 0xfb8d69f0)
      = (Vars.mk 0xe0262feb 0xaa49bf32 0x7fcc5fb8 0xbb7d7ef6
          0x3e510ffc 0x3f3f32e3 0x86f61ee6 0x84cd0a85) := by
  decide!

theorem chunk_102 :
    iter_fast KW_a 125
      (Vars.mk 0xe0262feb 0xaa49bf32 0x7fcc5fb8 0xbb7d7ef6
        0x3e510ffc 0x3f3f32e3 0x86f61ee6 0x84cd0a85)
      = (Vars.mk 0x04af2ea5 0x873b238c 0xb9c1df56 0xfe08562f
          0xdc0bd5b6 0x7d6d6a1d 0x3ff4e8dd 0x8d5f2c0b) := by
  decide!

theorem chunk_103 :
    iter_fast KW_a 125
      (Vars.mk 0x04af2ea5 0x873b238c 0xb9c1df56 0xfe08562f
        0xdc0bd5b6 0x7d6d6a1d 0x3ff4e8dd 0x8d5f2c0b)
      = (Vars.mk 0x72ec3611 0xaa86cf57 0x718745a0 0x3b7ba195
          0xfda120f8 0x7032ad95 0xeb2f5bd4 0xa213c00f) := by
  decide!

theorem chunk_104 :
    iter_fast KW_a 125
      (Vars.mk 0x72ec3611 0xaa86cf57 0x718745a0 0x3b7ba195
        0xfda120f8 0x7032ad95 0xeb2f5bd4 0xa213c00f)
      = (Vars.mk 0x6a3d1caf 0x863576f7 0x2898a8af 0x9de6caf2
          0x714f250b 0x9148699a 0x00f70730 0xcda293b8) := by
  decide!

theorem chunk_105 :
    iter_fast KW_a 125
      (Vars.mk 0x6a3d1caf 0x863576f7 0x2898a8af 0x9de6caf2
        0x714f250b 0x9148699a 0x00f70730 0xcda293b8)
      = (Vars.mk 0x7e04258d 0x0110570d 0x5e53f2e4 0xa0d069d9
          0x53984673 0xd6abf1c4 0x00cc6348 0xad16b194) := by
  decide!

theorem chunk_106 :
    iter_fast KW_a 125
      (Vars.mk 0x7e04258d 0x0110570d 0x5e53f2e4 0xa0d069d9
        0x53984673 0xd6abf1c4 0x00cc6348 0xad16b194)
      = (Vars.mk 0x671102ae 0x4e630afd 0x5c66c472 0x17fa9adc
          0x54f38dd5 0xa8a0aeb7 0x1816b6ca 0xce088b1c) := by
  decide!

theorem chunk_107 :
    iter_fast KW_a 125
      (Vars.mk 0x671102ae 0x4e630afd 0x5c66c472 0x17fa9adc
        0x54f38dd5 0xa8a0aeb7 0x1816b6ca 0xce088b1c)
      = (Vars.mk 0x998dda0b 0xf2ccc4db 0x48a3d11d 0x963a42db
          0x0eb9c9c5 0x9ecb8fba 0xb66cafdb 0x3eea8a0e) := by
  decide!

theorem chunk_108 :
    iter_fast KW_a 125
      (Vars.mk 0x998dda0b 0xf2ccc4db 0x48a3d11d 0x963a42db
        0x0eb9c9c5 0x9ecb8fba 0xb66cafdb 0x3eea8a0e)
      = (Vars.mk 0xd5aa58d3 0x9cc85a50 0xa6802931 0x83bbae43
          0x2636b54c 0xec5c8c07 0x33805253 0x55085131) := by
  decide!

theorem chunk_109 :
    iter_fast KW_a 125
      (Vars.mk 0xd5aa58d3 0x9cc85a50 0xa6802931 0x83bbae43
        0x2636b54c 0xec5c8c07 0x33805253 0x55085131)
      = (Vars.mk 0x5d8d7ccc 0x26fdf9ed 0xe636ae1f 0x665e9234
          0x0875c69b 0x8ce0e38f 0x785342a8 0xca880611) := by
  decide!

theorem chunk_110 :
    iter_fast KW_a 125
      (Vars.mk 0x5d8d7ccc 0x26fdf9ed 0xe636ae1f 0x665e9234
        0x0875c69b 0x8ce0e38f 0x785342a8 0xca880611)
      = (Vars.mk 0x37914016 0x9e518cf8 0xe1c6ccb0 0x97921fef
          0xcc98bfa3 0xe5380a50 0x7297e19e 0x76f05c33) := by
  decide!

theorem chunk_111 :
    iter_fast KW_a 125
      (Vars.mk 0x37914016 0x9e518cf8 0xe1c6ccb0 0x97921fef
        0xcc98bfa3 0xe5380a50 0x7297e19e 0x76f05c33)
      = (Vars.mk 0x8a63dce0 0x994e4571 0xc743a9b4 0xe7080a2f
          0xf40ebd01 0x320b05cf 0x491918ad 0x2d6c3a38) := by
  decide!

theorem chunk_112 :
    iter_fast KW_a 125
      (Vars.mk 0x8a63dce0 0x994e4571 0xc743a9b4 0xe7080a2f
        0xf40ebd01 0x320b05cf 0x491918ad 0x2d6c3a38)
      = (Vars.mk 0xed9523fc 0xa32a3550 0x217e1aae 0xb61edbb9
          0x6254149e 0x1ea2ef65 0x285e5574 0x9b265afa) := by
  decide!

theorem chunk_113 :
    iter_fast KW_a 125
      (Vars.mk 0xed9523fc 0xa32a3550 0x217e1aae 0xb61edbb9
        0x6254149e 0x1ea2ef65 0x285e5574 0x9b265afa)
      = (Vars.mk 0x72306c3e 0xa7f22682 0x545168eb 0x8e417823
          0x7b7ce234 0x7bf357fb 0xe686c183 0xc685c2eb) := by
  decide!

theorem chunk_114 :
    iter_fast KW_a 125
      (Vars.mk 0x72306c3e 0xa7f22682 0x545168eb 0x8e417823
        0x7b7ce234 0x7bf357fb 0xe686c183 0xc685c2eb)
      = (Vars.mk 0x751fc351 0x8a51fda8 0xeee2abea 0xedec4489
          0x4d3097d0 0x7f136d25 0x6c2ddaea 0xe0bcfa4b) := by
  decide!

theorem chunk_115 :
    iter_fast KW_a 125
      (Vars.mk 0x751fc351 0x8a51fda8 0xeee2abea 0xedec4489
        0x4d3097d0 0x7f136d25 0x6c2ddaea 0xe0bcfa4b)
      = (Vars.mk 0xf7957d0a 0x4a86f270 0x003aee7d 0x772dd029
          0xb317c608 0x6d419a2a 0xca97352a 0xc43b2704) := by
  decide!

theorem chunk_116 :
    iter_fast KW_a 125
      (Vars.mk 0xf7957d0a 0x4a86f270 0x003aee7d 0x772dd029
        0xb317c608 0x6d419a2a 0xca97352a 0xc43b2704)
      = (Vars.mk 0x6de0c7d0 0x7061ac16 0x616f3da9 0x96a5e781
          0xed5b886d 0x2063a732 0x5215a601 0xb09e2c2e) := by
  decide!

theorem chunk_117 :
    iter_fast KW_a 125
      (Vars.mk 0x6de0c7d0 0x7061ac16 0x616f3da9 0x96a5e781
        0xed5b886d 0x2063a732 0x5215a601 0xb09e2c2e)
      = (Vars.mk 0x6cc8a9de 0xbf98dddd 0x4b95cc93 0xc87245cf
          0xd59264bc 0xf9199519 0x111fb2e8 0x250d6b7c) := by
  decide!

theorem chunk_118 :
    iter_fast KW_a 125
      (Vars.mk 0x6cc8a9de 0xbf98dddd 0x4b95cc93 0xc87245cf
        0xd59264bc 0xf9199519 0x111fb2e8 0x250d6b7c)
      = (Vars.mk 0xe0cc719d 0xffbf08e0 0xa8a0cf1a 0x61556509
          0x5e219d28 0xb64268ef 0x8a7951ee 0x16fd2246) := by
  decide!

theorem chunk_119 :
    iter_fast KW_a 125
      (Vars.mk 0xe0cc719d 0xffbf08e0 0xa8a0cf1a 0x61556509
        0x5e219d28 0xb64268ef 0x8a7951ee 0x16fd2246)
      = (Vars.mk 0xc3ea7e7f 0x6e9cf791 0x9b7c7f6c 0x0a833173
          0x2a148aae 0x583b3c97 0xb2762854 0x38b57846) := by
  decide!

theorem chunk_120 :
    iter_fast KW_a 125
      (Vars.mk 0xc3ea7e7f 0x6e9cf791 0x9b7c7f6c 0x0a833173
        0x2a148aae 0x583b3c97 0xb2762854 0x38b57846)
      = (Vars.mk 0x21d63d9e 0x8583cafc 0x5a746b88 0xc6bf3a6a
          0x57c6d600 0xcd84f0f5 0xc51a5a51 0xa6af9ea7) := by
  decide!

theorem chunk_121 :
    iter_fast KW_a 125
      (Vars.mk 0x21d63d9e 0x8583cafc 0x5a746b88 0xc6bf3a6a
        0x57c6d600 0xcd84f0f5 0xc51a5a51 0xa6af9ea7)
      = (Vars.mk 0x62ea553d 0x918fc64b 0x897684fa 0x5a6dba83
          0xd3129ffe 0xdef6f1bb 0x21bff4f7 0x83f91599) := by
  decide!

theorem chunk_122 :
    iter_fast KW_a 125
      (Vars.mk 0x62ea553d 0x918fc64b 0x897684fa 0x5a6dba83
        0xd3129ffe 0xdef6f1bb 0x21bff4f7 0x83f91599)
      = (Vars.mk 0x846e9911 0xff2e4f68 0xefd417f0 0xaf711d62
          0x10da683a 0x0c8559b4 0xee0aff38 0x8fde2f1f) := by
  decide!

theorem chunk_123 :
    iter_fast KW_a 125
      (Vars.mk 0x846e9911 0xff2e4f68 0xefd417f0 0xaf711d62
        0x10da683a 0x0c8559b4 0xee0aff38 0x8fde2f1f)
      = (Vars.mk 0xdb38a3a3 0x22d0cd15 0xbcb0ec06 0x7ed3c812
          0xc97b5fb9 0x5f042d48 0x499f4176 0x004c9965) := by
  decide!

theorem chunk_124 :
    iter_fast KW_a 125
      (Vars.mk 0xdb38a3a3 0x22d0cd15 0xbcb0ec06 0x7ed3c812
        0xc97b5fb9 0x5f042d48 0x499f4176 0x004c9965)
      = (Vars.mk 0x7ada70eb 0x68068a22 0x2f2f02c7 0x7f9376c2
          0x70501a1f 0xd25beac6 0x280325fc 0x2950ab39) := by
  decide!

theorem chunks_000_025 :
    iter_fast KW_a 3125
      (Vars.mk 0x6a09e667 0xbb67ae85 0x3c6ef372 0xa54ff53a
        0x510e527f 0x9b05688c 0x1f83d9ab 0x5be0cd19)
      = (Vars.mk 0x12e49657 0xfb99a686 0x128ef21f 0x03d22ab7
          0x4563f135 0x6bc1bcce 0x993e6b6a 0x87b4fc39) :=
  iter_chain 3000 _ _ _
    (iter_chain 2875 _ _ _
    (iter_chain 2750 _ _ _
    (iter_chain 2625 _ _ _
    (iter_chain 2500 _ _ _
    (iter_chain 2375 _ _ _
    (iter_chain 2250 _ _ _
    (iter_chain 2125 _ _ _
    (iter_chain 2000 _ _ _
    (iter_chain 1875 _ _ _
    (iter_chain 1750 _ _ _
    (iter_chain 1625 _ _ _
    (iter_chain 1500 _ _ _
    (iter_chain 1375 _ _ _
    (iter_chain 1250 _ _ _
    (iter_chain 1125 _ _ _
    (iter_chain 1000 _ _ _
    (iter_chain 875 _ _ _
    (iter_chain 750 _ _ _
    (iter_chain 625 _ _ _
    (iter_chain 500 _ _ _
    (iter_chain 375 _ _ _
    (iter_chain 250 _ _ _
    (iter_chain 125 _ _ _
    (chunk_000)
    chunk_001)
    chunk_002)
    chunk_003)
    chunk_004)
    chunk_005)
    chunk_006)
    chunk_007)
    chunk_008)
    chunk_009)
    chunk_010)
    chunk_011)
    chunk_012)
    chunk_013)
    chunk_014)
    chunk_015)
    chunk_016)
    chunk_017)
    chunk_018)
    chunk_019)
    chunk_020)
    chunk_021)
    chunk_022)
    chunk_023)
    chunk_024

theorem chunks_025_050 :
    iter_fast KW_a 3125
      (Vars.mk 0x12e49657 0xfb99a686 0x128ef21f 0x03d22ab7
        0x4563f135 0x6bc1bcce 0x993e6b6a 0x87b4fc39)
      = (Vars.mk 0xeb7abd5f 0x468d7843 0x1f385e18 0x4054a165
          0xd2771833 0x7540373c 0xf5296b39 0x685127ec) :=
  iter_chain 3000 _ _ _
    (iter_chain 2875 _ _ _
    (iter_chain 2750 _ _ _
    (iter_chain 2625 _ _ _
    (iter_chain 2500 _ _ _
    (iter_chain 2375 _ _ _
    (iter_chain 2250 _ _ _
    (iter_chain 2125 _ _ _
    (iter_chain 2000 _ _ _
    (iter_chain 1875 _ _ _
    (iter_chain 1750 _ _ _
    (iter_chain 1625 _ _ _
    (iter_chain 1500 _ _ _
    (iter_chain 1375 _ _ _
    (iter_chain 1250 _ _ _
    (iter_chain 1125 _ _ _
    (iter_chain 1000 _ _ _
    (iter_chain 875 _ _ _
    (iter_chain 750 _ _ _
    (iter_chain 625 _ _ _
    (iter_chain 500 _ _ _
    (iter_chain 375 _ _ _
    (iter_chain 250 _ _ _
    (iter_chain 125 _ _ _
    (chunk_025)
    chunk_026)
    chunk_027)
    chunk_028)
    chunk_029)
    chunk_030)
    chunk_031)
    chunk_032)
    chunk_033)
    chunk_034)
    chunk_035)
    chunk_036)
    chunk_037)
    chunk_038)
    chunk_039)
    chunk_040)
    chunk_041)
    chunk_042)
    chunk_043)
    chunk_044)
    chunk_045)
    chunk_046)
    chunk_047)
    chunk_048)
    chunk_049

theorem chunks_050_075 :
    iter_fast KW_a 3125
      (Vars.mk 0xeb7abd5f 0x468d7843 0x1f385e18 0x4054a165
        0xd2771833 0x7540373c 0xf5296b39 0x685127ec)
      = (Vars.mk 0x84dd3cfe 0x4a616cae 0xba883981 0x2fbe58b4
          0xda6a1199 0x7f4fea84 0x62af7121 0xf105db1e) :=
  iter_chain 3000 _ _ _
    (iter_chain 2875 _ _ _
    (iter_chain 2750 _ _ _
    (iter_chain 2625 _ _ _
    (iter_chain 2500 _ _ _
    (iter_chain 2375 _ _ _
    (iter_chain 2250 _ _ _
    (iter_chain 2125 _ _ _
    (iter_chain 2000 _ _ _
    (iter_chain 1875 _ _ _
    (iter_chain 1750 _ _ _
    (iter_chain 1625 _ _ _
    (iter_chain 1500 _ _ _
    (iter_chain 1375 _ _ _
    (iter_chain 1250 _ _ _
    (iter_chain 1125 _ _ _
    (iter_chain 1000 _ _ _
    (iter_chain 875 _ _ _
    (iter_chain 750 _ _ _
    (iter_chain 625 _ _ _
    (iter_chain 500 _ _ _
    (iter_chain 375 _ _ _
    (iter_chain 250 _ _ _
    (iter_chain 125 _ _ _
    (chunk_050)
    chunk_051)
    chunk_052)
    chunk_053)
    chunk_054)
    chunk_055)
    chunk_056)
    chunk_057)
    chunk_058)
    chunk_059)
    chunk_060)
    chunk_061)
    chunk_062)
    chunk_063)
    chunk_064)
    chunk_065)
    chunk_066)
    chunk_067)
    chunk_068)
    chunk_069)
    chunk_070)
    chunk_071)
    chunk_072)
    chunk_073)
    chunk_074

theorem chunks_075_100 :
    iter_fast KW_a 3125
      (Vars.mk 0x84dd3cfe 0x4a616cae 0xba883981 0x2fbe58b4
        0xda6a1199 0x7f4fea84 0x62af7121 0xf105db1e)
      = (Vars.mk 0x5b11f557 0x266263ba 0x0838a610 0x7157225c
          0x57968c1f 0x0c97e195 0x9b84c6b1 0xda69c93e) :=
  iter_chain 3000 _ _ _
    (iter_chain 2875 _ _ _
    (iter_chain 2750 _ _ _
    (iter_chain 2625 _ _ _
    (iter_chain 2500 _ _ _
    (iter_chain 2375 _ _ _
    (iter_chain 2250 _ _ _
    (iter_chain 2125 _ _ _
    (iter_chain 2000 _ _ _
    (iter_chain 1875 _ _ _
    (iter_chain 1750 _ _ _
    (iter_chain 1625 _ _ _
    (iter_chain 1500 _ _ _
    (iter_chain 1375 _ _ _
    (iter_chain 1250 _ _ _
    (iter_chain 1125 _ _ _
    (iter_chain 1000 _ _ _
    (iter_chain 875 _ _ _
    (iter_chain 750 _ _ _
    (iter_chain 625 _ _ _
    (iter_chain 500 _ _ _
    (iter_chain 375 _ _ _
    (iter_chain 250 _ _ _
    (iter_chain 125 _ _ _
    (chunk_075)
    chunk_076)
    chunk_077)
    chunk_078)
    chunk_079)
    chunk_080)
    chunk_081)
    chunk_082)
    chunk_083)
    chunk_084)
    chunk_085)
    chunk_086)
    chunk_087)
    chunk_088)
    chunk_089)
    chunk_090)
    chunk_091)
    chunk_092)
    chunk_093)
    chunk_094)
    chunk_095)
    chunk_096)
    chunk_097)
    chunk_098)
    chunk_099

theorem chunks_100_125 :
    iter_fast KW_a 3125
      (Vars.mk 0x5b11f557 0x266263ba 0x0838a610 0x7157225c
        0x57968c1f 0x0c97e195 0x9b84c6b1 0xda69c93e)
      = (Vars.mk 0x7ada70eb 0x68068a22 0x2f2f02c7 0x7f9376c2
          0x70501a1f 0xd25beac6 0x280325fc 0x2950ab39) :=
  iter_chain 3000 _ _ _
    (iter_chain 2875 _ _ _
    (iter_chain 2750 _ _ _
    (iter_chain 2625 _ _ _
    (iter_chain 2500 _ _ _
    (iter_chain 2375 _ _ _
    (iter_chain 2250 _ _ _
    (iter_chain 2125 _ _ _
    (iter_chain 2000 _ _ _
    (iter_chain 1875 _ _ _
    (iter_chain 1750 _ _ _
    (iter_chain 1625 _ _ _
    (iter_chain 1500 _ _ _
    (iter_chain 1375 _ _ _
    (iter_chain 1250 _ _ _
    (iter_chain 1125 _ _ _
    (iter_chain 1000 _ _ _
    (iter_chain 875 _ _ _
    (iter_chain 750 _ _ _
    (iter_chain 625 _ _ _
    (iter_chain 500 _ _ _
    (iter_chain 375 _ _ _
    (iter_chain 250 _ _ _
    (iter_chain 125 _ _ _
    (chunk_100)
    chunk_101)
    chunk_102)
    chunk_103)
    chunk_104)
    chunk_105)
    chunk_106)
    chunk_107)
    chunk_108)
    chunk_109)
    chunk_110)
    chunk_111)
    chunk_112)
    chunk_113)
    chunk_114)
    chunk_115)
    chunk_116)
    chunk_117)
    chunk_118)
    chunk_119)
    chunk_120)
    chunk_121)
    chunk_122)
    chunk_123)
    chunk_124

/-- The state after the 15625 full blocks of the message. -/
theorem iter_fast_full :
    iter_fast KW_a 15625
      (Vars.mk 0x6a09e667 0xbb67ae85 0x3c6ef372 0xa54ff53a
        0x510e527f 0x9b05688c 0x1f83d9ab 0x5be0cd19)
      = (Vars.mk 0x7ada70eb 0x68068a22 0x2f2f02c7 0x7f9376c2
          0x70501a1f 0xd25beac6 0x280325fc 0x2950ab39) := by
  rw [show 15625 = 3125 + (3125 + (3125 + (3125 + 3125))) from rfl, iter_fast_add,
    iter_fast_add, iter_fast_add, iter_fast_add, chunks_000_025, chunks_025_050,
    chunks_050_075, chunks_075_100, chunks_100_125]

set_option maxRecDepth 100000 in
theorem sha256_million_tail :
    serialise (sha256_block
      (of_vars (Vars.mk 0x7ada70eb 0x68068a22 0x2f2f02c7 0x7f9376c2
          0x70501a1f 0xd25beac6 0x280325fc 0x2950ab39))
      (0x80 :: List.replicate 55 0 ++ be64 (8 * 1000000))) =
      [0xcd, 0xc7, 0x6e, 0x5c, 0x99, 0x14, 0xfb, 0x92, 0x81, 0xa1, 0xc7, 0xe2, 0x84, 0xd7, 0x3e,
     0x67, 0xf1, 0x80, 0x9a, 0x48, 0xa4, 0x97, 0x20, 0x0e, 0x04, 0x6d, 0x39, 0xcc, 0xc7, 0x11,
     0x2c, 0xd0] := by
  decide

/-- Claim C10. On the input of one million bytes `0x61` (the letter `a`), `sha256` returns
`cdc76e5c9914fb9281a1c7e284d73e67f1809a48a497200e046d39ccc7112cd0`. -/
theorem sha256_million_a :
    sha256 (List.replicate 1000000 0x61) 1000000 =
      [0xcd, 0xc7, 0x6e, 0x5c, 0x99, 0x14, 0xfb, 0x92, 0x81, 0xa1, 0xc7, 0xe2, 0x84, 0xd7, 0x3e,
     0x67, 0xf1, 0x80, 0x9a, 0x48, 0xa4, 0x97, 0x20, 0x0e, 0x04, 0x6d, 0x39, 0xcc, 0xc7, 0x11,
     0x2c, 0xd0] := by
  rw [sha256_replicate 15625 0x61 1000000 rfl (by norm_num), H0_eq_of_vars,
    foldl_replicate_eq_fast _ _ _ (by unfold Vars.wf; decide), round_constants_a,
    iter_fast_full]
  exact sha256_million_tail

end dhcc
